import Mathlib

/-!
Verification development for the RoboEyes eye-animation engine
(`roboeyes.py` and `new/roboeyes_fast.py`).

The Python classes are shallowly embedded: every `self.*` field of the
engine becomes a field of a Lean structure, Python `//` (floor division)
becomes `Int.fdiv`, Python `int(a / b)` (true division then truncation
toward zero) becomes `Int.div`, wall-clock reads and `random.randint`
results are passed in as explicit oracle inputs, and the NumPy pixel
buffer becomes a function `Int → Int → α` (row, column).  Calls whose only
effect is to paint the external PIL image (in `roboeyes.py`) are not part
of the state and are omitted; the NumPy rasterizer of
`new/roboeyes_fast.py`, which the claims are about, is modelled in full.
Float arithmetic in the triangle rasterizer is modelled over `ℚ`
(the literal `0.001` becomes `1/1000`); the clipping properties proved
about it do not depend on the numeric values of the slopes.
-/

namespace Robo

/-! ### Constants (roboeyes.py lines 19-34) -/

def DEFAULT : Int := 0
def TIRED : Int := 1
def ANGRY : Int := 2
def HAPPY : Int := 3
def FROZEN : Int := 4
def SCARY : Int := 5
def CURIOUS : Int := 6
def SAD : Int := 7

def N : Int := 1
def NE : Int := 2
def E : Int := 3
def SE : Int := 4
def S : Int := 5
def SW : Int := 6
def W : Int := 7
def NW : Int := 8

/-! ### Pixel buffers

`new/roboeyes_fast.py` stores the frame as a `height × width` NumPy
array indexed `buffer[row, col]`.  We model it as a total function from
(row, column) to pixel values; a slice assignment
`buffer[y1:y2, x1:x2] = color` becomes `setRegion`. -/

def Buf (α : Type) : Type := Int → Int → α

/-- Slice write `buffer[y1:y2, x1:x2] = c` (a half-open rectangle of rows and columns). -/
def setRegion {α : Type} (y1 y2 x1 x2 : Int) (c : α) (b : Buf α) : Buf α :=
  fun i j => if y1 ≤ i ∧ i < y2 ∧ x1 ≤ j ∧ j < x2 then c else b i j

/-- Row write `buffer[y, xs:xe] = c` (one row). -/
def setRow {α : Type} (y xs xe : Int) (c : α) (b : Buf α) : Buf α :=
  fun i j => if i = y ∧ xs ≤ j ∧ j < xe then c else b i j

/-- The clipped rectangle fill pattern used by `draw_rounded_rect`
(new/roboeyes_fast.py lines 472-477 and the three strips at 481-503):
clamp the extent to the buffer and write only if it is nonempty. -/
def clipRegion {α : Type} (Wd Ht ya yb xa xb : Int) (c : α) (b : Buf α) : Buf α :=
  let y1 := max 0 ya
  let y2 := min Ht yb
  let x1 := max 0 xa
  let x2 := min Wd xb
  if x2 > x1 ∧ y2 > y1 then setRegion y1 y2 x1 x2 c b else b

/-- Which quarter disc `_draw_circle_corner` fills. -/
inductive Corner
  | tl
  | tr
  | bl
  | br
deriving DecidableEq

/-- Python `int(np.sqrt(max(0, n)))` on an integer argument. -/
def isqrt (n : Int) : Int := Int.ofNat (Nat.sqrt (max 0 n).toNat)

/-- The clamped horizontal span `(x_start, x_end)` a quarter-disc scanline
fills, per corner (new/roboeyes_fast.py lines 524-535). -/
def cornerSpanX (Wd cx dxMax : Int) : Corner → Int × Int
  | Corner.tl => (max 0 (cx - dxMax), min Wd (cx + 1))
  | Corner.tr => (max 0 cx, min Wd (cx + dxMax + 1))
  | Corner.bl => (max 0 (cx - dxMax), min Wd (cx + 1))
  | Corner.br => (max 0 cx, min Wd (cx + dxMax + 1))

/-- One scanline of `_draw_circle_corner`: skip an off-buffer row,
otherwise fill the clamped span if nonempty (lines 517-538). -/
def cornerRow {α : Type} (Wd Ht cx py dxMax : Int) (c : α) (corner : Corner)
    (b : Buf α) : Buf α :=
  if py < 0 ∨ Ht ≤ py then b
  else if (cornerSpanX Wd cx dxMax corner).1 < (cornerSpanX Wd cx dxMax corner).2 then
    setRow py (cornerSpanX Wd cx dxMax corner).1 (cornerSpanX Wd cx dxMax corner).2 c b
  else b

/-- The scanline loop of `_draw_circle_corner`
(new/roboeyes_fast.py lines 516-538): `k` scanlines remain, `dy` is the
current offset from the centre row. -/
def cornerGo {α : Type} (Wd Ht cx cy r : Int) (c : α) (corner : Corner) :
    Nat → Int → Buf α → Buf α
  | 0, _, b => b
  | Nat.succ k, dy, b =>
    cornerGo Wd Ht cx cy r c corner k (dy + 1)
      (cornerRow Wd Ht cx (cy + dy) (isqrt (r * r - dy * dy)) c corner b)

/-- Source `FastRoboEyes._draw_circle_corner(cx, cy, r, color, corner)`:
`for dy in range(-r, r + 1)`. -/
def drawCircleCorner {α : Type} (Wd Ht cx cy r : Int) (c : α) (corner : Corner)
    (b : Buf α) : Buf α :=
  cornerGo Wd Ht cx cy r c corner (2 * r + 1).toNat (-r) b

/-- Body of `FastRoboEyes.draw_rounded_rect` after the radius clamp
(new/roboeyes_fast.py lines 470-509). -/
def drawRoundedRectCore {α : Type} (Wd Ht x y w h r : Int) (c : α) (b : Buf α) :
    Buf α :=
  if r ≤ 0 ∨ w ≤ 0 ∨ h ≤ 0 then
    clipRegion Wd Ht y (y + h) x (x + w) c b
  else
    let b1 := clipRegion Wd Ht y (y + r) (x + r) (x + w - r) c b
    let b2 := clipRegion Wd Ht (y + r) (y + h - r) x (x + w) c b1
    let b3 := clipRegion Wd Ht (y + h - r) (y + h) (x + r) (x + w - r) c b2
    let b4 := drawCircleCorner Wd Ht (x + r) (y + r) r c Corner.tl b3
    let b5 := drawCircleCorner Wd Ht (x + w - r) (y + r) r c Corner.tr b4
    let b6 := drawCircleCorner Wd Ht (x + r) (y + h - r) r c Corner.bl b5
    drawCircleCorner Wd Ht (x + w - r) (y + h - r) r c Corner.br b6

/-- Source `FastRoboEyes.draw_rounded_rect(x, y, w, h, r, color)`:
`r = min(r, w // 2, h // 2)` then the clamped body. -/
def drawRoundedRect {α : Type} (Wd Ht x y w h r : Int) (c : α) (b : Buf α) :
    Buf α :=
  drawRoundedRectCore Wd Ht x y w h (min r (min (Int.fdiv w 2) (Int.fdiv h 2))) c b

/-- Python `int(q)` on a float value: truncation toward zero, modelled on `ℚ`. -/
def ratTrunc (q : ℚ) : Int := if q < 0 then -(Rat.floor (-q)) else Rat.floor q

/-- The `0.001` guard the Python code adds to divisors. -/
def qeps : ℚ := 1 / 1000

/-- One scanline of the triangle fills (new/roboeyes_fast.py lines
577-581 and 596-600): skip an off-buffer row, otherwise fill the span
between the clamped truncated edge positions `t1, t2` if nonempty. -/
def scanRow {α : Type} (Wd Ht yy t1 t2 : Int) (c : α) (b : Buf α) : Buf α :=
  if 0 ≤ yy ∧ yy < Ht then
    if max 0 (min t1 t2) < min Wd (max t1 t2 + 1) then
      setRow yy (max 0 (min t1 t2)) (min Wd (max t1 t2 + 1)) c b
    else b
  else b

/-- The scanline loop shared by `_fill_bottom_flat_triangle`
(new/roboeyes_fast.py lines 576-583) and `_fill_top_flat_triangle`
(lines 595-602): `k` scanlines remain, `yy` is the current scanline,
`cx1, cx2` the accumulated float edge positions, `d1, d2` the per-line
increments (negated slopes for the top-flat walk) and `dir` the row step. -/
def scanGo {α : Type} (Wd Ht : Int) (c : α) (d1 d2 : ℚ) (dir : Int) :
    Nat → Int → ℚ → ℚ → Buf α → Buf α
  | 0, _, _, _, b => b
  | Nat.succ k, yy, cx1, cx2, b =>
    scanGo Wd Ht c d1 d2 dir k (yy + dir) (cx1 + d1) (cx2 + d2)
      (scanRow Wd Ht yy (ratTrunc cx1) (ratTrunc cx2) c b)

/-- Source `FastRoboEyes._fill_bottom_flat_triangle` (lines 566-583). -/
def fillBottomFlat {α : Type} (Wd Ht x0 y0 x1 y1 x2 y2 : Int) (c : α)
    (b : Buf α) : Buf α :=
  if y1 = y0 then b
  else
    scanGo Wd Ht c
      (((x1 : ℚ) - (x0 : ℚ)) / ((y1 : ℚ) - (y0 : ℚ) + qeps))
      (((x2 : ℚ) - (x0 : ℚ)) / ((y2 : ℚ) - (y0 : ℚ) + qeps))
      1 (y1 - y0 + 1).toNat y0 (x0 : ℚ) (x0 : ℚ) b

/-- Source `FastRoboEyes._fill_top_flat_triangle` (lines 585-602); the walk is
downward from `y2`, decrementing the accumulators. -/
def fillTopFlat {α : Type} (Wd Ht x0 y0 x1 y1 x2 y2 : Int) (c : α)
    (b : Buf α) : Buf α :=
  if y2 = y0 then b
  else
    scanGo Wd Ht c
      (-(((x2 : ℚ) - (x0 : ℚ)) / ((y2 : ℚ) - (y0 : ℚ) + qeps)))
      (-(((x2 : ℚ) - (x1 : ℚ)) / ((y2 : ℚ) - (y1 : ℚ) + qeps)))
      (-1) (y2 - y0 + 1).toNat y2 (x2 : ℚ) (x2 : ℚ) b

/-- The three conditional swaps sorting the vertices by `y`
(new/roboeyes_fast.py lines 545-550). -/
def sortY3 (x0 y0 x1 y1 x2 y2 : Int) : Int × Int × Int × Int × Int × Int :=
  match (if y0 > y1 then (x1, y1, x0, y0, x2, y2) else (x0, y0, x1, y1, x2, y2)) with
  | (a0, b0, a1, b1, a2, b2) =>
    match (if b0 > b2 then (a2, b2, a1, b1, a0, b0) else (a0, b0, a1, b1, a2, b2)) with
    | (c0, d0, c1, d1, c2, d2) =>
      if d1 > d2 then (c0, d0, c2, d2, c1, d1) else (c0, d0, c1, d1, c2, d2)

/-- Body of `FastRoboEyes.fill_triangle` after vertex sorting
(lines 552-564): flat cases, or split at the middle vertex. -/
def triCore {α : Type} (Wd Ht x0 y0 x1 y1 x2 y2 : Int) (c : α) (b : Buf α) :
    Buf α :=
  if y1 = y2 then fillBottomFlat Wd Ht x0 y0 x1 y1 x2 y2 c b
  else if y0 = y1 then fillTopFlat Wd Ht x0 y0 x1 y1 x2 y2 c b
  else
    let x3 := ratTrunc ((x0 : ℚ) +
      (((y1 : ℚ) - (y0 : ℚ)) / ((y2 : ℚ) - (y0 : ℚ) + qeps)) * ((x2 : ℚ) - (x0 : ℚ)))
    fillTopFlat Wd Ht x1 y1 x3 y1 x2 y2 c
      (fillBottomFlat Wd Ht x0 y0 x1 y1 x3 y1 c b)

/-- Source `FastRoboEyes.fill_triangle(x0, y0, x1, y1, x2, y2, color)`. -/
def fillTriangle {α : Type} (Wd Ht x0 y0 x1 y1 x2 y2 : Int) (c : α)
    (b : Buf α) : Buf α :=
  match sortY3 x0 y0 x1 y1 x2 y2 with
  | (a0, b0, a1, b1, a2, b2) => triCore Wd Ht a0 b0 a1 b1 a2 b2 c b

/-! ### Clipping lemmas for the rasterizer -/

theorem setRegion_out {α : Type} {Wd Ht y1 y2 x1 x2 i j : Int} {c : α} {b : Buf α}
    (hy1 : 0 ≤ y1) (hy2 : y2 ≤ Ht) (hx1 : 0 ≤ x1) (hx2 : x2 ≤ Wd)
    (ho : i < 0 ∨ Ht ≤ i ∨ j < 0 ∨ Wd ≤ j) :
    setRegion y1 y2 x1 x2 c b i j = b i j := by
  unfold setRegion
  rw [if_neg]
  intro hmem
  omega

theorem setRow_out {α : Type} {Wd Ht y xs xe i j : Int} {c : α} {b : Buf α}
    (hy0 : 0 ≤ y) (hyH : y < Ht) (hx1 : 0 ≤ xs) (hx2 : xe ≤ Wd)
    (ho : i < 0 ∨ Ht ≤ i ∨ j < 0 ∨ Wd ≤ j) :
    setRow y xs xe c b i j = b i j := by
  unfold setRow
  rw [if_neg]
  intro hmem
  omega

theorem clipRegion_out {α : Type} {Wd Ht ya yb xa xb i j : Int} {c : α} {b : Buf α}
    (ho : i < 0 ∨ Ht ≤ i ∨ j < 0 ∨ Wd ≤ j) :
    clipRegion Wd Ht ya yb xa xb c b i j = b i j := by
  unfold clipRegion
  split
  · exact setRegion_out (le_max_left 0 ya) (min_le_left Ht yb)
      (le_max_left 0 xa) (min_le_left Wd xb) ho
  · rfl

theorem cornerSpanX_bounds (Wd cx dxMax : Int) (co : Corner) :
    0 ≤ (cornerSpanX Wd cx dxMax co).1 ∧ (cornerSpanX Wd cx dxMax co).2 ≤ Wd := by
  cases co <;> exact ⟨le_max_left _ _, min_le_left _ _⟩

theorem cornerRow_out {α : Type} {Wd Ht cx py dxMax i j : Int} {c : α}
    {corner : Corner} {b : Buf α} (ho : i < 0 ∨ Ht ≤ i ∨ j < 0 ∨ Wd ≤ j) :
    cornerRow Wd Ht cx py dxMax c corner b i j = b i j := by
  unfold cornerRow
  split
  · rfl
  · rename_i hpy
    push_neg at hpy
    split
    · exact setRow_out hpy.1 hpy.2 (cornerSpanX_bounds Wd cx dxMax corner).1
        (cornerSpanX_bounds Wd cx dxMax corner).2 ho
    · rfl

theorem cornerGo_out {α : Type} {Wd Ht cx cy r : Int} {c : α} {corner : Corner}
    {i j : Int} (ho : i < 0 ∨ Ht ≤ i ∨ j < 0 ∨ Wd ≤ j) :
    ∀ (k : Nat) (dy : Int) (b : Buf α),
      cornerGo Wd Ht cx cy r c corner k dy b i j = b i j := by
  intro k
  induction k with
  | zero => intro dy b; rfl
  | succ k ih =>
    intro dy b
    rw [cornerGo, ih, cornerRow_out ho]

theorem drawCircleCorner_out {α : Type} {Wd Ht cx cy r : Int} {c : α}
    {corner : Corner} {b : Buf α} {i j : Int}
    (ho : i < 0 ∨ Ht ≤ i ∨ j < 0 ∨ Wd ≤ j) :
    drawCircleCorner Wd Ht cx cy r c corner b i j = b i j :=
  cornerGo_out ho _ _ b

theorem scanRow_out {α : Type} {Wd Ht yy t1 t2 i j : Int} {c : α} {b : Buf α}
    (ho : i < 0 ∨ Ht ≤ i ∨ j < 0 ∨ Wd ≤ j) :
    scanRow Wd Ht yy t1 t2 c b i j = b i j := by
  unfold scanRow
  split
  · rename_i hyy
    split
    · exact setRow_out hyy.1 hyy.2 (le_max_left _ _) (min_le_left _ _) ho
    · rfl
  · rfl

theorem scanGo_out {α : Type} {Wd Ht : Int} {c : α} {d1 d2 : ℚ} {dir : Int}
    {i j : Int} (ho : i < 0 ∨ Ht ≤ i ∨ j < 0 ∨ Wd ≤ j) :
    ∀ (k : Nat) (yy : Int) (cx1 cx2 : ℚ) (b : Buf α),
      scanGo Wd Ht c d1 d2 dir k yy cx1 cx2 b i j = b i j := by
  intro k
  induction k with
  | zero => intro yy cx1 cx2 b; rfl
  | succ k ih =>
    intro yy cx1 cx2 b
    rw [scanGo, ih, scanRow_out ho]

theorem fillBottomFlat_out {α : Type} {Wd Ht x0 y0 x1 y1 x2 y2 i j : Int}
    {c : α} {b : Buf α} (ho : i < 0 ∨ Ht ≤ i ∨ j < 0 ∨ Wd ≤ j) :
    fillBottomFlat Wd Ht x0 y0 x1 y1 x2 y2 c b i j = b i j := by
  unfold fillBottomFlat
  split
  · rfl
  · exact scanGo_out ho _ _ _ _ b

theorem fillTopFlat_out {α : Type} {Wd Ht x0 y0 x1 y1 x2 y2 i j : Int}
    {c : α} {b : Buf α} (ho : i < 0 ∨ Ht ≤ i ∨ j < 0 ∨ Wd ≤ j) :
    fillTopFlat Wd Ht x0 y0 x1 y1 x2 y2 c b i j = b i j := by
  unfold fillTopFlat
  split
  · rfl
  · exact scanGo_out ho _ _ _ _ b

theorem triCore_out {α : Type} {Wd Ht x0 y0 x1 y1 x2 y2 i j : Int}
    {c : α} {b : Buf α} (ho : i < 0 ∨ Ht ≤ i ∨ j < 0 ∨ Wd ≤ j) :
    triCore Wd Ht x0 y0 x1 y1 x2 y2 c b i j = b i j := by
  unfold triCore
  split
  · exact fillBottomFlat_out ho
  · split
    · exact fillTopFlat_out ho
    · rw [fillTopFlat_out ho, fillBottomFlat_out ho]

theorem fillTriangle_out {α : Type} {Wd Ht x0 y0 x1 y1 x2 y2 i j : Int}
    {c : α} {b : Buf α} (ho : i < 0 ∨ Ht ≤ i ∨ j < 0 ∨ Wd ≤ j) :
    fillTriangle Wd Ht x0 y0 x1 y1 x2 y2 c b i j = b i j := by
  unfold fillTriangle
  obtain ⟨a0, b0, a1, b1, a2, b2⟩ := sortY3 x0 y0 x1 y1 x2 y2
  exact triCore_out ho

theorem drawRoundedRectCore_out {α : Type} {Wd Ht x y w h r i j : Int}
    {c : α} {b : Buf α} (ho : i < 0 ∨ Ht ≤ i ∨ j < 0 ∨ Wd ≤ j) :
    drawRoundedRectCore Wd Ht x y w h r c b i j = b i j := by
  unfold drawRoundedRectCore
  split
  · exact clipRegion_out ho
  · rw [drawCircleCorner_out ho, drawCircleCorner_out ho, drawCircleCorner_out ho,
      drawCircleCorner_out ho, clipRegion_out ho, clipRegion_out ho, clipRegion_out ho]

theorem drawRoundedRect_out {α : Type} {Wd Ht x y w h r i j : Int}
    {c : α} {b : Buf α} (ho : i < 0 ∨ Ht ≤ i ∨ j < 0 ∨ Wd ≤ j) :
    drawRoundedRect Wd Ht x y w h r c b i j = b i j :=
  drawRoundedRectCore_out ho

/-! ### Arithmetic about Python `// 2` -/

theorem fdiv2_eq (a : Int) : Int.fdiv a 2 = a / 2 := Int.fdiv_eq_ediv a (by norm_num)

theorem fdiv2_min (w h : Int) :
    Int.fdiv (min w h) 2 = min (Int.fdiv w 2) (Int.fdiv h 2) := by
  simp only [fdiv2_eq]
  rcases le_total w h with hc | hc
  · rw [min_eq_left hc, min_eq_left (by omega : w / 2 ≤ h / 2)]
  · rw [min_eq_right hc, min_eq_right (by omega : h / 2 ≤ w / 2)]

/-- The internal radius clamp of `draw_rounded_rect` is already saturated
at `min(w, h) // 2`: any `r` at or above the cap clamps to the same value. -/
theorem clamp_saturates {w h r : Int} (hr : Int.fdiv (min w h) 2 ≤ r) :
    min r (min (Int.fdiv w 2) (Int.fdiv h 2)) =
      min (Int.fdiv (min w h) 2) (min (Int.fdiv w 2) (Int.fdiv h 2)) := by
  rw [fdiv2_min] at hr ⊢
  rw [min_eq_right hr, min_self]

/-! ### Engine state (`RoboEyes.__init__`, roboeyes.py lines 133-268)

Every mutable `self.*` attribute of the engine becomes a field (the
Python `_mood`, `_curious`, `_cyclops`, `_position`, `_confused` and
`_laugh` lose their underscore).  The PIL frame buffer and the display
handle are external to the state; `draw_eyes` below performs exactly the
state mutations of the source, in source order. -/

structure RoboState where
  screen_width : Int
  screen_height : Int
  frame_interval : Int
  fps_timer : Int
  position : Int
  mood : Int
  tired : Bool
  angry : Bool
  happy : Bool
  curious : Bool
  cyclops : Bool
  eye_l_open : Bool
  eye_r_open : Bool
  space_between_default : Int
  eye_l_width_default : Int
  eye_l_height_default : Int
  eye_r_width_default : Int
  eye_r_height_default : Int
  eye_l_border_radius_default : Int
  eye_r_border_radius_default : Int
  eye_l_width_current : Int
  eye_l_height_current : Int
  eye_r_width_current : Int
  eye_r_height_current : Int
  eye_l_border_radius_current : Int
  eye_r_border_radius_current : Int
  space_between_current : Int
  eye_l_width_next : Int
  eye_l_height_next : Int
  eye_r_width_next : Int
  eye_r_height_next : Int
  eye_l_border_radius_next : Int
  eye_r_border_radius_next : Int
  space_between_next : Int
  eye_l_height_offset : Int
  eye_r_height_offset : Int
  eye_l_x_default : Int
  eye_l_y_default : Int
  eye_l_x : Int
  eye_l_y : Int
  eye_l_x_next : Int
  eye_l_y_next : Int
  eye_r_x_default : Int
  eye_r_y_default : Int
  eye_r_x : Int
  eye_r_y : Int
  eye_r_x_next : Int
  eye_r_y_next : Int
  eyelids_height_max : Int
  eyelids_tired_height : Int
  eyelids_tired_height_next : Int
  eyelids_angry_height : Int
  eyelids_angry_height_next : Int
  eyelids_happy_bottom_offset : Int
  eyelids_happy_bottom_offset_next : Int
  h_flicker : Bool
  h_flicker_amplitude : Int
  h_flicker_alternate : Bool
  v_flicker : Bool
  v_flicker_amplitude : Int
  v_flicker_alternate : Bool
  autoblinker : Bool
  blink_interval : Int
  blink_interval_variation : Int
  blink_timer : Int
  idle : Bool
  idle_interval : Int
  idle_interval_variation : Int
  idle_animation_timer : Int
  confused : Bool
  confused_animation_timer : Int
  confused_animation_duration : Int
  confused_toggle : Bool
  laugh : Bool
  laugh_animation_timer : Int
  laugh_animation_duration : Int
  laugh_toggle : Bool
deriving DecidableEq

/-- The ambient inputs one `draw_eyes` call reads: the clock
(`int(time.time() * 1000)`) and the results of the `random.randint`
calls for the auto-blinker reschedule and the idle-mode target pick. -/
structure TickIn where
  now : Int
  rand_blink : Int
  rand_idle_x : Int
  rand_idle_y : Int
  rand_idle_t : Int
deriving DecidableEq

/-- The raw field assignments of `RoboEyes.__init__` (lines 133-265),
before the constructor's final `draw_eyes()` call.  `int(a / 2)` in the
source truncates toward zero, hence `Int.div`. -/
def mkRoboEyes (width height frame_rate : Int) : RoboState :=
  let eye_l_x_default := Int.tdiv (width - (36 + 10 + 36)) 2
  let eye_l_y_default := Int.tdiv (height - 36) 2
  { screen_width := width
    screen_height := height
    frame_interval := Int.fdiv 1000 frame_rate
    fps_timer := 0
    position := 0
    mood := DEFAULT
    tired := false
    angry := false
    happy := false
    curious := false
    cyclops := false
    eye_l_open := false
    eye_r_open := false
    space_between_default := 10
    eye_l_width_default := 36
    eye_l_height_default := 36
    eye_r_width_default := 36
    eye_r_height_default := 36
    eye_l_border_radius_default := 8
    eye_r_border_radius_default := 8
    eye_l_width_current := 36
    eye_l_height_current := 1
    eye_r_width_current := 36
    eye_r_height_current := 1
    eye_l_border_radius_current := 8
    eye_r_border_radius_current := 8
    space_between_current := 10
    eye_l_width_next := 36
    eye_l_height_next := 36
    eye_r_width_next := 36
    eye_r_height_next := 36
    eye_l_border_radius_next := 8
    eye_r_border_radius_next := 8
    space_between_next := 10
    eye_l_height_offset := 0
    eye_r_height_offset := 0
    eye_l_x_default := eye_l_x_default
    eye_l_y_default := eye_l_y_default
    eye_l_x := eye_l_x_default
    eye_l_y := eye_l_y_default
    eye_l_x_next := eye_l_x_default
    eye_l_y_next := eye_l_y_default
    eye_r_x_default := eye_l_x_default + 36 + 10
    eye_r_y_default := eye_l_y_default
    eye_r_x := eye_l_x_default + 36 + 10
    eye_r_y := eye_l_y_default
    eye_r_x_next := eye_l_x_default + 36 + 10
    eye_r_y_next := eye_l_y_default
    eyelids_height_max := Int.tdiv 36 2
    eyelids_tired_height := 0
    eyelids_tired_height_next := 0
    eyelids_angry_height := 0
    eyelids_angry_height_next := 0
    eyelids_happy_bottom_offset := 0
    eyelids_happy_bottom_offset_next := 0
    h_flicker := false
    h_flicker_amplitude := 0
    h_flicker_alternate := false
    v_flicker := false
    v_flicker_amplitude := 0
    v_flicker_alternate := false
    autoblinker := false
    blink_interval := 3
    blink_interval_variation := 2
    blink_timer := 0
    idle := false
    idle_interval := 1
    idle_interval_variation := 3
    idle_animation_timer := 0
    confused := false
    confused_animation_timer := 0
    confused_animation_duration := 500
    confused_toggle := true
    laugh := false
    laugh_animation_timer := 0
    laugh_animation_duration := 500
    laugh_toggle := true }

/-! ### Public mutators (roboeyes.py lines 290-497)

Optional Python arguments become `Option` values; `left is not None`
becomes `isSome`. -/

/-- Source `RoboEyes.get_screen_constraint_x` (lines 379-381). -/
def getScreenConstraintX (s : RoboState) : Int :=
  s.screen_width - s.eye_l_width_current - s.space_between_current - s.eye_r_width_current

/-- Source `RoboEyes.get_screen_constraint_y` (lines 383-385). -/
def getScreenConstraintY (s : RoboState) : Int :=
  s.screen_height - s.eye_l_height_default

/-- Source `RoboEyes.set_framerate` (lines 290-292). -/
def setFramerate (s : RoboState) (fps : Int) : RoboState :=
  { s with frame_interval := Int.fdiv 1000 fps }

/-- Source `RoboEyes.eyes_width` (lines 294-301). -/
def eyesWidth (s : RoboState) (left_eye right_eye : Option Int) : RoboState :=
  { s with
    eye_l_width_next := if left_eye.isSome then left_eye.getD 0 else s.eye_l_width_next
    eye_l_width_default := if left_eye.isSome then left_eye.getD 0 else s.eye_l_width_default
    eye_r_width_next := if right_eye.isSome then right_eye.getD 0 else s.eye_r_width_next
    eye_r_width_default := if right_eye.isSome then right_eye.getD 0 else s.eye_r_width_default }

/-- Source `RoboEyes.eyes_height` (lines 303-310). -/
def eyesHeight (s : RoboState) (left_eye right_eye : Option Int) : RoboState :=
  { s with
    eye_l_height_next := if left_eye.isSome then left_eye.getD 0 else s.eye_l_height_next
    eye_l_height_default := if left_eye.isSome then left_eye.getD 0 else s.eye_l_height_default
    eye_r_height_next := if right_eye.isSome then right_eye.getD 0 else s.eye_r_height_next
    eye_r_height_default := if right_eye.isSome then right_eye.getD 0 else s.eye_r_height_default }

/-- Source `RoboEyes.eyes_radius` (lines 312-319). -/
def eyesRadius (s : RoboState) (left_eye right_eye : Option Int) : RoboState :=
  { s with
    eye_l_border_radius_next := if left_eye.isSome then left_eye.getD 0 else s.eye_l_border_radius_next
    eye_l_border_radius_default := if left_eye.isSome then left_eye.getD 0 else s.eye_l_border_radius_default
    eye_r_border_radius_next := if right_eye.isSome then right_eye.getD 0 else s.eye_r_border_radius_next
    eye_r_border_radius_default := if right_eye.isSome then right_eye.getD 0 else s.eye_r_border_radius_default }

/-- Source `RoboEyes.eyes_spacing` (lines 321-324). -/
def eyesSpacing (s : RoboState) (space : Int) : RoboState :=
  { s with space_between_next := space, space_between_default := space }

/-- The `mood` property setter (roboeyes.py lines 331-337; the setter in
new/roboeyes_fast.py lines 291-297 is character-for-character the same). -/
def setMood (s : RoboState) (value : Int) : RoboState :=
  { s with
    mood := value
    tired := decide (value = TIRED)
    angry := decide (value = ANGRY)
    happy := decide (value = HAPPY) }

/-- The `curious` property setter (lines 344-347). -/
def setCurious (s : RoboState) (enable : Bool) : RoboState :=
  { s with curious := enable }

/-- The `cyclops` property setter (lines 358-361). -/
def setCyclops (s : RoboState) (enabled : Bool) : RoboState :=
  { s with cyclops := enabled }

/-- Source `RoboEyes.horiz_flicker` (lines 367-371). -/
def horizFlicker (s : RoboState) (enable : Bool) (amplitude : Option Int) : RoboState :=
  { s with
    h_flicker := enable
    h_flicker_amplitude := if amplitude.isSome then amplitude.getD 0 else s.h_flicker_amplitude }

/-- Source `RoboEyes.vert_flicker` (lines 373-377). -/
def vertFlicker (s : RoboState) (enable : Bool) (amplitude : Option Int) : RoboState :=
  { s with
    v_flicker := enable
    v_flicker_amplitude := if amplitude.isSome then amplitude.getD 0 else s.v_flicker_amplitude }

/-- Source `RoboEyes.set_auto_blinker` (lines 387-393). -/
def setAutoBlinker (s : RoboState) (active : Bool) (interval variation : Option Int) : RoboState :=
  { s with
    autoblinker := active
    blink_interval := if interval.isSome then interval.getD 0 else s.blink_interval
    blink_interval_variation := if variation.isSome then variation.getD 0 else s.blink_interval_variation }

/-- Source `RoboEyes.set_idle_mode` (lines 395-401). -/
def setIdleMode (s : RoboState) (active : Bool) (interval variation : Option Int) : RoboState :=
  { s with
    idle := active
    idle_interval := if interval.isSome then interval.getD 0 else s.idle_interval
    idle_interval_variation := if variation.isSome then variation.getD 0 else s.idle_interval_variation }

/-- The `position` property setter (lines 408-442).  The source assigns
`eye_l_x_next` and `eye_l_y_next` in one branch per compass direction and
then stores the direction; here the same per-direction assignments are
grouped per field, with the branch conditions in source order. -/
def setPosition (s : RoboState) (direction : Int) : RoboState :=
  { s with
    eye_l_x_next :=
      if direction = N then Int.fdiv (getScreenConstraintX s) 2
      else if direction = NE then getScreenConstraintX s
      else if direction = E then getScreenConstraintX s
      else if direction = SE then getScreenConstraintX s
      else if direction = S then Int.fdiv (getScreenConstraintX s) 2
      else if direction = SW then 0
      else if direction = W then 0
      else if direction = NW then 0
      else Int.fdiv (getScreenConstraintX s) 2
    eye_l_y_next :=
      if direction = N then 0
      else if direction = NE then 0
      else if direction = E then Int.fdiv (getScreenConstraintY s) 2
      else if direction = SE then getScreenConstraintY s
      else if direction = S then getScreenConstraintY s
      else if direction = SW then getScreenConstraintY s
      else if direction = W then Int.fdiv (getScreenConstraintY s) 2
      else if direction = NW then 0
      else Int.fdiv (getScreenConstraintY s) 2
    position := direction }

/-- Source `RoboEyes.close` (lines 448-461). -/
def close (s : RoboState) (left right : Option Bool) : RoboState :=
  if left = none ∧ right = none then
    { s with eye_l_height_next := 1, eye_r_height_next := 1,
             eye_l_open := false, eye_r_open := false }
  else
    { s with
      eye_l_height_next := if left.isSome then 1 else s.eye_l_height_next
      eye_l_open := if left.isSome then false else s.eye_l_open
      eye_r_height_next := if right.isSome then 1 else s.eye_r_height_next
      eye_r_open := if right.isSome then false else s.eye_r_open }

/-- Source `RoboEyes.open` (lines 463-472). -/
def openEyes (s : RoboState) (left right : Option Bool) : RoboState :=
  if left = none ∧ right = none then
    { s with eye_l_open := true, eye_r_open := true }
  else
    { s with
      eye_l_open := if left.isSome then true else s.eye_l_open
      eye_r_open := if right.isSome then true else s.eye_r_open }

/-- Source `RoboEyes.blink` (lines 474-481): close immediately followed by open,
with the same argument pattern. -/
def blink (s : RoboState) (left right : Option Bool) : RoboState :=
  if left = none ∧ right = none then openEyes (close s none none) none none
  else openEyes (close s left right) left right

/-- Source `RoboEyes.confuse` (lines 483-485). -/
def confuse (s : RoboState) : RoboState :=
  { s with confused := true }

/-- Source `RoboEyes.laugh` (lines 487-489). -/
def startLaugh (s : RoboState) : RoboState :=
  { s with laugh := true }

/-- Python truthiness of an optional boolean argument
(`None` and `False` are falsy). -/
def truthy : Option Bool → Bool
  | none => false
  | some bv => bv

/-- Source `RoboEyes.wink` (lines 491-497): `if not (left or right)` raises a
`ValueError` before any state is touched; otherwise it disables the
auto-blinker and idle mode and performs `blink` on the given arguments. -/
def wink (s : RoboState) (left right : Option Bool) : Except String RoboState :=
  if !(truthy left || truthy right) then
    Except.error "wink requires left or right"
  else
    Except.ok (blink { s with autoblinker := false, idle := false } left right)

/-! ### The tick (`RoboEyes.draw_eyes`, roboeyes.py lines 503-708)

The body is split into one definition per contiguous block of state
mutations, composed in source order by `drawEyes`.  Each stage is a
single record update whose field values carry the source conditionals,
so that a field a block does not assign is literally unchanged.  The
rasterizer calls interleaved between these blocks only paint the
external PIL image and carry no engine state. -/

/-- Curious-mode height offsets (lines 512-526). -/
def stageCurious (s : RoboState) : RoboState :=
  { s with
    eye_l_height_offset :=
      if s.curious = true then
        (if s.eye_l_x_next ≤ 10 then 8
         else if s.eye_l_x_next ≥ getScreenConstraintX s - 10 ∧ s.cyclops = true then 8
         else 0)
      else 0
    eye_r_height_offset :=
      if s.curious = true then
        (if s.eye_r_x_next ≥ s.screen_width - s.eye_r_width_current - 10 then 8 else 0)
      else 0 }

/-- Height smoothing and vertical recentering (lines 529-535); the `y`
adjustments read the height already updated on the same line block. -/
def stageHeights (s : RoboState) : RoboState :=
  { s with
    eye_l_height_current :=
      Int.fdiv (s.eye_l_height_current + s.eye_l_height_next + s.eye_l_height_offset) 2
    eye_l_y := s.eye_l_y
      + Int.fdiv (s.eye_l_height_default
          - Int.fdiv (s.eye_l_height_current + s.eye_l_height_next + s.eye_l_height_offset) 2) 2
      - Int.fdiv s.eye_l_height_offset 2
    eye_r_height_current :=
      Int.fdiv (s.eye_r_height_current + s.eye_r_height_next + s.eye_r_height_offset) 2
    eye_r_y := s.eye_r_y
      + Int.fdiv (s.eye_r_height_default
          - Int.fdiv (s.eye_r_height_current + s.eye_r_height_next + s.eye_r_height_offset) 2) 2
      - Int.fdiv s.eye_r_height_offset 2 }

/-- Auto-reopen after a close (lines 538-544). -/
def stageReopen (s : RoboState) : RoboState :=
  { s with
    eye_l_height_next :=
      if s.eye_l_open = true ∧ s.eye_l_height_current ≤ 1 + s.eye_l_height_offset then
        s.eye_l_height_default
      else s.eye_l_height_next
    eye_r_height_next :=
      if s.eye_r_open = true ∧ s.eye_r_height_current ≤ 1 + s.eye_r_height_offset then
        s.eye_r_height_default
      else s.eye_r_height_next }

/-- Width and spacing smoothing (lines 547-551). -/
def stageWidthSpace (s : RoboState) : RoboState :=
  { s with
    eye_l_width_current := Int.fdiv (s.eye_l_width_current + s.eye_l_width_next) 2
    eye_r_width_current := Int.fdiv (s.eye_r_width_current + s.eye_r_width_next) 2
    space_between_current := Int.fdiv (s.space_between_current + s.space_between_next) 2 }

/-- Position smoothing; the right eye's target is recomputed from the
left eye's target plus this tick's width and spacing (lines 554-560). -/
def stagePositions (s : RoboState) : RoboState :=
  { s with
    eye_l_x := Int.fdiv (s.eye_l_x + s.eye_l_x_next) 2
    eye_l_y := Int.fdiv (s.eye_l_y + s.eye_l_y_next) 2
    eye_r_x_next := s.eye_l_x_next + s.eye_l_width_current + s.space_between_current
    eye_r_y_next := s.eye_l_y_next
    eye_r_x := Int.fdiv (s.eye_r_x + (s.eye_l_x_next + s.eye_l_width_current + s.space_between_current)) 2
    eye_r_y := Int.fdiv (s.eye_r_y + s.eye_l_y_next) 2 }

/-- Border radius smoothing (lines 562-564). -/
def stageRadius (s : RoboState) : RoboState :=
  { s with
    eye_l_border_radius_current :=
      Int.fdiv (s.eye_l_border_radius_current + s.eye_l_border_radius_next) 2
    eye_r_border_radius_current :=
      Int.fdiv (s.eye_r_border_radius_current + s.eye_r_border_radius_next) 2 }

/-- Auto-blinker firing and reschedule (lines 567-570).  `blink()` on
both eyes is `close()` then `open()`, i.e. both height targets go to 1
and both open flags to true; `rand` is the `random.randint(0,
blink_interval_variation)` result. -/
def stageAutoblink (now rand : Int) (s : RoboState) : RoboState :=
  { s with
    eye_l_height_next :=
      if s.autoblinker = true ∧ now - s.blink_timer ≥ 0 then 1 else s.eye_l_height_next
    eye_r_height_next :=
      if s.autoblinker = true ∧ now - s.blink_timer ≥ 0 then 1 else s.eye_r_height_next
    eye_l_open :=
      if s.autoblinker = true ∧ now - s.blink_timer ≥ 0 then true else s.eye_l_open
    eye_r_open :=
      if s.autoblinker = true ∧ now - s.blink_timer ≥ 0 then true else s.eye_r_open
    blink_timer :=
      if s.autoblinker = true ∧ now - s.blink_timer ≥ 0 then
        now + s.blink_interval * 1000 + rand * 1000
      else s.blink_timer }

/-- Laugh macro: start vertical flicker at amplitude 5, stop it after
`laugh_animation_duration` ms (lines 573-581). -/
def stageLaugh (now : Int) (s : RoboState) : RoboState :=
  { s with
    v_flicker :=
      if s.laugh = true ∧ s.laugh_toggle = true then true
      else if s.laugh = true ∧ s.laugh_toggle = false
          ∧ now - s.laugh_animation_timer ≥ s.laugh_animation_duration then false
      else s.v_flicker
    v_flicker_amplitude :=
      if s.laugh = true ∧ s.laugh_toggle = true then 5
      else if s.laugh = true ∧ s.laugh_toggle = false
          ∧ now - s.laugh_animation_timer ≥ s.laugh_animation_duration then 0
      else s.v_flicker_amplitude
    laugh_animation_timer :=
      if s.laugh = true ∧ s.laugh_toggle = true then now else s.laugh_animation_timer
    laugh_toggle :=
      if s.laugh = true ∧ s.laugh_toggle = true then false
      else if s.laugh = true ∧ s.laugh_toggle = false
          ∧ now - s.laugh_animation_timer ≥ s.laugh_animation_duration then true
      else s.laugh_toggle
    laugh :=
      if s.laugh = true ∧ s.laugh_toggle = false
          ∧ now - s.laugh_animation_timer ≥ s.laugh_animation_duration then false
      else s.laugh }

/-- Confused macro: horizontal flicker at amplitude 20 (lines 584-592). -/
def stageConfused (now : Int) (s : RoboState) : RoboState :=
  { s with
    h_flicker :=
      if s.confused = true ∧ s.confused_toggle = true then true
      else if s.confused = true ∧ s.confused_toggle = false
          ∧ now - s.confused_animation_timer ≥ s.confused_animation_duration then false
      else s.h_flicker
    h_flicker_amplitude :=
      if s.confused = true ∧ s.confused_toggle = true then 20
      else if s.confused = true ∧ s.confused_toggle = false
          ∧ now - s.confused_animation_timer ≥ s.confused_animation_duration then 0
      else s.h_flicker_amplitude
    confused_animation_timer :=
      if s.confused = true ∧ s.confused_toggle = true then now else s.confused_animation_timer
    confused_toggle :=
      if s.confused = true ∧ s.confused_toggle = true then false
      else if s.confused = true ∧ s.confused_toggle = false
          ∧ now - s.confused_animation_timer ≥ s.confused_animation_duration then true
      else s.confused_toggle
    confused :=
      if s.confused = true ∧ s.confused_toggle = false
          ∧ now - s.confused_animation_timer ≥ s.confused_animation_duration then false
      else s.confused }

/-- Idle macro: pick a fresh random left-eye target and reschedule
(lines 595-599); `rx, ry` are the `random.randint(0, constraint)`
results and `rt` the reschedule jitter. -/
def stageIdle (now rx ry rt : Int) (s : RoboState) : RoboState :=
  { s with
    eye_l_x_next :=
      if s.idle = true ∧ now - s.idle_animation_timer ≥ 0 then rx else s.eye_l_x_next
    eye_l_y_next :=
      if s.idle = true ∧ now - s.idle_animation_timer ≥ 0 then ry else s.eye_l_y_next
    idle_animation_timer :=
      if s.idle = true ∧ now - s.idle_animation_timer ≥ 0 then
        now + s.idle_interval * 1000 + rt * 1000
      else s.idle_animation_timer }

/-- Horizontal flicker application and phase toggle (lines 602-609). -/
def stageHFlicker (s : RoboState) : RoboState :=
  { s with
    eye_l_x :=
      if s.h_flicker = true then
        (if s.h_flicker_alternate = true then s.eye_l_x + s.h_flicker_amplitude
         else s.eye_l_x - s.h_flicker_amplitude)
      else s.eye_l_x
    eye_r_x :=
      if s.h_flicker = true then
        (if s.h_flicker_alternate = true then s.eye_r_x + s.h_flicker_amplitude
         else s.eye_r_x - s.h_flicker_amplitude)
      else s.eye_r_x
    h_flicker_alternate :=
      if s.h_flicker = true then !s.h_flicker_alternate else s.h_flicker_alternate }

/-- Vertical flicker application and phase toggle (lines 612-619). -/
def stageVFlicker (s : RoboState) : RoboState :=
  { s with
    eye_l_y :=
      if s.v_flicker = true then
        (if s.v_flicker_alternate = true then s.eye_l_y + s.v_flicker_amplitude
         else s.eye_l_y - s.v_flicker_amplitude)
      else s.eye_l_y
    eye_r_y :=
      if s.v_flicker = true then
        (if s.v_flicker_alternate = true then s.eye_r_y + s.v_flicker_amplitude
         else s.eye_r_y - s.v_flicker_amplitude)
      else s.eye_r_y
    v_flicker_alternate :=
      if s.v_flicker = true then !s.v_flicker_alternate else s.v_flicker_alternate }

/-- Mood eyelid targets and eyelid smoothing (lines 630-645, 648, 669,
690).  In the source the `tired` branch zeroes the angry target before
the `angry` test runs; its `else` then always overwrites, which the
nested conditionals below reproduce. -/
def stageEyelids (s : RoboState) : RoboState :=
  { s with
    eyelids_tired_height_next :=
      if s.angry = true then 0
      else if s.tired = true then Int.fdiv s.eye_l_height_current 2
      else 0
    eyelids_angry_height_next :=
      if s.angry = true then Int.fdiv s.eye_l_height_current 2 else 0
    eyelids_happy_bottom_offset_next :=
      if s.happy = true then Int.fdiv s.eye_l_height_current 2 else 0
    eyelids_tired_height :=
      Int.fdiv (s.eyelids_tired_height
        + (if s.angry = true then 0
           else if s.tired = true then Int.fdiv s.eye_l_height_current 2
           else 0)) 2
    eyelids_angry_height :=
      Int.fdiv (s.eyelids_angry_height
        + (if s.angry = true then Int.fdiv s.eye_l_height_current 2 else 0)) 2
    eyelids_happy_bottom_offset :=
      Int.fdiv (s.eyelids_happy_bottom_offset
        + (if s.happy = true then Int.fdiv s.eye_l_height_current 2 else 0)) 2 }

/-- One full `draw_eyes` call: the stages in source order. -/
def drawEyes (i : TickIn) (s : RoboState) : RoboState :=
  stageEyelids (stageVFlicker (stageHFlicker
    (stageIdle i.now i.rand_idle_x i.rand_idle_y i.rand_idle_t
      (stageConfused i.now (stageLaugh i.now
        (stageAutoblink i.now i.rand_blink
          (stageRadius (stagePositions (stageWidthSpace
            (stageReopen (stageHeights (stageCurious s))))))))))))

/-- The constructed engine: `__init__` ends with `self.draw_eyes()`
(line 268).  The constructor's clock and random draws are irrelevant to
a fresh state (auto-blinker and idle are off), so zeros are passed. -/
def initRoboEyes (width height frame_rate : Int) : RoboState :=
  drawEyes ⟨0, 0, 0, 0, 0⟩ (mkRoboEyes width height frame_rate)

/-! ### Per-stage projection lemmas

Each tick stage is a single record update, so every field a stage
does not assign projects to the same field of its input; these
one-step lemmas let proofs evaluate `drawEyes` field by field
without ever materialising the composed record. -/

@[simp] theorem stageCurious_tired (s : RoboState) :
    (stageCurious s).tired = s.tired := rfl
@[simp] theorem stageCurious_angry (s : RoboState) :
    (stageCurious s).angry = s.angry := rfl
@[simp] theorem stageCurious_happy (s : RoboState) :
    (stageCurious s).happy = s.happy := rfl
@[simp] theorem stageCurious_curious (s : RoboState) :
    (stageCurious s).curious = s.curious := rfl
@[simp] theorem stageCurious_cyclops (s : RoboState) :
    (stageCurious s).cyclops = s.cyclops := rfl
@[simp] theorem stageCurious_autoblinker (s : RoboState) :
    (stageCurious s).autoblinker = s.autoblinker := rfl
@[simp] theorem stageCurious_idle (s : RoboState) :
    (stageCurious s).idle = s.idle := rfl
@[simp] theorem stageCurious_eye_l_open (s : RoboState) :
    (stageCurious s).eye_l_open = s.eye_l_open := rfl
@[simp] theorem stageCurious_eye_r_open (s : RoboState) :
    (stageCurious s).eye_r_open = s.eye_r_open := rfl
@[simp] theorem stageCurious_eye_l_height_current (s : RoboState) :
    (stageCurious s).eye_l_height_current = s.eye_l_height_current := rfl
@[simp] theorem stageCurious_eye_r_height_current (s : RoboState) :
    (stageCurious s).eye_r_height_current = s.eye_r_height_current := rfl
@[simp] theorem stageCurious_eye_l_height_next (s : RoboState) :
    (stageCurious s).eye_l_height_next = s.eye_l_height_next := rfl
@[simp] theorem stageCurious_eye_r_height_next (s : RoboState) :
    (stageCurious s).eye_r_height_next = s.eye_r_height_next := rfl
@[simp] theorem stageCurious_eye_l_height_default (s : RoboState) :
    (stageCurious s).eye_l_height_default = s.eye_l_height_default := rfl
@[simp] theorem stageCurious_eye_r_height_default (s : RoboState) :
    (stageCurious s).eye_r_height_default = s.eye_r_height_default := rfl
@[simp] theorem stageCurious_eye_l_width_current (s : RoboState) :
    (stageCurious s).eye_l_width_current = s.eye_l_width_current := rfl
@[simp] theorem stageCurious_eye_r_width_current (s : RoboState) :
    (stageCurious s).eye_r_width_current = s.eye_r_width_current := rfl
@[simp] theorem stageCurious_eye_l_width_next (s : RoboState) :
    (stageCurious s).eye_l_width_next = s.eye_l_width_next := rfl
@[simp] theorem stageCurious_eye_r_width_next (s : RoboState) :
    (stageCurious s).eye_r_width_next = s.eye_r_width_next := rfl
@[simp] theorem stageCurious_eye_l_width_default (s : RoboState) :
    (stageCurious s).eye_l_width_default = s.eye_l_width_default := rfl
@[simp] theorem stageCurious_eye_r_width_default (s : RoboState) :
    (stageCurious s).eye_r_width_default = s.eye_r_width_default := rfl
@[simp] theorem stageCurious_space_between_current (s : RoboState) :
    (stageCurious s).space_between_current = s.space_between_current := rfl
@[simp] theorem stageCurious_space_between_next (s : RoboState) :
    (stageCurious s).space_between_next = s.space_between_next := rfl
@[simp] theorem stageCurious_eye_l_x_next (s : RoboState) :
    (stageCurious s).eye_l_x_next = s.eye_l_x_next := rfl
@[simp] theorem stageCurious_eye_l_y_next (s : RoboState) :
    (stageCurious s).eye_l_y_next = s.eye_l_y_next := rfl
@[simp] theorem stageCurious_eye_r_x_next (s : RoboState) :
    (stageCurious s).eye_r_x_next = s.eye_r_x_next := rfl
@[simp] theorem stageCurious_eye_r_y_next (s : RoboState) :
    (stageCurious s).eye_r_y_next = s.eye_r_y_next := rfl
@[simp] theorem stageCurious_blink_timer (s : RoboState) :
    (stageCurious s).blink_timer = s.blink_timer := rfl

@[simp] theorem stageHeights_tired (s : RoboState) :
    (stageHeights s).tired = s.tired := rfl
@[simp] theorem stageHeights_angry (s : RoboState) :
    (stageHeights s).angry = s.angry := rfl
@[simp] theorem stageHeights_happy (s : RoboState) :
    (stageHeights s).happy = s.happy := rfl
@[simp] theorem stageHeights_curious (s : RoboState) :
    (stageHeights s).curious = s.curious := rfl
@[simp] theorem stageHeights_cyclops (s : RoboState) :
    (stageHeights s).cyclops = s.cyclops := rfl
@[simp] theorem stageHeights_autoblinker (s : RoboState) :
    (stageHeights s).autoblinker = s.autoblinker := rfl
@[simp] theorem stageHeights_idle (s : RoboState) :
    (stageHeights s).idle = s.idle := rfl
@[simp] theorem stageHeights_eye_l_open (s : RoboState) :
    (stageHeights s).eye_l_open = s.eye_l_open := rfl
@[simp] theorem stageHeights_eye_r_open (s : RoboState) :
    (stageHeights s).eye_r_open = s.eye_r_open := rfl
@[simp] theorem stageHeights_eye_l_height_next (s : RoboState) :
    (stageHeights s).eye_l_height_next = s.eye_l_height_next := rfl
@[simp] theorem stageHeights_eye_r_height_next (s : RoboState) :
    (stageHeights s).eye_r_height_next = s.eye_r_height_next := rfl
@[simp] theorem stageHeights_eye_l_height_default (s : RoboState) :
    (stageHeights s).eye_l_height_default = s.eye_l_height_default := rfl
@[simp] theorem stageHeights_eye_r_height_default (s : RoboState) :
    (stageHeights s).eye_r_height_default = s.eye_r_height_default := rfl
@[simp] theorem stageHeights_eye_l_width_current (s : RoboState) :
    (stageHeights s).eye_l_width_current = s.eye_l_width_current := rfl
@[simp] theorem stageHeights_eye_r_width_current (s : RoboState) :
    (stageHeights s).eye_r_width_current = s.eye_r_width_current := rfl
@[simp] theorem stageHeights_eye_l_width_next (s : RoboState) :
    (stageHeights s).eye_l_width_next = s.eye_l_width_next := rfl
@[simp] theorem stageHeights_eye_r_width_next (s : RoboState) :
    (stageHeights s).eye_r_width_next = s.eye_r_width_next := rfl
@[simp] theorem stageHeights_eye_l_width_default (s : RoboState) :
    (stageHeights s).eye_l_width_default = s.eye_l_width_default := rfl
@[simp] theorem stageHeights_eye_r_width_default (s : RoboState) :
    (stageHeights s).eye_r_width_default = s.eye_r_width_default := rfl
@[simp] theorem stageHeights_space_between_current (s : RoboState) :
    (stageHeights s).space_between_current = s.space_between_current := rfl
@[simp] theorem stageHeights_space_between_next (s : RoboState) :
    (stageHeights s).space_between_next = s.space_between_next := rfl
@[simp] theorem stageHeights_eye_l_x_next (s : RoboState) :
    (stageHeights s).eye_l_x_next = s.eye_l_x_next := rfl
@[simp] theorem stageHeights_eye_l_y_next (s : RoboState) :
    (stageHeights s).eye_l_y_next = s.eye_l_y_next := rfl
@[simp] theorem stageHeights_eye_r_x_next (s : RoboState) :
    (stageHeights s).eye_r_x_next = s.eye_r_x_next := rfl
@[simp] theorem stageHeights_eye_r_y_next (s : RoboState) :
    (stageHeights s).eye_r_y_next = s.eye_r_y_next := rfl
@[simp] theorem stageHeights_eye_l_height_offset (s : RoboState) :
    (stageHeights s).eye_l_height_offset = s.eye_l_height_offset := rfl
@[simp] theorem stageHeights_eye_r_height_offset (s : RoboState) :
    (stageHeights s).eye_r_height_offset = s.eye_r_height_offset := rfl
@[simp] theorem stageHeights_blink_timer (s : RoboState) :
    (stageHeights s).blink_timer = s.blink_timer := rfl

@[simp] theorem stageReopen_tired (s : RoboState) :
    (stageReopen s).tired = s.tired := rfl
@[simp] theorem stageReopen_angry (s : RoboState) :
    (stageReopen s).angry = s.angry := rfl
@[simp] theorem stageReopen_happy (s : RoboState) :
    (stageReopen s).happy = s.happy := rfl
@[simp] theorem stageReopen_curious (s : RoboState) :
    (stageReopen s).curious = s.curious := rfl
@[simp] theorem stageReopen_cyclops (s : RoboState) :
    (stageReopen s).cyclops = s.cyclops := rfl
@[simp] theorem stageReopen_autoblinker (s : RoboState) :
    (stageReopen s).autoblinker = s.autoblinker := rfl
@[simp] theorem stageReopen_idle (s : RoboState) :
    (stageReopen s).idle = s.idle := rfl
@[simp] theorem stageReopen_eye_l_open (s : RoboState) :
    (stageReopen s).eye_l_open = s.eye_l_open := rfl
@[simp] theorem stageReopen_eye_r_open (s : RoboState) :
    (stageReopen s).eye_r_open = s.eye_r_open := rfl
@[simp] theorem stageReopen_eye_l_height_current (s : RoboState) :
    (stageReopen s).eye_l_height_current = s.eye_l_height_current := rfl
@[simp] theorem stageReopen_eye_r_height_current (s : RoboState) :
    (stageReopen s).eye_r_height_current = s.eye_r_height_current := rfl
@[simp] theorem stageReopen_eye_l_height_default (s : RoboState) :
    (stageReopen s).eye_l_height_default = s.eye_l_height_default := rfl
@[simp] theorem stageReopen_eye_r_height_default (s : RoboState) :
    (stageReopen s).eye_r_height_default = s.eye_r_height_default := rfl
@[simp] theorem stageReopen_eye_l_width_current (s : RoboState) :
    (stageReopen s).eye_l_width_current = s.eye_l_width_current := rfl
@[simp] theorem stageReopen_eye_r_width_current (s : RoboState) :
    (stageReopen s).eye_r_width_current = s.eye_r_width_current := rfl
@[simp] theorem stageReopen_eye_l_width_next (s : RoboState) :
    (stageReopen s).eye_l_width_next = s.eye_l_width_next := rfl
@[simp] theorem stageReopen_eye_r_width_next (s : RoboState) :
    (stageReopen s).eye_r_width_next = s.eye_r_width_next := rfl
@[simp] theorem stageReopen_eye_l_width_default (s : RoboState) :
    (stageReopen s).eye_l_width_default = s.eye_l_width_default := rfl
@[simp] theorem stageReopen_eye_r_width_default (s : RoboState) :
    (stageReopen s).eye_r_width_default = s.eye_r_width_default := rfl
@[simp] theorem stageReopen_space_between_current (s : RoboState) :
    (stageReopen s).space_between_current = s.space_between_current := rfl
@[simp] theorem stageReopen_space_between_next (s : RoboState) :
    (stageReopen s).space_between_next = s.space_between_next := rfl
@[simp] theorem stageReopen_eye_l_x_next (s : RoboState) :
    (stageReopen s).eye_l_x_next = s.eye_l_x_next := rfl
@[simp] theorem stageReopen_eye_l_y_next (s : RoboState) :
    (stageReopen s).eye_l_y_next = s.eye_l_y_next := rfl
@[simp] theorem stageReopen_eye_r_x_next (s : RoboState) :
    (stageReopen s).eye_r_x_next = s.eye_r_x_next := rfl
@[simp] theorem stageReopen_eye_r_y_next (s : RoboState) :
    (stageReopen s).eye_r_y_next = s.eye_r_y_next := rfl
@[simp] theorem stageReopen_eye_l_height_offset (s : RoboState) :
    (stageReopen s).eye_l_height_offset = s.eye_l_height_offset := rfl
@[simp] theorem stageReopen_eye_r_height_offset (s : RoboState) :
    (stageReopen s).eye_r_height_offset = s.eye_r_height_offset := rfl
@[simp] theorem stageReopen_blink_timer (s : RoboState) :
    (stageReopen s).blink_timer = s.blink_timer := rfl

@[simp] theorem stageWidthSpace_tired (s : RoboState) :
    (stageWidthSpace s).tired = s.tired := rfl
@[simp] theorem stageWidthSpace_angry (s : RoboState) :
    (stageWidthSpace s).angry = s.angry := rfl
@[simp] theorem stageWidthSpace_happy (s : RoboState) :
    (stageWidthSpace s).happy = s.happy := rfl
@[simp] theorem stageWidthSpace_curious (s : RoboState) :
    (stageWidthSpace s).curious = s.curious := rfl
@[simp] theorem stageWidthSpace_cyclops (s : RoboState) :
    (stageWidthSpace s).cyclops = s.cyclops := rfl
@[simp] theorem stageWidthSpace_autoblinker (s : RoboState) :
    (stageWidthSpace s).autoblinker = s.autoblinker := rfl
@[simp] theorem stageWidthSpace_idle (s : RoboState) :
    (stageWidthSpace s).idle = s.idle := rfl
@[simp] theorem stageWidthSpace_eye_l_open (s : RoboState) :
    (stageWidthSpace s).eye_l_open = s.eye_l_open := rfl
@[simp] theorem stageWidthSpace_eye_r_open (s : RoboState) :
    (stageWidthSpace s).eye_r_open = s.eye_r_open := rfl
@[simp] theorem stageWidthSpace_eye_l_height_current (s : RoboState) :
    (stageWidthSpace s).eye_l_height_current = s.eye_l_height_current := rfl
@[simp] theorem stageWidthSpace_eye_r_height_current (s : RoboState) :
    (stageWidthSpace s).eye_r_height_current = s.eye_r_height_current := rfl
@[simp] theorem stageWidthSpace_eye_l_height_next (s : RoboState) :
    (stageWidthSpace s).eye_l_height_next = s.eye_l_height_next := rfl
@[simp] theorem stageWidthSpace_eye_r_height_next (s : RoboState) :
    (stageWidthSpace s).eye_r_height_next = s.eye_r_height_next := rfl
@[simp] theorem stageWidthSpace_eye_l_height_default (s : RoboState) :
    (stageWidthSpace s).eye_l_height_default = s.eye_l_height_default := rfl
@[simp] theorem stageWidthSpace_eye_r_height_default (s : RoboState) :
    (stageWidthSpace s).eye_r_height_default = s.eye_r_height_default := rfl
@[simp] theorem stageWidthSpace_eye_l_width_next (s : RoboState) :
    (stageWidthSpace s).eye_l_width_next = s.eye_l_width_next := rfl
@[simp] theorem stageWidthSpace_eye_r_width_next (s : RoboState) :
    (stageWidthSpace s).eye_r_width_next = s.eye_r_width_next := rfl
@[simp] theorem stageWidthSpace_eye_l_width_default (s : RoboState) :
    (stageWidthSpace s).eye_l_width_default = s.eye_l_width_default := rfl
@[simp] theorem stageWidthSpace_eye_r_width_default (s : RoboState) :
    (stageWidthSpace s).eye_r_width_default = s.eye_r_width_default := rfl
@[simp] theorem stageWidthSpace_space_between_next (s : RoboState) :
    (stageWidthSpace s).space_between_next = s.space_between_next := rfl
@[simp] theorem stageWidthSpace_eye_l_x_next (s : RoboState) :
    (stageWidthSpace s).eye_l_x_next = s.eye_l_x_next := rfl
@[simp] theorem stageWidthSpace_eye_l_y_next (s : RoboState) :
    (stageWidthSpace s).eye_l_y_next = s.eye_l_y_next := rfl
@[simp] theorem stageWidthSpace_eye_r_x_next (s : RoboState) :
    (stageWidthSpace s).eye_r_x_next = s.eye_r_x_next := rfl
@[simp] theorem stageWidthSpace_eye_r_y_next (s : RoboState) :
    (stageWidthSpace s).eye_r_y_next = s.eye_r_y_next := rfl
@[simp] theorem stageWidthSpace_eye_l_height_offset (s : RoboState) :
    (stageWidthSpace s).eye_l_height_offset = s.eye_l_height_offset := rfl
@[simp] theorem stageWidthSpace_eye_r_height_offset (s : RoboState) :
    (stageWidthSpace s).eye_r_height_offset = s.eye_r_height_offset := rfl
@[simp] theorem stageWidthSpace_blink_timer (s : RoboState) :
    (stageWidthSpace s).blink_timer = s.blink_timer := rfl

@[simp] theorem stagePositions_tired (s : RoboState) :
    (stagePositions s).tired = s.tired := rfl
@[simp] theorem stagePositions_angry (s : RoboState) :
    (stagePositions s).angry = s.angry := rfl
@[simp] theorem stagePositions_happy (s : RoboState) :
    (stagePositions s).happy = s.happy := rfl
@[simp] theorem stagePositions_curious (s : RoboState) :
    (stagePositions s).curious = s.curious := rfl
@[simp] theorem stagePositions_cyclops (s : RoboState) :
    (stagePositions s).cyclops = s.cyclops := rfl
@[simp] theorem stagePositions_autoblinker (s : RoboState) :
    (stagePositions s).autoblinker = s.autoblinker := rfl
@[simp] theorem stagePositions_idle (s : RoboState) :
    (stagePositions s).idle = s.idle := rfl
@[simp] theorem stagePositions_eye_l_open (s : RoboState) :
    (stagePositions s).eye_l_open = s.eye_l_open := rfl
@[simp] theorem stagePositions_eye_r_open (s : RoboState) :
    (stagePositions s).eye_r_open = s.eye_r_open := rfl
@[simp] theorem stagePositions_eye_l_height_current (s : RoboState) :
    (stagePositions s).eye_l_height_current = s.eye_l_height_current := rfl
@[simp] theorem stagePositions_eye_r_height_current (s : RoboState) :
    (stagePositions s).eye_r_height_current = s.eye_r_height_current := rfl
@[simp] theorem stagePositions_eye_l_height_next (s : RoboState) :
    (stagePositions s).eye_l_height_next = s.eye_l_height_next := rfl
@[simp] theorem stagePositions_eye_r_height_next (s : RoboState) :
    (stagePositions s).eye_r_height_next = s.eye_r_height_next := rfl
@[simp] theorem stagePositions_eye_l_height_default (s : RoboState) :
    (stagePositions s).eye_l_height_default = s.eye_l_height_default := rfl
@[simp] theorem stagePositions_eye_r_height_default (s : RoboState) :
    (stagePositions s).eye_r_height_default = s.eye_r_height_default := rfl
@[simp] theorem stagePositions_eye_l_width_current (s : RoboState) :
    (stagePositions s).eye_l_width_current = s.eye_l_width_current := rfl
@[simp] theorem stagePositions_eye_r_width_current (s : RoboState) :
    (stagePositions s).eye_r_width_current = s.eye_r_width_current := rfl
@[simp] theorem stagePositions_eye_l_width_next (s : RoboState) :
    (stagePositions s).eye_l_width_next = s.eye_l_width_next := rfl
@[simp] theorem stagePositions_eye_r_width_next (s : RoboState) :
    (stagePositions s).eye_r_width_next = s.eye_r_width_next := rfl
@[simp] theorem stagePositions_eye_l_width_default (s : RoboState) :
    (stagePositions s).eye_l_width_default = s.eye_l_width_default := rfl
@[simp] theorem stagePositions_eye_r_width_default (s : RoboState) :
    (stagePositions s).eye_r_width_default = s.eye_r_width_default := rfl
@[simp] theorem stagePositions_space_between_current (s : RoboState) :
    (stagePositions s).space_between_current = s.space_between_current := rfl
@[simp] theorem stagePositions_space_between_next (s : RoboState) :
    (stagePositions s).space_between_next = s.space_between_next := rfl
@[simp] theorem stagePositions_eye_l_x_next (s : RoboState) :
    (stagePositions s).eye_l_x_next = s.eye_l_x_next := rfl
@[simp] theorem stagePositions_eye_l_y_next (s : RoboState) :
    (stagePositions s).eye_l_y_next = s.eye_l_y_next := rfl
@[simp] theorem stagePositions_eye_l_height_offset (s : RoboState) :
    (stagePositions s).eye_l_height_offset = s.eye_l_height_offset := rfl
@[simp] theorem stagePositions_eye_r_height_offset (s : RoboState) :
    (stagePositions s).eye_r_height_offset = s.eye_r_height_offset := rfl
@[simp] theorem stagePositions_blink_timer (s : RoboState) :
    (stagePositions s).blink_timer = s.blink_timer := rfl

@[simp] theorem stageRadius_tired (s : RoboState) :
    (stageRadius s).tired = s.tired := rfl
@[simp] theorem stageRadius_angry (s : RoboState) :
    (stageRadius s).angry = s.angry := rfl
@[simp] theorem stageRadius_happy (s : RoboState) :
    (stageRadius s).happy = s.happy := rfl
@[simp] theorem stageRadius_curious (s : RoboState) :
    (stageRadius s).curious = s.curious := rfl
@[simp] theorem stageRadius_cyclops (s : RoboState) :
    (stageRadius s).cyclops = s.cyclops := rfl
@[simp] theorem stageRadius_autoblinker (s : RoboState) :
    (stageRadius s).autoblinker = s.autoblinker := rfl
@[simp] theorem stageRadius_idle (s : RoboState) :
    (stageRadius s).idle = s.idle := rfl
@[simp] theorem stageRadius_eye_l_open (s : RoboState) :
    (stageRadius s).eye_l_open = s.eye_l_open := rfl
@[simp] theorem stageRadius_eye_r_open (s : RoboState) :
    (stageRadius s).eye_r_open = s.eye_r_open := rfl
@[simp] theorem stageRadius_eye_l_height_current (s : RoboState) :
    (stageRadius s).eye_l_height_current = s.eye_l_height_current := rfl
@[simp] theorem stageRadius_eye_r_height_current (s : RoboState) :
    (stageRadius s).eye_r_height_current = s.eye_r_height_current := rfl
@[simp] theorem stageRadius_eye_l_height_next (s : RoboState) :
    (stageRadius s).eye_l_height_next = s.eye_l_height_next := rfl
@[simp] theorem stageRadius_eye_r_height_next (s : RoboState) :
    (stageRadius s).eye_r_height_next = s.eye_r_height_next := rfl
@[simp] theorem stageRadius_eye_l_height_default (s : RoboState) :
    (stageRadius s).eye_l_height_default = s.eye_l_height_default := rfl
@[simp] theorem stageRadius_eye_r_height_default (s : RoboState) :
    (stageRadius s).eye_r_height_default = s.eye_r_height_default := rfl
@[simp] theorem stageRadius_eye_l_width_current (s : RoboState) :
    (stageRadius s).eye_l_width_current = s.eye_l_width_current := rfl
@[simp] theorem stageRadius_eye_r_width_current (s : RoboState) :
    (stageRadius s).eye_r_width_current = s.eye_r_width_current := rfl
@[simp] theorem stageRadius_eye_l_width_next (s : RoboState) :
    (stageRadius s).eye_l_width_next = s.eye_l_width_next := rfl
@[simp] theorem stageRadius_eye_r_width_next (s : RoboState) :
    (stageRadius s).eye_r_width_next = s.eye_r_width_next := rfl
@[simp] theorem stageRadius_eye_l_width_default (s : RoboState) :
    (stageRadius s).eye_l_width_default = s.eye_l_width_default := rfl
@[simp] theorem stageRadius_eye_r_width_default (s : RoboState) :
    (stageRadius s).eye_r_width_default = s.eye_r_width_default := rfl
@[simp] theorem stageRadius_space_between_current (s : RoboState) :
    (stageRadius s).space_between_current = s.space_between_current := rfl
@[simp] theorem stageRadius_space_between_next (s : RoboState) :
    (stageRadius s).space_between_next = s.space_between_next := rfl
@[simp] theorem stageRadius_eye_l_x_next (s : RoboState) :
    (stageRadius s).eye_l_x_next = s.eye_l_x_next := rfl
@[simp] theorem stageRadius_eye_l_y_next (s : RoboState) :
    (stageRadius s).eye_l_y_next = s.eye_l_y_next := rfl
@[simp] theorem stageRadius_eye_r_x_next (s : RoboState) :
    (stageRadius s).eye_r_x_next = s.eye_r_x_next := rfl
@[simp] theorem stageRadius_eye_r_y_next (s : RoboState) :
    (stageRadius s).eye_r_y_next = s.eye_r_y_next := rfl
@[simp] theorem stageRadius_eye_l_height_offset (s : RoboState) :
    (stageRadius s).eye_l_height_offset = s.eye_l_height_offset := rfl
@[simp] theorem stageRadius_eye_r_height_offset (s : RoboState) :
    (stageRadius s).eye_r_height_offset = s.eye_r_height_offset := rfl
@[simp] theorem stageRadius_blink_timer (s : RoboState) :
    (stageRadius s).blink_timer = s.blink_timer := rfl

@[simp] theorem stageAutoblink_tired (now rand : Int) (s : RoboState) :
    (stageAutoblink now rand s).tired = s.tired := rfl
@[simp] theorem stageAutoblink_angry (now rand : Int) (s : RoboState) :
    (stageAutoblink now rand s).angry = s.angry := rfl
@[simp] theorem stageAutoblink_happy (now rand : Int) (s : RoboState) :
    (stageAutoblink now rand s).happy = s.happy := rfl
@[simp] theorem stageAutoblink_curious (now rand : Int) (s : RoboState) :
    (stageAutoblink now rand s).curious = s.curious := rfl
@[simp] theorem stageAutoblink_cyclops (now rand : Int) (s : RoboState) :
    (stageAutoblink now rand s).cyclops = s.cyclops := rfl
@[simp] theorem stageAutoblink_autoblinker (now rand : Int) (s : RoboState) :
    (stageAutoblink now rand s).autoblinker = s.autoblinker := rfl
@[simp] theorem stageAutoblink_idle (now rand : Int) (s : RoboState) :
    (stageAutoblink now rand s).idle = s.idle := rfl
@[simp] theorem stageAutoblink_eye_l_height_current (now rand : Int) (s : RoboState) :
    (stageAutoblink now rand s).eye_l_height_current = s.eye_l_height_current := rfl
@[simp] theorem stageAutoblink_eye_r_height_current (now rand : Int) (s : RoboState) :
    (stageAutoblink now rand s).eye_r_height_current = s.eye_r_height_current := rfl
@[simp] theorem stageAutoblink_eye_l_height_default (now rand : Int) (s : RoboState) :
    (stageAutoblink now rand s).eye_l_height_default = s.eye_l_height_default := rfl
@[simp] theorem stageAutoblink_eye_r_height_default (now rand : Int) (s : RoboState) :
    (stageAutoblink now rand s).eye_r_height_default = s.eye_r_height_default := rfl
@[simp] theorem stageAutoblink_eye_l_width_current (now rand : Int) (s : RoboState) :
    (stageAutoblink now rand s).eye_l_width_current = s.eye_l_width_current := rfl
@[simp] theorem stageAutoblink_eye_r_width_current (now rand : Int) (s : RoboState) :
    (stageAutoblink now rand s).eye_r_width_current = s.eye_r_width_current := rfl
@[simp] theorem stageAutoblink_eye_l_width_next (now rand : Int) (s : RoboState) :
    (stageAutoblink now rand s).eye_l_width_next = s.eye_l_width_next := rfl
@[simp] theorem stageAutoblink_eye_r_width_next (now rand : Int) (s : RoboState) :
    (stageAutoblink now rand s).eye_r_width_next = s.eye_r_width_next := rfl
@[simp] theorem stageAutoblink_eye_l_width_default (now rand : Int) (s : RoboState) :
    (stageAutoblink now rand s).eye_l_width_default = s.eye_l_width_default := rfl
@[simp] theorem stageAutoblink_eye_r_width_default (now rand : Int) (s : RoboState) :
    (stageAutoblink now rand s).eye_r_width_default = s.eye_r_width_default := rfl
@[simp] theorem stageAutoblink_space_between_current (now rand : Int) (s : RoboState) :
    (stageAutoblink now rand s).space_between_current = s.space_between_current := rfl
@[simp] theorem stageAutoblink_space_between_next (now rand : Int) (s : RoboState) :
    (stageAutoblink now rand s).space_between_next = s.space_between_next := rfl
@[simp] theorem stageAutoblink_eye_l_x_next (now rand : Int) (s : RoboState) :
    (stageAutoblink now rand s).eye_l_x_next = s.eye_l_x_next := rfl
@[simp] theorem stageAutoblink_eye_l_y_next (now rand : Int) (s : RoboState) :
    (stageAutoblink now rand s).eye_l_y_next = s.eye_l_y_next := rfl
@[simp] theorem stageAutoblink_eye_r_x_next (now rand : Int) (s : RoboState) :
    (stageAutoblink now rand s).eye_r_x_next = s.eye_r_x_next := rfl
@[simp] theorem stageAutoblink_eye_r_y_next (now rand : Int) (s : RoboState) :
    (stageAutoblink now rand s).eye_r_y_next = s.eye_r_y_next := rfl
@[simp] theorem stageAutoblink_eye_l_height_offset (now rand : Int) (s : RoboState) :
    (stageAutoblink now rand s).eye_l_height_offset = s.eye_l_height_offset := rfl
@[simp] theorem stageAutoblink_eye_r_height_offset (now rand : Int) (s : RoboState) :
    (stageAutoblink now rand s).eye_r_height_offset = s.eye_r_height_offset := rfl

@[simp] theorem stageLaugh_tired (now : Int) (s : RoboState) :
    (stageLaugh now s).tired = s.tired := rfl
@[simp] theorem stageLaugh_angry (now : Int) (s : RoboState) :
    (stageLaugh now s).angry = s.angry := rfl
@[simp] theorem stageLaugh_happy (now : Int) (s : RoboState) :
    (stageLaugh now s).happy = s.happy := rfl
@[simp] theorem stageLaugh_curious (now : Int) (s : RoboState) :
    (stageLaugh now s).curious = s.curious := rfl
@[simp] theorem stageLaugh_cyclops (now : Int) (s : RoboState) :
    (stageLaugh now s).cyclops = s.cyclops := rfl
@[simp] theorem stageLaugh_autoblinker (now : Int) (s : RoboState) :
    (stageLaugh now s).autoblinker = s.autoblinker := rfl
@[simp] theorem stageLaugh_idle (now : Int) (s : RoboState) :
    (stageLaugh now s).idle = s.idle := rfl
@[simp] theorem stageLaugh_eye_l_open (now : Int) (s : RoboState) :
    (stageLaugh now s).eye_l_open = s.eye_l_open := rfl
@[simp] theorem stageLaugh_eye_r_open (now : Int) (s : RoboState) :
    (stageLaugh now s).eye_r_open = s.eye_r_open := rfl
@[simp] theorem stageLaugh_eye_l_height_current (now : Int) (s : RoboState) :
    (stageLaugh now s).eye_l_height_current = s.eye_l_height_current := rfl
@[simp] theorem stageLaugh_eye_r_height_current (now : Int) (s : RoboState) :
    (stageLaugh now s).eye_r_height_current = s.eye_r_height_current := rfl
@[simp] theorem stageLaugh_eye_l_height_next (now : Int) (s : RoboState) :
    (stageLaugh now s).eye_l_height_next = s.eye_l_height_next := rfl
@[simp] theorem stageLaugh_eye_r_height_next (now : Int) (s : RoboState) :
    (stageLaugh now s).eye_r_height_next = s.eye_r_height_next := rfl
@[simp] theorem stageLaugh_eye_l_height_default (now : Int) (s : RoboState) :
    (stageLaugh now s).eye_l_height_default = s.eye_l_height_default := rfl
@[simp] theorem stageLaugh_eye_r_height_default (now : Int) (s : RoboState) :
    (stageLaugh now s).eye_r_height_default = s.eye_r_height_default := rfl
@[simp] theorem stageLaugh_eye_l_width_current (now : Int) (s : RoboState) :
    (stageLaugh now s).eye_l_width_current = s.eye_l_width_current := rfl
@[simp] theorem stageLaugh_eye_r_width_current (now : Int) (s : RoboState) :
    (stageLaugh now s).eye_r_width_current = s.eye_r_width_current := rfl
@[simp] theorem stageLaugh_eye_l_width_next (now : Int) (s : RoboState) :
    (stageLaugh now s).eye_l_width_next = s.eye_l_width_next := rfl
@[simp] theorem stageLaugh_eye_r_width_next (now : Int) (s : RoboState) :
    (stageLaugh now s).eye_r_width_next = s.eye_r_width_next := rfl
@[simp] theorem stageLaugh_eye_l_width_default (now : Int) (s : RoboState) :
    (stageLaugh now s).eye_l_width_default = s.eye_l_width_default := rfl
@[simp] theorem stageLaugh_eye_r_width_default (now : Int) (s : RoboState) :
    (stageLaugh now s).eye_r_width_default = s.eye_r_width_default := rfl
@[simp] theorem stageLaugh_space_between_current (now : Int) (s : RoboState) :
    (stageLaugh now s).space_between_current = s.space_between_current := rfl
@[simp] theorem stageLaugh_space_between_next (now : Int) (s : RoboState) :
    (stageLaugh now s).space_between_next = s.space_between_next := rfl
@[simp] theorem stageLaugh_eye_l_x_next (now : Int) (s : RoboState) :
    (stageLaugh now s).eye_l_x_next = s.eye_l_x_next := rfl
@[simp] theorem stageLaugh_eye_l_y_next (now : Int) (s : RoboState) :
    (stageLaugh now s).eye_l_y_next = s.eye_l_y_next := rfl
@[simp] theorem stageLaugh_eye_r_x_next (now : Int) (s : RoboState) :
    (stageLaugh now s).eye_r_x_next = s.eye_r_x_next := rfl
@[simp] theorem stageLaugh_eye_r_y_next (now : Int) (s : RoboState) :
    (stageLaugh now s).eye_r_y_next = s.eye_r_y_next := rfl
@[simp] theorem stageLaugh_eye_l_height_offset (now : Int) (s : RoboState) :
    (stageLaugh now s).eye_l_height_offset = s.eye_l_height_offset := rfl
@[simp] theorem stageLaugh_eye_r_height_offset (now : Int) (s : RoboState) :
    (stageLaugh now s).eye_r_height_offset = s.eye_r_height_offset := rfl
@[simp] theorem stageLaugh_blink_timer (now : Int) (s : RoboState) :
    (stageLaugh now s).blink_timer = s.blink_timer := rfl

@[simp] theorem stageConfused_tired (now : Int) (s : RoboState) :
    (stageConfused now s).tired = s.tired := rfl
@[simp] theorem stageConfused_angry (now : Int) (s : RoboState) :
    (stageConfused now s).angry = s.angry := rfl
@[simp] theorem stageConfused_happy (now : Int) (s : RoboState) :
    (stageConfused now s).happy = s.happy := rfl
@[simp] theorem stageConfused_curious (now : Int) (s : RoboState) :
    (stageConfused now s).curious = s.curious := rfl
@[simp] theorem stageConfused_cyclops (now : Int) (s : RoboState) :
    (stageConfused now s).cyclops = s.cyclops := rfl
@[simp] theorem stageConfused_autoblinker (now : Int) (s : RoboState) :
    (stageConfused now s).autoblinker = s.autoblinker := rfl
@[simp] theorem stageConfused_idle (now : Int) (s : RoboState) :
    (stageConfused now s).idle = s.idle := rfl
@[simp] theorem stageConfused_eye_l_open (now : Int) (s : RoboState) :
    (stageConfused now s).eye_l_open = s.eye_l_open := rfl
@[simp] theorem stageConfused_eye_r_open (now : Int) (s : RoboState) :
    (stageConfused now s).eye_r_open = s.eye_r_open := rfl
@[simp] theorem stageConfused_eye_l_height_current (now : Int) (s : RoboState) :
    (stageConfused now s).eye_l_height_current = s.eye_l_height_current := rfl
@[simp] theorem stageConfused_eye_r_height_current (now : Int) (s : RoboState) :
    (stageConfused now s).eye_r_height_current = s.eye_r_height_current := rfl
@[simp] theorem stageConfused_eye_l_height_next (now : Int) (s : RoboState) :
    (stageConfused now s).eye_l_height_next = s.eye_l_height_next := rfl
@[simp] theorem stageConfused_eye_r_height_next (now : Int) (s : RoboState) :
    (stageConfused now s).eye_r_height_next = s.eye_r_height_next := rfl
@[simp] theorem stageConfused_eye_l_height_default (now : Int) (s : RoboState) :
    (stageConfused now s).eye_l_height_default = s.eye_l_height_default := rfl
@[simp] theorem stageConfused_eye_r_height_default (now : Int) (s : RoboState) :
    (stageConfused now s).eye_r_height_default = s.eye_r_height_default := rfl
@[simp] theorem stageConfused_eye_l_width_current (now : Int) (s : RoboState) :
    (stageConfused now s).eye_l_width_current = s.eye_l_width_current := rfl
@[simp] theorem stageConfused_eye_r_width_current (now : Int) (s : RoboState) :
    (stageConfused now s).eye_r_width_current = s.eye_r_width_current := rfl
@[simp] theorem stageConfused_eye_l_width_next (now : Int) (s : RoboState) :
    (stageConfused now s).eye_l_width_next = s.eye_l_width_next := rfl
@[simp] theorem stageConfused_eye_r_width_next (now : Int) (s : RoboState) :
    (stageConfused now s).eye_r_width_next = s.eye_r_width_next := rfl
@[simp] theorem stageConfused_eye_l_width_default (now : Int) (s : RoboState) :
    (stageConfused now s).eye_l_width_default = s.eye_l_width_default := rfl
@[simp] theorem stageConfused_eye_r_width_default (now : Int) (s : RoboState) :
    (stageConfused now s).eye_r_width_default = s.eye_r_width_default := rfl
@[simp] theorem stageConfused_space_between_current (now : Int) (s : RoboState) :
    (stageConfused now s).space_between_current = s.space_between_current := rfl
@[simp] theorem stageConfused_space_between_next (now : Int) (s : RoboState) :
    (stageConfused now s).space_between_next = s.space_between_next := rfl
@[simp] theorem stageConfused_eye_l_x_next (now : Int) (s : RoboState) :
    (stageConfused now s).eye_l_x_next = s.eye_l_x_next := rfl
@[simp] theorem stageConfused_eye_l_y_next (now : Int) (s : RoboState) :
    (stageConfused now s).eye_l_y_next = s.eye_l_y_next := rfl
@[simp] theorem stageConfused_eye_r_x_next (now : Int) (s : RoboState) :
    (stageConfused now s).eye_r_x_next = s.eye_r_x_next := rfl
@[simp] theorem stageConfused_eye_r_y_next (now : Int) (s : RoboState) :
    (stageConfused now s).eye_r_y_next = s.eye_r_y_next := rfl
@[simp] theorem stageConfused_eye_l_height_offset (now : Int) (s : RoboState) :
    (stageConfused now s).eye_l_height_offset = s.eye_l_height_offset := rfl
@[simp] theorem stageConfused_eye_r_height_offset (now : Int) (s : RoboState) :
    (stageConfused now s).eye_r_height_offset = s.eye_r_height_offset := rfl
@[simp] theorem stageConfused_blink_timer (now : Int) (s : RoboState) :
    (stageConfused now s).blink_timer = s.blink_timer := rfl

@[simp] theorem stageIdle_tired (now rx ry rt : Int) (s : RoboState) :
    (stageIdle now rx ry rt s).tired = s.tired := rfl
@[simp] theorem stageIdle_angry (now rx ry rt : Int) (s : RoboState) :
    (stageIdle now rx ry rt s).angry = s.angry := rfl
@[simp] theorem stageIdle_happy (now rx ry rt : Int) (s : RoboState) :
    (stageIdle now rx ry rt s).happy = s.happy := rfl
@[simp] theorem stageIdle_curious (now rx ry rt : Int) (s : RoboState) :
    (stageIdle now rx ry rt s).curious = s.curious := rfl
@[simp] theorem stageIdle_cyclops (now rx ry rt : Int) (s : RoboState) :
    (stageIdle now rx ry rt s).cyclops = s.cyclops := rfl
@[simp] theorem stageIdle_autoblinker (now rx ry rt : Int) (s : RoboState) :
    (stageIdle now rx ry rt s).autoblinker = s.autoblinker := rfl
@[simp] theorem stageIdle_idle (now rx ry rt : Int) (s : RoboState) :
    (stageIdle now rx ry rt s).idle = s.idle := rfl
@[simp] theorem stageIdle_eye_l_open (now rx ry rt : Int) (s : RoboState) :
    (stageIdle now rx ry rt s).eye_l_open = s.eye_l_open := rfl
@[simp] theorem stageIdle_eye_r_open (now rx ry rt : Int) (s : RoboState) :
    (stageIdle now rx ry rt s).eye_r_open = s.eye_r_open := rfl
@[simp] theorem stageIdle_eye_l_height_current (now rx ry rt : Int) (s : RoboState) :
    (stageIdle now rx ry rt s).eye_l_height_current = s.eye_l_height_current := rfl
@[simp] theorem stageIdle_eye_r_height_current (now rx ry rt : Int) (s : RoboState) :
    (stageIdle now rx ry rt s).eye_r_height_current = s.eye_r_height_current := rfl
@[simp] theorem stageIdle_eye_l_height_next (now rx ry rt : Int) (s : RoboState) :
    (stageIdle now rx ry rt s).eye_l_height_next = s.eye_l_height_next := rfl
@[simp] theorem stageIdle_eye_r_height_next (now rx ry rt : Int) (s : RoboState) :
    (stageIdle now rx ry rt s).eye_r_height_next = s.eye_r_height_next := rfl
@[simp] theorem stageIdle_eye_l_height_default (now rx ry rt : Int) (s : RoboState) :
    (stageIdle now rx ry rt s).eye_l_height_default = s.eye_l_height_default := rfl
@[simp] theorem stageIdle_eye_r_height_default (now rx ry rt : Int) (s : RoboState) :
    (stageIdle now rx ry rt s).eye_r_height_default = s.eye_r_height_default := rfl
@[simp] theorem stageIdle_eye_l_width_current (now rx ry rt : Int) (s : RoboState) :
    (stageIdle now rx ry rt s).eye_l_width_current = s.eye_l_width_current := rfl
@[simp] theorem stageIdle_eye_r_width_current (now rx ry rt : Int) (s : RoboState) :
    (stageIdle now rx ry rt s).eye_r_width_current = s.eye_r_width_current := rfl
@[simp] theorem stageIdle_eye_l_width_next (now rx ry rt : Int) (s : RoboState) :
    (stageIdle now rx ry rt s).eye_l_width_next = s.eye_l_width_next := rfl
@[simp] theorem stageIdle_eye_r_width_next (now rx ry rt : Int) (s : RoboState) :
    (stageIdle now rx ry rt s).eye_r_width_next = s.eye_r_width_next := rfl
@[simp] theorem stageIdle_eye_l_width_default (now rx ry rt : Int) (s : RoboState) :
    (stageIdle now rx ry rt s).eye_l_width_default = s.eye_l_width_default := rfl
@[simp] theorem stageIdle_eye_r_width_default (now rx ry rt : Int) (s : RoboState) :
    (stageIdle now rx ry rt s).eye_r_width_default = s.eye_r_width_default := rfl
@[simp] theorem stageIdle_space_between_current (now rx ry rt : Int) (s : RoboState) :
    (stageIdle now rx ry rt s).space_between_current = s.space_between_current := rfl
@[simp] theorem stageIdle_space_between_next (now rx ry rt : Int) (s : RoboState) :
    (stageIdle now rx ry rt s).space_between_next = s.space_between_next := rfl
@[simp] theorem stageIdle_eye_r_x_next (now rx ry rt : Int) (s : RoboState) :
    (stageIdle now rx ry rt s).eye_r_x_next = s.eye_r_x_next := rfl
@[simp] theorem stageIdle_eye_r_y_next (now rx ry rt : Int) (s : RoboState) :
    (stageIdle now rx ry rt s).eye_r_y_next = s.eye_r_y_next := rfl
@[simp] theorem stageIdle_eye_l_height_offset (now rx ry rt : Int) (s : RoboState) :
    (stageIdle now rx ry rt s).eye_l_height_offset = s.eye_l_height_offset := rfl
@[simp] theorem stageIdle_eye_r_height_offset (now rx ry rt : Int) (s : RoboState) :
    (stageIdle now rx ry rt s).eye_r_height_offset = s.eye_r_height_offset := rfl
@[simp] theorem stageIdle_blink_timer (now rx ry rt : Int) (s : RoboState) :
    (stageIdle now rx ry rt s).blink_timer = s.blink_timer := rfl

@[simp] theorem stageHFlicker_tired (s : RoboState) :
    (stageHFlicker s).tired = s.tired := rfl
@[simp] theorem stageHFlicker_angry (s : RoboState) :
    (stageHFlicker s).angry = s.angry := rfl
@[simp] theorem stageHFlicker_happy (s : RoboState) :
    (stageHFlicker s).happy = s.happy := rfl
@[simp] theorem stageHFlicker_curious (s : RoboState) :
    (stageHFlicker s).curious = s.curious := rfl
@[simp] theorem stageHFlicker_cyclops (s : RoboState) :
    (stageHFlicker s).cyclops = s.cyclops := rfl
@[simp] theorem stageHFlicker_autoblinker (s : RoboState) :
    (stageHFlicker s).autoblinker = s.autoblinker := rfl
@[simp] theorem stageHFlicker_idle (s : RoboState) :
    (stageHFlicker s).idle = s.idle := rfl
@[simp] theorem stageHFlicker_eye_l_open (s : RoboState) :
    (stageHFlicker s).eye_l_open = s.eye_l_open := rfl
@[simp] theorem stageHFlicker_eye_r_open (s : RoboState) :
    (stageHFlicker s).eye_r_open = s.eye_r_open := rfl
@[simp] theorem stageHFlicker_eye_l_height_current (s : RoboState) :
    (stageHFlicker s).eye_l_height_current = s.eye_l_height_current := rfl
@[simp] theorem stageHFlicker_eye_r_height_current (s : RoboState) :
    (stageHFlicker s).eye_r_height_current = s.eye_r_height_current := rfl
@[simp] theorem stageHFlicker_eye_l_height_next (s : RoboState) :
    (stageHFlicker s).eye_l_height_next = s.eye_l_height_next := rfl
@[simp] theorem stageHFlicker_eye_r_height_next (s : RoboState) :
    (stageHFlicker s).eye_r_height_next = s.eye_r_height_next := rfl
@[simp] theorem stageHFlicker_eye_l_height_default (s : RoboState) :
    (stageHFlicker s).eye_l_height_default = s.eye_l_height_default := rfl
@[simp] theorem stageHFlicker_eye_r_height_default (s : RoboState) :
    (stageHFlicker s).eye_r_height_default = s.eye_r_height_default := rfl
@[simp] theorem stageHFlicker_eye_l_width_current (s : RoboState) :
    (stageHFlicker s).eye_l_width_current = s.eye_l_width_current := rfl
@[simp] theorem stageHFlicker_eye_r_width_current (s : RoboState) :
    (stageHFlicker s).eye_r_width_current = s.eye_r_width_current := rfl
@[simp] theorem stageHFlicker_eye_l_width_next (s : RoboState) :
    (stageHFlicker s).eye_l_width_next = s.eye_l_width_next := rfl
@[simp] theorem stageHFlicker_eye_r_width_next (s : RoboState) :
    (stageHFlicker s).eye_r_width_next = s.eye_r_width_next := rfl
@[simp] theorem stageHFlicker_eye_l_width_default (s : RoboState) :
    (stageHFlicker s).eye_l_width_default = s.eye_l_width_default := rfl
@[simp] theorem stageHFlicker_eye_r_width_default (s : RoboState) :
    (stageHFlicker s).eye_r_width_default = s.eye_r_width_default := rfl
@[simp] theorem stageHFlicker_space_between_current (s : RoboState) :
    (stageHFlicker s).space_between_current = s.space_between_current := rfl
@[simp] theorem stageHFlicker_space_between_next (s : RoboState) :
    (stageHFlicker s).space_between_next = s.space_between_next := rfl
@[simp] theorem stageHFlicker_eye_l_x_next (s : RoboState) :
    (stageHFlicker s).eye_l_x_next = s.eye_l_x_next := rfl
@[simp] theorem stageHFlicker_eye_l_y_next (s : RoboState) :
    (stageHFlicker s).eye_l_y_next = s.eye_l_y_next := rfl
@[simp] theorem stageHFlicker_eye_r_x_next (s : RoboState) :
    (stageHFlicker s).eye_r_x_next = s.eye_r_x_next := rfl
@[simp] theorem stageHFlicker_eye_r_y_next (s : RoboState) :
    (stageHFlicker s).eye_r_y_next = s.eye_r_y_next := rfl
@[simp] theorem stageHFlicker_eye_l_height_offset (s : RoboState) :
    (stageHFlicker s).eye_l_height_offset = s.eye_l_height_offset := rfl
@[simp] theorem stageHFlicker_eye_r_height_offset (s : RoboState) :
    (stageHFlicker s).eye_r_height_offset = s.eye_r_height_offset := rfl
@[simp] theorem stageHFlicker_blink_timer (s : RoboState) :
    (stageHFlicker s).blink_timer = s.blink_timer := rfl

@[simp] theorem stageVFlicker_tired (s : RoboState) :
    (stageVFlicker s).tired = s.tired := rfl
@[simp] theorem stageVFlicker_angry (s : RoboState) :
    (stageVFlicker s).angry = s.angry := rfl
@[simp] theorem stageVFlicker_happy (s : RoboState) :
    (stageVFlicker s).happy = s.happy := rfl
@[simp] theorem stageVFlicker_curious (s : RoboState) :
    (stageVFlicker s).curious = s.curious := rfl
@[simp] theorem stageVFlicker_cyclops (s : RoboState) :
    (stageVFlicker s).cyclops = s.cyclops := rfl
@[simp] theorem stageVFlicker_autoblinker (s : RoboState) :
    (stageVFlicker s).autoblinker = s.autoblinker := rfl
@[simp] theorem stageVFlicker_idle (s : RoboState) :
    (stageVFlicker s).idle = s.idle := rfl
@[simp] theorem stageVFlicker_eye_l_open (s : RoboState) :
    (stageVFlicker s).eye_l_open = s.eye_l_open := rfl
@[simp] theorem stageVFlicker_eye_r_open (s : RoboState) :
    (stageVFlicker s).eye_r_open = s.eye_r_open := rfl
@[simp] theorem stageVFlicker_eye_l_height_current (s : RoboState) :
    (stageVFlicker s).eye_l_height_current = s.eye_l_height_current := rfl
@[simp] theorem stageVFlicker_eye_r_height_current (s : RoboState) :
    (stageVFlicker s).eye_r_height_current = s.eye_r_height_current := rfl
@[simp] theorem stageVFlicker_eye_l_height_next (s : RoboState) :
    (stageVFlicker s).eye_l_height_next = s.eye_l_height_next := rfl
@[simp] theorem stageVFlicker_eye_r_height_next (s : RoboState) :
    (stageVFlicker s).eye_r_height_next = s.eye_r_height_next := rfl
@[simp] theorem stageVFlicker_eye_l_height_default (s : RoboState) :
    (stageVFlicker s).eye_l_height_default = s.eye_l_height_default := rfl
@[simp] theorem stageVFlicker_eye_r_height_default (s : RoboState) :
    (stageVFlicker s).eye_r_height_default = s.eye_r_height_default := rfl
@[simp] theorem stageVFlicker_eye_l_width_current (s : RoboState) :
    (stageVFlicker s).eye_l_width_current = s.eye_l_width_current := rfl
@[simp] theorem stageVFlicker_eye_r_width_current (s : RoboState) :
    (stageVFlicker s).eye_r_width_current = s.eye_r_width_current := rfl
@[simp] theorem stageVFlicker_eye_l_width_next (s : RoboState) :
    (stageVFlicker s).eye_l_width_next = s.eye_l_width_next := rfl
@[simp] theorem stageVFlicker_eye_r_width_next (s : RoboState) :
    (stageVFlicker s).eye_r_width_next = s.eye_r_width_next := rfl
@[simp] theorem stageVFlicker_eye_l_width_default (s : RoboState) :
    (stageVFlicker s).eye_l_width_default = s.eye_l_width_default := rfl
@[simp] theorem stageVFlicker_eye_r_width_default (s : RoboState) :
    (stageVFlicker s).eye_r_width_default = s.eye_r_width_default := rfl
@[simp] theorem stageVFlicker_space_between_current (s : RoboState) :
    (stageVFlicker s).space_between_current = s.space_between_current := rfl
@[simp] theorem stageVFlicker_space_between_next (s : RoboState) :
    (stageVFlicker s).space_between_next = s.space_between_next := rfl
@[simp] theorem stageVFlicker_eye_l_x_next (s : RoboState) :
    (stageVFlicker s).eye_l_x_next = s.eye_l_x_next := rfl
@[simp] theorem stageVFlicker_eye_l_y_next (s : RoboState) :
    (stageVFlicker s).eye_l_y_next = s.eye_l_y_next := rfl
@[simp] theorem stageVFlicker_eye_r_x_next (s : RoboState) :
    (stageVFlicker s).eye_r_x_next = s.eye_r_x_next := rfl
@[simp] theorem stageVFlicker_eye_r_y_next (s : RoboState) :
    (stageVFlicker s).eye_r_y_next = s.eye_r_y_next := rfl
@[simp] theorem stageVFlicker_eye_l_height_offset (s : RoboState) :
    (stageVFlicker s).eye_l_height_offset = s.eye_l_height_offset := rfl
@[simp] theorem stageVFlicker_eye_r_height_offset (s : RoboState) :
    (stageVFlicker s).eye_r_height_offset = s.eye_r_height_offset := rfl
@[simp] theorem stageVFlicker_blink_timer (s : RoboState) :
    (stageVFlicker s).blink_timer = s.blink_timer := rfl

@[simp] theorem stageEyelids_tired (s : RoboState) :
    (stageEyelids s).tired = s.tired := rfl
@[simp] theorem stageEyelids_angry (s : RoboState) :
    (stageEyelids s).angry = s.angry := rfl
@[simp] theorem stageEyelids_happy (s : RoboState) :
    (stageEyelids s).happy = s.happy := rfl
@[simp] theorem stageEyelids_curious (s : RoboState) :
    (stageEyelids s).curious = s.curious := rfl
@[simp] theorem stageEyelids_cyclops (s : RoboState) :
    (stageEyelids s).cyclops = s.cyclops := rfl
@[simp] theorem stageEyelids_autoblinker (s : RoboState) :
    (stageEyelids s).autoblinker = s.autoblinker := rfl
@[simp] theorem stageEyelids_idle (s : RoboState) :
    (stageEyelids s).idle = s.idle := rfl
@[simp] theorem stageEyelids_eye_l_open (s : RoboState) :
    (stageEyelids s).eye_l_open = s.eye_l_open := rfl
@[simp] theorem stageEyelids_eye_r_open (s : RoboState) :
    (stageEyelids s).eye_r_open = s.eye_r_open := rfl
@[simp] theorem stageEyelids_eye_l_height_current (s : RoboState) :
    (stageEyelids s).eye_l_height_current = s.eye_l_height_current := rfl
@[simp] theorem stageEyelids_eye_r_height_current (s : RoboState) :
    (stageEyelids s).eye_r_height_current = s.eye_r_height_current := rfl
@[simp] theorem stageEyelids_eye_l_height_next (s : RoboState) :
    (stageEyelids s).eye_l_height_next = s.eye_l_height_next := rfl
@[simp] theorem stageEyelids_eye_r_height_next (s : RoboState) :
    (stageEyelids s).eye_r_height_next = s.eye_r_height_next := rfl
@[simp] theorem stageEyelids_eye_l_height_default (s : RoboState) :
    (stageEyelids s).eye_l_height_default = s.eye_l_height_default := rfl
@[simp] theorem stageEyelids_eye_r_height_default (s : RoboState) :
    (stageEyelids s).eye_r_height_default = s.eye_r_height_default := rfl
@[simp] theorem stageEyelids_eye_l_width_current (s : RoboState) :
    (stageEyelids s).eye_l_width_current = s.eye_l_width_current := rfl
@[simp] theorem stageEyelids_eye_r_width_current (s : RoboState) :
    (stageEyelids s).eye_r_width_current = s.eye_r_width_current := rfl
@[simp] theorem stageEyelids_eye_l_width_next (s : RoboState) :
    (stageEyelids s).eye_l_width_next = s.eye_l_width_next := rfl
@[simp] theorem stageEyelids_eye_r_width_next (s : RoboState) :
    (stageEyelids s).eye_r_width_next = s.eye_r_width_next := rfl
@[simp] theorem stageEyelids_eye_l_width_default (s : RoboState) :
    (stageEyelids s).eye_l_width_default = s.eye_l_width_default := rfl
@[simp] theorem stageEyelids_eye_r_width_default (s : RoboState) :
    (stageEyelids s).eye_r_width_default = s.eye_r_width_default := rfl
@[simp] theorem stageEyelids_space_between_current (s : RoboState) :
    (stageEyelids s).space_between_current = s.space_between_current := rfl
@[simp] theorem stageEyelids_space_between_next (s : RoboState) :
    (stageEyelids s).space_between_next = s.space_between_next := rfl
@[simp] theorem stageEyelids_eye_l_x_next (s : RoboState) :
    (stageEyelids s).eye_l_x_next = s.eye_l_x_next := rfl
@[simp] theorem stageEyelids_eye_l_y_next (s : RoboState) :
    (stageEyelids s).eye_l_y_next = s.eye_l_y_next := rfl
@[simp] theorem stageEyelids_eye_r_x_next (s : RoboState) :
    (stageEyelids s).eye_r_x_next = s.eye_r_x_next := rfl
@[simp] theorem stageEyelids_eye_r_y_next (s : RoboState) :
    (stageEyelids s).eye_r_y_next = s.eye_r_y_next := rfl
@[simp] theorem stageEyelids_eye_l_height_offset (s : RoboState) :
    (stageEyelids s).eye_l_height_offset = s.eye_l_height_offset := rfl
@[simp] theorem stageEyelids_eye_r_height_offset (s : RoboState) :
    (stageEyelids s).eye_r_height_offset = s.eye_r_height_offset := rfl
@[simp] theorem stageEyelids_blink_timer (s : RoboState) :
    (stageEyelids s).blink_timer = s.blink_timer := rfl

/-! Value lemmas for the fields each stage does assign. -/

@[simp] theorem stageCurious_eye_l_height_offset (s : RoboState) :
    (stageCurious s).eye_l_height_offset =
      (if s.curious = true then
        (if s.eye_l_x_next ≤ 10 then 8
         else if s.eye_l_x_next ≥ getScreenConstraintX s - 10 ∧ s.cyclops = true then 8
         else 0)
      else 0) := rfl

@[simp] theorem stageCurious_eye_r_height_offset (s : RoboState) :
    (stageCurious s).eye_r_height_offset =
      (if s.curious = true then
        (if s.eye_r_x_next ≥ s.screen_width - s.eye_r_width_current - 10 then 8 else 0)
      else 0) := rfl

@[simp] theorem stageHeights_eye_l_height_current (s : RoboState) :
    (stageHeights s).eye_l_height_current =
      Int.fdiv (s.eye_l_height_current + s.eye_l_height_next + s.eye_l_height_offset) 2 := rfl

@[simp] theorem stageHeights_eye_r_height_current (s : RoboState) :
    (stageHeights s).eye_r_height_current =
      Int.fdiv (s.eye_r_height_current + s.eye_r_height_next + s.eye_r_height_offset) 2 := rfl

@[simp] theorem stageReopen_eye_l_height_next (s : RoboState) :
    (stageReopen s).eye_l_height_next =
      (if s.eye_l_open = true ∧ s.eye_l_height_current ≤ 1 + s.eye_l_height_offset then
        s.eye_l_height_default
      else s.eye_l_height_next) := rfl

@[simp] theorem stageReopen_eye_r_height_next (s : RoboState) :
    (stageReopen s).eye_r_height_next =
      (if s.eye_r_open = true ∧ s.eye_r_height_current ≤ 1 + s.eye_r_height_offset then
        s.eye_r_height_default
      else s.eye_r_height_next) := rfl

@[simp] theorem stageWidthSpace_eye_l_width_current (s : RoboState) :
    (stageWidthSpace s).eye_l_width_current =
      Int.fdiv (s.eye_l_width_current + s.eye_l_width_next) 2 := rfl

@[simp] theorem stageWidthSpace_eye_r_width_current (s : RoboState) :
    (stageWidthSpace s).eye_r_width_current =
      Int.fdiv (s.eye_r_width_current + s.eye_r_width_next) 2 := rfl

@[simp] theorem stageWidthSpace_space_between_current (s : RoboState) :
    (stageWidthSpace s).space_between_current =
      Int.fdiv (s.space_between_current + s.space_between_next) 2 := rfl

@[simp] theorem stagePositions_eye_r_x_next (s : RoboState) :
    (stagePositions s).eye_r_x_next =
      s.eye_l_x_next + s.eye_l_width_current + s.space_between_current := rfl

@[simp] theorem stagePositions_eye_r_y_next (s : RoboState) :
    (stagePositions s).eye_r_y_next = s.eye_l_y_next := rfl

@[simp] theorem stageAutoblink_eye_l_height_next (now rand : Int) (s : RoboState) :
    (stageAutoblink now rand s).eye_l_height_next =
      (if s.autoblinker = true ∧ now - s.blink_timer ≥ 0 then 1 else s.eye_l_height_next) := rfl

@[simp] theorem stageAutoblink_eye_r_height_next (now rand : Int) (s : RoboState) :
    (stageAutoblink now rand s).eye_r_height_next =
      (if s.autoblinker = true ∧ now - s.blink_timer ≥ 0 then 1 else s.eye_r_height_next) := rfl

@[simp] theorem stageAutoblink_eye_l_open (now rand : Int) (s : RoboState) :
    (stageAutoblink now rand s).eye_l_open =
      (if s.autoblinker = true ∧ now - s.blink_timer ≥ 0 then true else s.eye_l_open) := rfl

@[simp] theorem stageAutoblink_eye_r_open (now rand : Int) (s : RoboState) :
    (stageAutoblink now rand s).eye_r_open =
      (if s.autoblinker = true ∧ now - s.blink_timer ≥ 0 then true else s.eye_r_open) := rfl

@[simp] theorem stageIdle_eye_l_x_next (now rx ry rt : Int) (s : RoboState) :
    (stageIdle now rx ry rt s).eye_l_x_next =
      (if s.idle = true ∧ now - s.idle_animation_timer ≥ 0 then rx else s.eye_l_x_next) := rfl

@[simp] theorem stageIdle_eye_l_y_next (now rx ry rt : Int) (s : RoboState) :
    (stageIdle now rx ry rt s).eye_l_y_next =
      (if s.idle = true ∧ now - s.idle_animation_timer ≥ 0 then ry else s.eye_l_y_next) := rfl


/-- Runs `n` consecutive `draw_eyes` calls fed by the oracle stream `ins`. -/
def tickN (ins : Nat → TickIn) : Nat → RoboState → RoboState
  | 0, s => s
  | Nat.succ n, s => drawEyes (ins n) (tickN ins n s)

/-! ### Per-mutator projection lemmas

Fields a public mutator does not assign are unchanged by it; these
one-step lemmas drive the reachability inductions. -/

@[simp] theorem setFramerate_tired (s : RoboState) (fps : Int) :
    (setFramerate s fps).tired = s.tired := rfl
@[simp] theorem setFramerate_angry (s : RoboState) (fps : Int) :
    (setFramerate s fps).angry = s.angry := rfl
@[simp] theorem setFramerate_happy (s : RoboState) (fps : Int) :
    (setFramerate s fps).happy = s.happy := rfl
@[simp] theorem setFramerate_eye_l_height_current (s : RoboState) (fps : Int) :
    (setFramerate s fps).eye_l_height_current = s.eye_l_height_current := rfl
@[simp] theorem setFramerate_eye_l_height_next (s : RoboState) (fps : Int) :
    (setFramerate s fps).eye_l_height_next = s.eye_l_height_next := rfl
@[simp] theorem setFramerate_eye_l_height_default (s : RoboState) (fps : Int) :
    (setFramerate s fps).eye_l_height_default = s.eye_l_height_default := rfl
@[simp] theorem setFramerate_eye_r_height_current (s : RoboState) (fps : Int) :
    (setFramerate s fps).eye_r_height_current = s.eye_r_height_current := rfl
@[simp] theorem setFramerate_eye_r_height_next (s : RoboState) (fps : Int) :
    (setFramerate s fps).eye_r_height_next = s.eye_r_height_next := rfl
@[simp] theorem setFramerate_eye_r_height_default (s : RoboState) (fps : Int) :
    (setFramerate s fps).eye_r_height_default = s.eye_r_height_default := rfl
@[simp] theorem setFramerate_eye_l_width_current (s : RoboState) (fps : Int) :
    (setFramerate s fps).eye_l_width_current = s.eye_l_width_current := rfl
@[simp] theorem setFramerate_eye_l_width_next (s : RoboState) (fps : Int) :
    (setFramerate s fps).eye_l_width_next = s.eye_l_width_next := rfl
@[simp] theorem setFramerate_eye_l_width_default (s : RoboState) (fps : Int) :
    (setFramerate s fps).eye_l_width_default = s.eye_l_width_default := rfl
@[simp] theorem setFramerate_eye_r_width_current (s : RoboState) (fps : Int) :
    (setFramerate s fps).eye_r_width_current = s.eye_r_width_current := rfl
@[simp] theorem setFramerate_eye_r_width_next (s : RoboState) (fps : Int) :
    (setFramerate s fps).eye_r_width_next = s.eye_r_width_next := rfl
@[simp] theorem setFramerate_eye_r_width_default (s : RoboState) (fps : Int) :
    (setFramerate s fps).eye_r_width_default = s.eye_r_width_default := rfl

@[simp] theorem eyesWidth_tired (s : RoboState) (l r : Option Int) :
    (eyesWidth s l r).tired = s.tired := rfl
@[simp] theorem eyesWidth_angry (s : RoboState) (l r : Option Int) :
    (eyesWidth s l r).angry = s.angry := rfl
@[simp] theorem eyesWidth_happy (s : RoboState) (l r : Option Int) :
    (eyesWidth s l r).happy = s.happy := rfl
@[simp] theorem eyesWidth_eye_l_height_current (s : RoboState) (l r : Option Int) :
    (eyesWidth s l r).eye_l_height_current = s.eye_l_height_current := rfl
@[simp] theorem eyesWidth_eye_l_height_next (s : RoboState) (l r : Option Int) :
    (eyesWidth s l r).eye_l_height_next = s.eye_l_height_next := rfl
@[simp] theorem eyesWidth_eye_l_height_default (s : RoboState) (l r : Option Int) :
    (eyesWidth s l r).eye_l_height_default = s.eye_l_height_default := rfl
@[simp] theorem eyesWidth_eye_r_height_current (s : RoboState) (l r : Option Int) :
    (eyesWidth s l r).eye_r_height_current = s.eye_r_height_current := rfl
@[simp] theorem eyesWidth_eye_r_height_next (s : RoboState) (l r : Option Int) :
    (eyesWidth s l r).eye_r_height_next = s.eye_r_height_next := rfl
@[simp] theorem eyesWidth_eye_r_height_default (s : RoboState) (l r : Option Int) :
    (eyesWidth s l r).eye_r_height_default = s.eye_r_height_default := rfl
@[simp] theorem eyesWidth_eye_l_width_current (s : RoboState) (l r : Option Int) :
    (eyesWidth s l r).eye_l_width_current = s.eye_l_width_current := rfl
@[simp] theorem eyesWidth_eye_r_width_current (s : RoboState) (l r : Option Int) :
    (eyesWidth s l r).eye_r_width_current = s.eye_r_width_current := rfl

@[simp] theorem eyesHeight_tired (s : RoboState) (l r : Option Int) :
    (eyesHeight s l r).tired = s.tired := rfl
@[simp] theorem eyesHeight_angry (s : RoboState) (l r : Option Int) :
    (eyesHeight s l r).angry = s.angry := rfl
@[simp] theorem eyesHeight_happy (s : RoboState) (l r : Option Int) :
    (eyesHeight s l r).happy = s.happy := rfl
@[simp] theorem eyesHeight_eye_l_height_current (s : RoboState) (l r : Option Int) :
    (eyesHeight s l r).eye_l_height_current = s.eye_l_height_current := rfl
@[simp] theorem eyesHeight_eye_r_height_current (s : RoboState) (l r : Option Int) :
    (eyesHeight s l r).eye_r_height_current = s.eye_r_height_current := rfl
@[simp] theorem eyesHeight_eye_l_width_current (s : RoboState) (l r : Option Int) :
    (eyesHeight s l r).eye_l_width_current = s.eye_l_width_current := rfl
@[simp] theorem eyesHeight_eye_l_width_next (s : RoboState) (l r : Option Int) :
    (eyesHeight s l r).eye_l_width_next = s.eye_l_width_next := rfl
@[simp] theorem eyesHeight_eye_l_width_default (s : RoboState) (l r : Option Int) :
    (eyesHeight s l r).eye_l_width_default = s.eye_l_width_default := rfl
@[simp] theorem eyesHeight_eye_r_width_current (s : RoboState) (l r : Option Int) :
    (eyesHeight s l r).eye_r_width_current = s.eye_r_width_current := rfl
@[simp] theorem eyesHeight_eye_r_width_next (s : RoboState) (l r : Option Int) :
    (eyesHeight s l r).eye_r_width_next = s.eye_r_width_next := rfl
@[simp] theorem eyesHeight_eye_r_width_default (s : RoboState) (l r : Option Int) :
    (eyesHeight s l r).eye_r_width_default = s.eye_r_width_default := rfl

@[simp] theorem eyesRadius_tired (s : RoboState) (l r : Option Int) :
    (eyesRadius s l r).tired = s.tired := rfl
@[simp] theorem eyesRadius_angry (s : RoboState) (l r : Option Int) :
    (eyesRadius s l r).angry = s.angry := rfl
@[simp] theorem eyesRadius_happy (s : RoboState) (l r : Option Int) :
    (eyesRadius s l r).happy = s.happy := rfl
@[simp] theorem eyesRadius_eye_l_height_current (s : RoboState) (l r : Option Int) :
    (eyesRadius s l r).eye_l_height_current = s.eye_l_height_current := rfl
@[simp] theorem eyesRadius_eye_l_height_next (s : RoboState) (l r : Option Int) :
    (eyesRadius s l r).eye_l_height_next = s.eye_l_height_next := rfl
@[simp] theorem eyesRadius_eye_l_height_default (s : RoboState) (l r : Option Int) :
    (eyesRadius s l r).eye_l_height_default = s.eye_l_height_default := rfl
@[simp] theorem eyesRadius_eye_r_height_current (s : RoboState) (l r : Option Int) :
    (eyesRadius s l r).eye_r_height_current = s.eye_r_height_current := rfl
@[simp] theorem eyesRadius_eye_r_height_next (s : RoboState) (l r : Option Int) :
    (eyesRadius s l r).eye_r_height_next = s.eye_r_height_next := rfl
@[simp] theorem eyesRadius_eye_r_height_default (s : RoboState) (l r : Option Int) :
    (eyesRadius s l r).eye_r_height_default = s.eye_r_height_default := rfl
@[simp] theorem eyesRadius_eye_l_width_current (s : RoboState) (l r : Option Int) :
    (eyesRadius s l r).eye_l_width_current = s.eye_l_width_current := rfl
@[simp] theorem eyesRadius_eye_l_width_next (s : RoboState) (l r : Option Int) :
    (eyesRadius s l r).eye_l_width_next = s.eye_l_width_next := rfl
@[simp] theorem eyesRadius_eye_l_width_default (s : RoboState) (l r : Option Int) :
    (eyesRadius s l r).eye_l_width_default = s.eye_l_width_default := rfl
@[simp] theorem eyesRadius_eye_r_width_current (s : RoboState) (l r : Option Int) :
    (eyesRadius s l r).eye_r_width_current = s.eye_r_width_current := rfl
@[simp] theorem eyesRadius_eye_r_width_next (s : RoboState) (l r : Option Int) :
    (eyesRadius s l r).eye_r_width_next = s.eye_r_width_next := rfl
@[simp] theorem eyesRadius_eye_r_width_default (s : RoboState) (l r : Option Int) :
    (eyesRadius s l r).eye_r_width_default = s.eye_r_width_default := rfl

@[simp] theorem eyesSpacing_tired (s : RoboState) (v : Int) :
    (eyesSpacing s v).tired = s.tired := rfl
@[simp] theorem eyesSpacing_angry (s : RoboState) (v : Int) :
    (eyesSpacing s v).angry = s.angry := rfl
@[simp] theorem eyesSpacing_happy (s : RoboState) (v : Int) :
    (eyesSpacing s v).happy = s.happy := rfl
@[simp] theorem eyesSpacing_eye_l_height_current (s : RoboState) (v : Int) :
    (eyesSpacing s v).eye_l_height_current = s.eye_l_height_current := rfl
@[simp] theorem eyesSpacing_eye_l_height_next (s : RoboState) (v : Int) :
    (eyesSpacing s v).eye_l_height_next = s.eye_l_height_next := rfl
@[simp] theorem eyesSpacing_eye_l_height_default (s : RoboState) (v : Int) :
    (eyesSpacing s v).eye_l_height_default = s.eye_l_height_default := rfl
@[simp] theorem eyesSpacing_eye_r_height_current (s : RoboState) (v : Int) :
    (eyesSpacing s v).eye_r_height_current = s.eye_r_height_current := rfl
@[simp] theorem eyesSpacing_eye_r_height_next (s : RoboState) (v : Int) :
    (eyesSpacing s v).eye_r_height_next = s.eye_r_height_next := rfl
@[simp] theorem eyesSpacing_eye_r_height_default (s : RoboState) (v : Int) :
    (eyesSpacing s v).eye_r_height_default = s.eye_r_height_default := rfl
@[simp] theorem eyesSpacing_eye_l_width_current (s : RoboState) (v : Int) :
    (eyesSpacing s v).eye_l_width_current = s.eye_l_width_current := rfl
@[simp] theorem eyesSpacing_eye_l_width_next (s : RoboState) (v : Int) :
    (eyesSpacing s v).eye_l_width_next = s.eye_l_width_next := rfl
@[simp] theorem eyesSpacing_eye_l_width_default (s : RoboState) (v : Int) :
    (eyesSpacing s v).eye_l_width_default = s.eye_l_width_default := rfl
@[simp] theorem eyesSpacing_eye_r_width_current (s : RoboState) (v : Int) :
    (eyesSpacing s v).eye_r_width_current = s.eye_r_width_current := rfl
@[simp] theorem eyesSpacing_eye_r_width_next (s : RoboState) (v : Int) :
    (eyesSpacing s v).eye_r_width_next = s.eye_r_width_next := rfl
@[simp] theorem eyesSpacing_eye_r_width_default (s : RoboState) (v : Int) :
    (eyesSpacing s v).eye_r_width_default = s.eye_r_width_default := rfl

@[simp] theorem setMood_eye_l_height_current (s : RoboState) (v : Int) :
    (setMood s v).eye_l_height_current = s.eye_l_height_current := rfl
@[simp] theorem setMood_eye_l_height_next (s : RoboState) (v : Int) :
    (setMood s v).eye_l_height_next = s.eye_l_height_next := rfl
@[simp] theorem setMood_eye_l_height_default (s : RoboState) (v : Int) :
    (setMood s v).eye_l_height_default = s.eye_l_height_default := rfl
@[simp] theorem setMood_eye_r_height_current (s : RoboState) (v : Int) :
    (setMood s v).eye_r_height_current = s.eye_r_height_current := rfl
@[simp] theorem setMood_eye_r_height_next (s : RoboState) (v : Int) :
    (setMood s v).eye_r_height_next = s.eye_r_height_next := rfl
@[simp] theorem setMood_eye_r_height_default (s : RoboState) (v : Int) :
    (setMood s v).eye_r_height_default = s.eye_r_height_default := rfl
@[simp] theorem setMood_eye_l_width_current (s : RoboState) (v : Int) :
    (setMood s v).eye_l_width_current = s.eye_l_width_current := rfl
@[simp] theorem setMood_eye_l_width_next (s : RoboState) (v : Int) :
    (setMood s v).eye_l_width_next = s.eye_l_width_next := rfl
@[simp] theorem setMood_eye_l_width_default (s : RoboState) (v : Int) :
    (setMood s v).eye_l_width_default = s.eye_l_width_default := rfl
@[simp] theorem setMood_eye_r_width_current (s : RoboState) (v : Int) :
    (setMood s v).eye_r_width_current = s.eye_r_width_current := rfl
@[simp] theorem setMood_eye_r_width_next (s : RoboState) (v : Int) :
    (setMood s v).eye_r_width_next = s.eye_r_width_next := rfl
@[simp] theorem setMood_eye_r_width_default (s : RoboState) (v : Int) :
    (setMood s v).eye_r_width_default = s.eye_r_width_default := rfl

@[simp] theorem setCurious_tired (s : RoboState) (bv : Bool) :
    (setCurious s bv).tired = s.tired := rfl
@[simp] theorem setCurious_angry (s : RoboState) (bv : Bool) :
    (setCurious s bv).angry = s.angry := rfl
@[simp] theorem setCurious_happy (s : RoboState) (bv : Bool) :
    (setCurious s bv).happy = s.happy := rfl
@[simp] theorem setCurious_eye_l_height_current (s : RoboState) (bv : Bool) :
    (setCurious s bv).eye_l_height_current = s.eye_l_height_current := rfl
@[simp] theorem setCurious_eye_l_height_next (s : RoboState) (bv : Bool) :
    (setCurious s bv).eye_l_height_next = s.eye_l_height_next := rfl
@[simp] theorem setCurious_eye_l_height_default (s : RoboState) (bv : Bool) :
    (setCurious s bv).eye_l_height_default = s.eye_l_height_default := rfl
@[simp] theorem setCurious_eye_r_height_current (s : RoboState) (bv : Bool) :
    (setCurious s bv).eye_r_height_current = s.eye_r_height_current := rfl
@[simp] theorem setCurious_eye_r_height_next (s : RoboState) (bv : Bool) :
    (setCurious s bv).eye_r_height_next = s.eye_r_height_next := rfl
@[simp] theorem setCurious_eye_r_height_default (s : RoboState) (bv : Bool) :
    (setCurious s bv).eye_r_height_default = s.eye_r_height_default := rfl
@[simp] theorem setCurious_eye_l_width_current (s : RoboState) (bv : Bool) :
    (setCurious s bv).eye_l_width_current = s.eye_l_width_current := rfl
@[simp] theorem setCurious_eye_l_width_next (s : RoboState) (bv : Bool) :
    (setCurious s bv).eye_l_width_next = s.eye_l_width_next := rfl
@[simp] theorem setCurious_eye_l_width_default (s : RoboState) (bv : Bool) :
    (setCurious s bv).eye_l_width_default = s.eye_l_width_default := rfl
@[simp] theorem setCurious_eye_r_width_current (s : RoboState) (bv : Bool) :
    (setCurious s bv).eye_r_width_current = s.eye_r_width_current := rfl
@[simp] theorem setCurious_eye_r_width_next (s : RoboState) (bv : Bool) :
    (setCurious s bv).eye_r_width_next = s.eye_r_width_next := rfl
@[simp] theorem setCurious_eye_r_width_default (s : RoboState) (bv : Bool) :
    (setCurious s bv).eye_r_width_default = s.eye_r_width_default := rfl

@[simp] theorem setCyclops_tired (s : RoboState) (bv : Bool) :
    (setCyclops s bv).tired = s.tired := rfl
@[simp] theorem setCyclops_angry (s : RoboState) (bv : Bool) :
    (setCyclops s bv).angry = s.angry := rfl
@[simp] theorem setCyclops_happy (s : RoboState) (bv : Bool) :
    (setCyclops s bv).happy = s.happy := rfl
@[simp] theorem setCyclops_eye_l_height_current (s : RoboState) (bv : Bool) :
    (setCyclops s bv).eye_l_height_current = s.eye_l_height_current := rfl
@[simp] theorem setCyclops_eye_l_height_next (s : RoboState) (bv : Bool) :
    (setCyclops s bv).eye_l_height_next = s.eye_l_height_next := rfl
@[simp] theorem setCyclops_eye_l_height_default (s : RoboState) (bv : Bool) :
    (setCyclops s bv).eye_l_height_default = s.eye_l_height_default := rfl
@[simp] theorem setCyclops_eye_r_height_current (s : RoboState) (bv : Bool) :
    (setCyclops s bv).eye_r_height_current = s.eye_r_height_current := rfl
@[simp] theorem setCyclops_eye_r_height_next (s : RoboState) (bv : Bool) :
    (setCyclops s bv).eye_r_height_next = s.eye_r_height_next := rfl
@[simp] theorem setCyclops_eye_r_height_default (s : RoboState) (bv : Bool) :
    (setCyclops s bv).eye_r_height_default = s.eye_r_height_default := rfl
@[simp] theorem setCyclops_eye_l_width_current (s : RoboState) (bv : Bool) :
    (setCyclops s bv).eye_l_width_current = s.eye_l_width_current := rfl
@[simp] theorem setCyclops_eye_l_width_next (s : RoboState) (bv : Bool) :
    (setCyclops s bv).eye_l_width_next = s.eye_l_width_next := rfl
@[simp] theorem setCyclops_eye_l_width_default (s : RoboState) (bv : Bool) :
    (setCyclops s bv).eye_l_width_default = s.eye_l_width_default := rfl
@[simp] theorem setCyclops_eye_r_width_current (s : RoboState) (bv : Bool) :
    (setCyclops s bv).eye_r_width_current = s.eye_r_width_current := rfl
@[simp] theorem setCyclops_eye_r_width_next (s : RoboState) (bv : Bool) :
    (setCyclops s bv).eye_r_width_next = s.eye_r_width_next := rfl
@[simp] theorem setCyclops_eye_r_width_default (s : RoboState) (bv : Bool) :
    (setCyclops s bv).eye_r_width_default = s.eye_r_width_default := rfl

@[simp] theorem horizFlicker_tired (s : RoboState) (e : Bool) (a : Option Int) :
    (horizFlicker s e a).tired = s.tired := rfl
@[simp] theorem horizFlicker_angry (s : RoboState) (e : Bool) (a : Option Int) :
    (horizFlicker s e a).angry = s.angry := rfl
@[simp] theorem horizFlicker_happy (s : RoboState) (e : Bool) (a : Option Int) :
    (horizFlicker s e a).happy = s.happy := rfl
@[simp] theorem horizFlicker_eye_l_height_current (s : RoboState) (e : Bool) (a : Option Int) :
    (horizFlicker s e a).eye_l_height_current = s.eye_l_height_current := rfl
@[simp] theorem horizFlicker_eye_l_height_next (s : RoboState) (e : Bool) (a : Option Int) :
    (horizFlicker s e a).eye_l_height_next = s.eye_l_height_next := rfl
@[simp] theorem horizFlicker_eye_l_height_default (s : RoboState) (e : Bool) (a : Option Int) :
    (horizFlicker s e a).eye_l_height_default = s.eye_l_height_default := rfl
@[simp] theorem horizFlicker_eye_r_height_current (s : RoboState) (e : Bool) (a : Option Int) :
    (horizFlicker s e a).eye_r_height_current = s.eye_r_height_current := rfl
@[simp] theorem horizFlicker_eye_r_height_next (s : RoboState) (e : Bool) (a : Option Int) :
    (horizFlicker s e a).eye_r_height_next = s.eye_r_height_next := rfl
@[simp] theorem horizFlicker_eye_r_height_default (s : RoboState) (e : Bool) (a : Option Int) :
    (horizFlicker s e a).eye_r_height_default = s.eye_r_height_default := rfl
@[simp] theorem horizFlicker_eye_l_width_current (s : RoboState) (e : Bool) (a : Option Int) :
    (horizFlicker s e a).eye_l_width_current = s.eye_l_width_current := rfl
@[simp] theorem horizFlicker_eye_l_width_next (s : RoboState) (e : Bool) (a : Option Int) :
    (horizFlicker s e a).eye_l_width_next = s.eye_l_width_next := rfl
@[simp] theorem horizFlicker_eye_l_width_default (s : RoboState) (e : Bool) (a : Option Int) :
    (horizFlicker s e a).eye_l_width_default = s.eye_l_width_default := rfl
@[simp] theorem horizFlicker_eye_r_width_current (s : RoboState) (e : Bool) (a : Option Int) :
    (horizFlicker s e a).eye_r_width_current = s.eye_r_width_current := rfl
@[simp] theorem horizFlicker_eye_r_width_next (s : RoboState) (e : Bool) (a : Option Int) :
    (horizFlicker s e a).eye_r_width_next = s.eye_r_width_next := rfl
@[simp] theorem horizFlicker_eye_r_width_default (s : RoboState) (e : Bool) (a : Option Int) :
    (horizFlicker s e a).eye_r_width_default = s.eye_r_width_default := rfl

@[simp] theorem vertFlicker_tired (s : RoboState) (e : Bool) (a : Option Int) :
    (vertFlicker s e a).tired = s.tired := rfl
@[simp] theorem vertFlicker_angry (s : RoboState) (e : Bool) (a : Option Int) :
    (vertFlicker s e a).angry = s.angry := rfl
@[simp] theorem vertFlicker_happy (s : RoboState) (e : Bool) (a : Option Int) :
    (vertFlicker s e a).happy = s.happy := rfl
@[simp] theorem vertFlicker_eye_l_height_current (s : RoboState) (e : Bool) (a : Option Int) :
    (vertFlicker s e a).eye_l_height_current = s.eye_l_height_current := rfl
@[simp] theorem vertFlicker_eye_l_height_next (s : RoboState) (e : Bool) (a : Option Int) :
    (vertFlicker s e a).eye_l_height_next = s.eye_l_height_next := rfl
@[simp] theorem vertFlicker_eye_l_height_default (s : RoboState) (e : Bool) (a : Option Int) :
    (vertFlicker s e a).eye_l_height_default = s.eye_l_height_default := rfl
@[simp] theorem vertFlicker_eye_r_height_current (s : RoboState) (e : Bool) (a : Option Int) :
    (vertFlicker s e a).eye_r_height_current = s.eye_r_height_current := rfl
@[simp] theorem vertFlicker_eye_r_height_next (s : RoboState) (e : Bool) (a : Option Int) :
    (vertFlicker s e a).eye_r_height_next = s.eye_r_height_next := rfl
@[simp] theorem vertFlicker_eye_r_height_default (s : RoboState) (e : Bool) (a : Option Int) :
    (vertFlicker s e a).eye_r_height_default = s.eye_r_height_default := rfl
@[simp] theorem vertFlicker_eye_l_width_current (s : RoboState) (e : Bool) (a : Option Int) :
    (vertFlicker s e a).eye_l_width_current = s.eye_l_width_current := rfl
@[simp] theorem vertFlicker_eye_l_width_next (s : RoboState) (e : Bool) (a : Option Int) :
    (vertFlicker s e a).eye_l_width_next = s.eye_l_width_next := rfl
@[simp] theorem vertFlicker_eye_l_width_default (s : RoboState) (e : Bool) (a : Option Int) :
    (vertFlicker s e a).eye_l_width_default = s.eye_l_width_default := rfl
@[simp] theorem vertFlicker_eye_r_width_current (s : RoboState) (e : Bool) (a : Option Int) :
    (vertFlicker s e a).eye_r_width_current = s.eye_r_width_current := rfl
@[simp] theorem vertFlicker_eye_r_width_next (s : RoboState) (e : Bool) (a : Option Int) :
    (vertFlicker s e a).eye_r_width_next = s.eye_r_width_next := rfl
@[simp] theorem vertFlicker_eye_r_width_default (s : RoboState) (e : Bool) (a : Option Int) :
    (vertFlicker s e a).eye_r_width_default = s.eye_r_width_default := rfl

@[simp] theorem setAutoBlinker_tired (s : RoboState) (a : Bool) (iv vv : Option Int) :
    (setAutoBlinker s a iv vv).tired = s.tired := rfl
@[simp] theorem setAutoBlinker_angry (s : RoboState) (a : Bool) (iv vv : Option Int) :
    (setAutoBlinker s a iv vv).angry = s.angry := rfl
@[simp] theorem setAutoBlinker_happy (s : RoboState) (a : Bool) (iv vv : Option Int) :
    (setAutoBlinker s a iv vv).happy = s.happy := rfl
@[simp] theorem setAutoBlinker_eye_l_height_current (s : RoboState) (a : Bool) (iv vv : Option Int) :
    (setAutoBlinker s a iv vv).eye_l_height_current = s.eye_l_height_current := rfl
@[simp] theorem setAutoBlinker_eye_l_height_next (s : RoboState) (a : Bool) (iv vv : Option Int) :
    (setAutoBlinker s a iv vv).eye_l_height_next = s.eye_l_height_next := rfl
@[simp] theorem setAutoBlinker_eye_l_height_default (s : RoboState) (a : Bool) (iv vv : Option Int) :
    (setAutoBlinker s a iv vv).eye_l_height_default = s.eye_l_height_default := rfl
@[simp] theorem setAutoBlinker_eye_r_height_current (s : RoboState) (a : Bool) (iv vv : Option Int) :
    (setAutoBlinker s a iv vv).eye_r_height_current = s.eye_r_height_current := rfl
@[simp] theorem setAutoBlinker_eye_r_height_next (s : RoboState) (a : Bool) (iv vv : Option Int) :
    (setAutoBlinker s a iv vv).eye_r_height_next = s.eye_r_height_next := rfl
@[simp] theorem setAutoBlinker_eye_r_height_default (s : RoboState) (a : Bool) (iv vv : Option Int) :
    (setAutoBlinker s a iv vv).eye_r_height_default = s.eye_r_height_default := rfl
@[simp] theorem setAutoBlinker_eye_l_width_current (s : RoboState) (a : Bool) (iv vv : Option Int) :
    (setAutoBlinker s a iv vv).eye_l_width_current = s.eye_l_width_current := rfl
@[simp] theorem setAutoBlinker_eye_l_width_next (s : RoboState) (a : Bool) (iv vv : Option Int) :
    (setAutoBlinker s a iv vv).eye_l_width_next = s.eye_l_width_next := rfl
@[simp] theorem setAutoBlinker_eye_l_width_default (s : RoboState) (a : Bool) (iv vv : Option Int) :
    (setAutoBlinker s a iv vv).eye_l_width_default = s.eye_l_width_default := rfl
@[simp] theorem setAutoBlinker_eye_r_width_current (s : RoboState) (a : Bool) (iv vv : Option Int) :
    (setAutoBlinker s a iv vv).eye_r_width_current = s.eye_r_width_current := rfl
@[simp] theorem setAutoBlinker_eye_r_width_next (s : RoboState) (a : Bool) (iv vv : Option Int) :
    (setAutoBlinker s a iv vv).eye_r_width_next = s.eye_r_width_next := rfl
@[simp] theorem setAutoBlinker_eye_r_width_default (s : RoboState) (a : Bool) (iv vv : Option Int) :
    (setAutoBlinker s a iv vv).eye_r_width_default = s.eye_r_width_default := rfl

@[simp] theorem setIdleMode_tired (s : RoboState) (a : Bool) (iv vv : Option Int) :
    (setIdleMode s a iv vv).tired = s.tired := rfl
@[simp] theorem setIdleMode_angry (s : RoboState) (a : Bool) (iv vv : Option Int) :
    (setIdleMode s a iv vv).angry = s.angry := rfl
@[simp] theorem setIdleMode_happy (s : RoboState) (a : Bool) (iv vv : Option Int) :
    (setIdleMode s a iv vv).happy = s.happy := rfl
@[simp] theorem setIdleMode_eye_l_height_current (s : RoboState) (a : Bool) (iv vv : Option Int) :
    (setIdleMode s a iv vv).eye_l_height_current = s.eye_l_height_current := rfl
@[simp] theorem setIdleMode_eye_l_height_next (s : RoboState) (a : Bool) (iv vv : Option Int) :
    (setIdleMode s a iv vv).eye_l_height_next = s.eye_l_height_next := rfl
@[simp] theorem setIdleMode_eye_l_height_default (s : RoboState) (a : Bool) (iv vv : Option Int) :
    (setIdleMode s a iv vv).eye_l_height_default = s.eye_l_height_default := rfl
@[simp] theorem setIdleMode_eye_r_height_current (s : RoboState) (a : Bool) (iv vv : Option Int) :
    (setIdleMode s a iv vv).eye_r_height_current = s.eye_r_height_current := rfl
@[simp] theorem setIdleMode_eye_r_height_next (s : RoboState) (a : Bool) (iv vv : Option Int) :
    (setIdleMode s a iv vv).eye_r_height_next = s.eye_r_height_next := rfl
@[simp] theorem setIdleMode_eye_r_height_default (s : RoboState) (a : Bool) (iv vv : Option Int) :
    (setIdleMode s a iv vv).eye_r_height_default = s.eye_r_height_default := rfl
@[simp] theorem setIdleMode_eye_l_width_current (s : RoboState) (a : Bool) (iv vv : Option Int) :
    (setIdleMode s a iv vv).eye_l_width_current = s.eye_l_width_current := rfl
@[simp] theorem setIdleMode_eye_l_width_next (s : RoboState) (a : Bool) (iv vv : Option Int) :
    (setIdleMode s a iv vv).eye_l_width_next = s.eye_l_width_next := rfl
@[simp] theorem setIdleMode_eye_l_width_default (s : RoboState) (a : Bool) (iv vv : Option Int) :
    (setIdleMode s a iv vv).eye_l_width_default = s.eye_l_width_default := rfl
@[simp] theorem setIdleMode_eye_r_width_current (s : RoboState) (a : Bool) (iv vv : Option Int) :
    (setIdleMode s a iv vv).eye_r_width_current = s.eye_r_width_current := rfl
@[simp] theorem setIdleMode_eye_r_width_next (s : RoboState) (a : Bool) (iv vv : Option Int) :
    (setIdleMode s a iv vv).eye_r_width_next = s.eye_r_width_next := rfl
@[simp] theorem setIdleMode_eye_r_width_default (s : RoboState) (a : Bool) (iv vv : Option Int) :
    (setIdleMode s a iv vv).eye_r_width_default = s.eye_r_width_default := rfl

@[simp] theorem setPosition_tired (s : RoboState) (d : Int) :
    (setPosition s d).tired = s.tired := rfl
@[simp] theorem setPosition_angry (s : RoboState) (d : Int) :
    (setPosition s d).angry = s.angry := rfl
@[simp] theorem setPosition_happy (s : RoboState) (d : Int) :
    (setPosition s d).happy = s.happy := rfl
@[simp] theorem setPosition_eye_l_height_current (s : RoboState) (d : Int) :
    (setPosition s d).eye_l_height_current = s.eye_l_height_current := rfl
@[simp] theorem setPosition_eye_l_height_next (s : RoboState) (d : Int) :
    (setPosition s d).eye_l_height_next = s.eye_l_height_next := rfl
@[simp] theorem setPosition_eye_l_height_default (s : RoboState) (d : Int) :
    (setPosition s d).eye_l_height_default = s.eye_l_height_default := rfl
@[simp] theorem setPosition_eye_r_height_current (s : RoboState) (d : Int) :
    (setPosition s d).eye_r_height_current = s.eye_r_height_current := rfl
@[simp] theorem setPosition_eye_r_height_next (s : RoboState) (d : Int) :
    (setPosition s d).eye_r_height_next = s.eye_r_height_next := rfl
@[simp] theorem setPosition_eye_r_height_default (s : RoboState) (d : Int) :
    (setPosition s d).eye_r_height_default = s.eye_r_height_default := rfl
@[simp] theorem setPosition_eye_l_width_current (s : RoboState) (d : Int) :
    (setPosition s d).eye_l_width_current = s.eye_l_width_current := rfl
@[simp] theorem setPosition_eye_l_width_next (s : RoboState) (d : Int) :
    (setPosition s d).eye_l_width_next = s.eye_l_width_next := rfl
@[simp] theorem setPosition_eye_l_width_default (s : RoboState) (d : Int) :
    (setPosition s d).eye_l_width_default = s.eye_l_width_default := rfl
@[simp] theorem setPosition_eye_r_width_current (s : RoboState) (d : Int) :
    (setPosition s d).eye_r_width_current = s.eye_r_width_current := rfl
@[simp] theorem setPosition_eye_r_width_next (s : RoboState) (d : Int) :
    (setPosition s d).eye_r_width_next = s.eye_r_width_next := rfl
@[simp] theorem setPosition_eye_r_width_default (s : RoboState) (d : Int) :
    (setPosition s d).eye_r_width_default = s.eye_r_width_default := rfl

@[simp] theorem close_tired (s : RoboState) (l r : Option Bool) :
    (close s l r).tired = s.tired := by unfold close; split <;> rfl
@[simp] theorem close_angry (s : RoboState) (l r : Option Bool) :
    (close s l r).angry = s.angry := by unfold close; split <;> rfl
@[simp] theorem close_happy (s : RoboState) (l r : Option Bool) :
    (close s l r).happy = s.happy := by unfold close; split <;> rfl
@[simp] theorem close_eye_l_height_current (s : RoboState) (l r : Option Bool) :
    (close s l r).eye_l_height_current = s.eye_l_height_current := by unfold close; split <;> rfl
@[simp] theorem close_eye_l_height_default (s : RoboState) (l r : Option Bool) :
    (close s l r).eye_l_height_default = s.eye_l_height_default := by unfold close; split <;> rfl
@[simp] theorem close_eye_r_height_current (s : RoboState) (l r : Option Bool) :
    (close s l r).eye_r_height_current = s.eye_r_height_current := by unfold close; split <;> rfl
@[simp] theorem close_eye_r_height_default (s : RoboState) (l r : Option Bool) :
    (close s l r).eye_r_height_default = s.eye_r_height_default := by unfold close; split <;> rfl
@[simp] theorem close_eye_l_width_current (s : RoboState) (l r : Option Bool) :
    (close s l r).eye_l_width_current = s.eye_l_width_current := by unfold close; split <;> rfl
@[simp] theorem close_eye_l_width_next (s : RoboState) (l r : Option Bool) :
    (close s l r).eye_l_width_next = s.eye_l_width_next := by unfold close; split <;> rfl
@[simp] theorem close_eye_l_width_default (s : RoboState) (l r : Option Bool) :
    (close s l r).eye_l_width_default = s.eye_l_width_default := by unfold close; split <;> rfl
@[simp] theorem close_eye_r_width_current (s : RoboState) (l r : Option Bool) :
    (close s l r).eye_r_width_current = s.eye_r_width_current := by unfold close; split <;> rfl
@[simp] theorem close_eye_r_width_next (s : RoboState) (l r : Option Bool) :
    (close s l r).eye_r_width_next = s.eye_r_width_next := by unfold close; split <;> rfl
@[simp] theorem close_eye_r_width_default (s : RoboState) (l r : Option Bool) :
    (close s l r).eye_r_width_default = s.eye_r_width_default := by unfold close; split <;> rfl

@[simp] theorem openEyes_tired (s : RoboState) (l r : Option Bool) :
    (openEyes s l r).tired = s.tired := by unfold openEyes; split <;> rfl
@[simp] theorem openEyes_angry (s : RoboState) (l r : Option Bool) :
    (openEyes s l r).angry = s.angry := by unfold openEyes; split <;> rfl
@[simp] theorem openEyes_happy (s : RoboState) (l r : Option Bool) :
    (openEyes s l r).happy = s.happy := by unfold openEyes; split <;> rfl
@[simp] theorem openEyes_eye_l_height_current (s : RoboState) (l r : Option Bool) :
    (openEyes s l r).eye_l_height_current = s.eye_l_height_current := by unfold openEyes; split <;> rfl
@[simp] theorem openEyes_eye_l_height_next (s : RoboState) (l r : Option Bool) :
    (openEyes s l r).eye_l_height_next = s.eye_l_height_next := by unfold openEyes; split <;> rfl
@[simp] theorem openEyes_eye_l_height_default (s : RoboState) (l r : Option Bool) :
    (openEyes s l r).eye_l_height_default = s.eye_l_height_default := by unfold openEyes; split <;> rfl
@[simp] theorem openEyes_eye_r_height_current (s : RoboState) (l r : Option Bool) :
    (openEyes s l r).eye_r_height_current = s.eye_r_height_current := by unfold openEyes; split <;> rfl
@[simp] theorem openEyes_eye_r_height_next (s : RoboState) (l r : Option Bool) :
    (openEyes s l r).eye_r_height_next = s.eye_r_height_next := by unfold openEyes; split <;> rfl
@[simp] theorem openEyes_eye_r_height_default (s : RoboState) (l r : Option Bool) :
    (openEyes s l r).eye_r_height_default = s.eye_r_height_default := by unfold openEyes; split <;> rfl
@[simp] theorem openEyes_eye_l_width_current (s : RoboState) (l r : Option Bool) :
    (openEyes s l r).eye_l_width_current = s.eye_l_width_current := by unfold openEyes; split <;> rfl
@[simp] theorem openEyes_eye_l_width_next (s : RoboState) (l r : Option Bool) :
    (openEyes s l r).eye_l_width_next = s.eye_l_width_next := by unfold openEyes; split <;> rfl
@[simp] theorem openEyes_eye_l_width_default (s : RoboState) (l r : Option Bool) :
    (openEyes s l r).eye_l_width_default = s.eye_l_width_default := by unfold openEyes; split <;> rfl
@[simp] theorem openEyes_eye_r_width_current (s : RoboState) (l r : Option Bool) :
    (openEyes s l r).eye_r_width_current = s.eye_r_width_current := by unfold openEyes; split <;> rfl
@[simp] theorem openEyes_eye_r_width_next (s : RoboState) (l r : Option Bool) :
    (openEyes s l r).eye_r_width_next = s.eye_r_width_next := by unfold openEyes; split <;> rfl
@[simp] theorem openEyes_eye_r_width_default (s : RoboState) (l r : Option Bool) :
    (openEyes s l r).eye_r_width_default = s.eye_r_width_default := by unfold openEyes; split <;> rfl

@[simp] theorem confuse_tired (s : RoboState) :
    (confuse s).tired = s.tired := rfl
@[simp] theorem confuse_angry (s : RoboState) :
    (confuse s).angry = s.angry := rfl
@[simp] theorem confuse_happy (s : RoboState) :
    (confuse s).happy = s.happy := rfl
@[simp] theorem confuse_eye_l_height_current (s : RoboState) :
    (confuse s).eye_l_height_current = s.eye_l_height_current := rfl
@[simp] theorem confuse_eye_l_height_next (s : RoboState) :
    (confuse s).eye_l_height_next = s.eye_l_height_next := rfl
@[simp] theorem confuse_eye_l_height_default (s : RoboState) :
    (confuse s).eye_l_height_default = s.eye_l_height_default := rfl
@[simp] theorem confuse_eye_r_height_current (s : RoboState) :
    (confuse s).eye_r_height_current = s.eye_r_height_current := rfl
@[simp] theorem confuse_eye_r_height_next (s : RoboState) :
    (confuse s).eye_r_height_next = s.eye_r_height_next := rfl
@[simp] theorem confuse_eye_r_height_default (s : RoboState) :
    (confuse s).eye_r_height_default = s.eye_r_height_default := rfl
@[simp] theorem confuse_eye_l_width_current (s : RoboState) :
    (confuse s).eye_l_width_current = s.eye_l_width_current := rfl
@[simp] theorem confuse_eye_l_width_next (s : RoboState) :
    (confuse s).eye_l_width_next = s.eye_l_width_next := rfl
@[simp] theorem confuse_eye_l_width_default (s : RoboState) :
    (confuse s).eye_l_width_default = s.eye_l_width_default := rfl
@[simp] theorem confuse_eye_r_width_current (s : RoboState) :
    (confuse s).eye_r_width_current = s.eye_r_width_current := rfl
@[simp] theorem confuse_eye_r_width_next (s : RoboState) :
    (confuse s).eye_r_width_next = s.eye_r_width_next := rfl
@[simp] theorem confuse_eye_r_width_default (s : RoboState) :
    (confuse s).eye_r_width_default = s.eye_r_width_default := rfl

@[simp] theorem startLaugh_tired (s : RoboState) :
    (startLaugh s).tired = s.tired := rfl
@[simp] theorem startLaugh_angry (s : RoboState) :
    (startLaugh s).angry = s.angry := rfl
@[simp] theorem startLaugh_happy (s : RoboState) :
    (startLaugh s).happy = s.happy := rfl
@[simp] theorem startLaugh_eye_l_height_current (s : RoboState) :
    (startLaugh s).eye_l_height_current = s.eye_l_height_current := rfl
@[simp] theorem startLaugh_eye_l_height_next (s : RoboState) :
    (startLaugh s).eye_l_height_next = s.eye_l_height_next := rfl
@[simp] theorem startLaugh_eye_l_height_default (s : RoboState) :
    (startLaugh s).eye_l_height_default = s.eye_l_height_default := rfl
@[simp] theorem startLaugh_eye_r_height_current (s : RoboState) :
    (startLaugh s).eye_r_height_current = s.eye_r_height_current := rfl
@[simp] theorem startLaugh_eye_r_height_next (s : RoboState) :
    (startLaugh s).eye_r_height_next = s.eye_r_height_next := rfl
@[simp] theorem startLaugh_eye_r_height_default (s : RoboState) :
    (startLaugh s).eye_r_height_default = s.eye_r_height_default := rfl
@[simp] theorem startLaugh_eye_l_width_current (s : RoboState) :
    (startLaugh s).eye_l_width_current = s.eye_l_width_current := rfl
@[simp] theorem startLaugh_eye_l_width_next (s : RoboState) :
    (startLaugh s).eye_l_width_next = s.eye_l_width_next := rfl
@[simp] theorem startLaugh_eye_l_width_default (s : RoboState) :
    (startLaugh s).eye_l_width_default = s.eye_l_width_default := rfl
@[simp] theorem startLaugh_eye_r_width_current (s : RoboState) :
    (startLaugh s).eye_r_width_current = s.eye_r_width_current := rfl
@[simp] theorem startLaugh_eye_r_width_next (s : RoboState) :
    (startLaugh s).eye_r_width_next = s.eye_r_width_next := rfl
@[simp] theorem startLaugh_eye_r_width_default (s : RoboState) :
    (startLaugh s).eye_r_width_default = s.eye_r_width_default := rfl

/-! Value lemmas for the fields the mutators do assign, and the
unconditional close-then-open form of `blink`. -/

@[simp] theorem eyesWidth_eye_l_width_next (s : RoboState) (l r : Option Int) :
    (eyesWidth s l r).eye_l_width_next = (if l.isSome then l.getD 0 else s.eye_l_width_next) := rfl

@[simp] theorem eyesWidth_eye_l_width_default (s : RoboState) (l r : Option Int) :
    (eyesWidth s l r).eye_l_width_default = (if l.isSome then l.getD 0 else s.eye_l_width_default) := rfl

@[simp] theorem eyesWidth_eye_r_width_next (s : RoboState) (l r : Option Int) :
    (eyesWidth s l r).eye_r_width_next = (if r.isSome then r.getD 0 else s.eye_r_width_next) := rfl

@[simp] theorem eyesWidth_eye_r_width_default (s : RoboState) (l r : Option Int) :
    (eyesWidth s l r).eye_r_width_default = (if r.isSome then r.getD 0 else s.eye_r_width_default) := rfl

@[simp] theorem eyesHeight_eye_l_height_next (s : RoboState) (l r : Option Int) :
    (eyesHeight s l r).eye_l_height_next = (if l.isSome then l.getD 0 else s.eye_l_height_next) := rfl

@[simp] theorem eyesHeight_eye_l_height_default (s : RoboState) (l r : Option Int) :
    (eyesHeight s l r).eye_l_height_default = (if l.isSome then l.getD 0 else s.eye_l_height_default) := rfl

@[simp] theorem eyesHeight_eye_r_height_next (s : RoboState) (l r : Option Int) :
    (eyesHeight s l r).eye_r_height_next = (if r.isSome then r.getD 0 else s.eye_r_height_next) := rfl

@[simp] theorem eyesHeight_eye_r_height_default (s : RoboState) (l r : Option Int) :
    (eyesHeight s l r).eye_r_height_default = (if r.isSome then r.getD 0 else s.eye_r_height_default) := rfl

@[simp] theorem setMood_tired (s : RoboState) (v : Int) :
    (setMood s v).tired = decide (v = TIRED) := rfl

@[simp] theorem setMood_angry (s : RoboState) (v : Int) :
    (setMood s v).angry = decide (v = ANGRY) := rfl

@[simp] theorem setMood_happy (s : RoboState) (v : Int) :
    (setMood s v).happy = decide (v = HAPPY) := rfl

@[simp] theorem close_eye_l_height_next (s : RoboState) (l r : Option Bool) :
    (close s l r).eye_l_height_next =
      (if l = none ∧ r = none then 1
       else if l.isSome then 1 else s.eye_l_height_next) := by
  unfold close; split_ifs <;> rfl

@[simp] theorem close_eye_r_height_next (s : RoboState) (l r : Option Bool) :
    (close s l r).eye_r_height_next =
      (if l = none ∧ r = none then 1
       else if r.isSome then 1 else s.eye_r_height_next) := by
  unfold close; split_ifs <;> rfl

/-- Lemma: `blink` is always close-then-open on its own arguments: the explicit
both-sides branch of the source calls them with no arguments, which is
the same call. -/
theorem blink_eq (s : RoboState) (l r : Option Bool) :
    blink s l r = openEyes (close s l r) l r := by
  unfold blink
  split
  · rename_i hc
    rw [hc.1, hc.2]
  · rfl


/-! ### Sequence scheduler (`StepData`/`Sequence`, roboeyes.py lines
51-127)

A step's Python callback is an arbitrary function of the owning engine;
it is modelled by an identifier which an environment `Nat → RoboState →
RoboState` interprets when sequences run inside the engine's `update`.
`Sequence.update` itself is modelled as returning the new sequence
together with the identifiers of the callbacks fired, in firing order. -/

structure StepData where
  done : Bool
  ms_timing : Int
  cb : Nat
deriving DecidableEq

structure Sequence where
  steps : List StepData
  start : Option Int
deriving DecidableEq

/-- Source `StepData.update(ticks)` (lines 59-65): skip if already fired, skip
if not yet due, otherwise fire the callback and mark done. -/
def stepUpd (t ticks : Int) (st : StepData) : StepData × List Nat :=
  if st.done = true then (st, [])
  else if ticks - t < st.ms_timing then (st, [])
  else ({ st with done := true }, [st.cb])

/-- The `for s in self.steps: if not s.done: s.update(ticks)` loop of
`Sequence.update` (lines 101-103), collecting fired callbacks in order.
The extra `if not s.done` test is subsumed by the step's own guard. -/
def stepsUpd (t ticks : Int) : List StepData → List StepData × List Nat
  | [] => ([], [])
  | st :: rest =>
    ((stepUpd t ticks st).1 :: (stepsUpd t ticks rest).1,
      (stepUpd t ticks st).2 ++ (stepsUpd t ticks rest).2)

/-- Source `Sequence.update(ticks)` (lines 97-103): a no-op when the sequence
has not been started. -/
def seqUpdate (sq : Sequence) (ticks : Int) : Sequence × List Nat :=
  match sq.start with
  | none => (sq, [])
  | some t => ({ sq with steps := (stepsUpd t ticks sq.steps).1 }, (stepsUpd t ticks sq.steps).2)

/-- The `done` property (lines 90-95): vacuously true when unstarted. -/
def seqDone (sq : Sequence) : Bool :=
  match sq.start with
  | none => true
  | some _ => sq.steps.all (fun st => st.done)

/-- Restatement of `Sequence.update` in the spec's words: every
not-yet-fired step whose relative offset has elapsed
(`now - start >= step.offset_ms`) is marked fired, and exactly those
steps' callbacks are invoked, in insertion order. -/
def seqUpdateSpec (sq : Sequence) (ticks : Int) : Sequence × List Nat :=
  match sq.start with
  | none => (sq, [])
  | some t =>
    ({ sq with steps := sq.steps.map (fun st =>
        if st.done = false ∧ ticks - t ≥ st.ms_timing then { st with done := true } else st) },
      (sq.steps.filter (fun st =>
        !st.done && decide (ticks - t ≥ st.ms_timing))).map (fun st => st.cb))

/-- Source `Sequences.update` over the engine's list of sequences (lines
123-127), collecting all fired callback identifiers. -/
def seqsUpdateAll (ticks : Int) : List Sequence → List Sequence × List Nat
  | [] => ([], [])
  | sq :: rest =>
    ((seqUpdate sq ticks).1 :: (seqsUpdateAll ticks rest).1,
      (seqUpdate sq ticks).2 ++ (seqsUpdateAll ticks rest).2)

/-- The engine together with its registered sequences
(`self.sequences = Sequences(self)`, line 162). -/
structure RoboSys where
  core : RoboState
  seqs : List Sequence

/-- Apply the interpreted callbacks, in firing order, to the engine. -/
def applyCbs (env : Nat → RoboState → RoboState) (fired : List Nat)
    (s : RoboState) : RoboState :=
  fired.foldl (fun acc cid => env cid acc) s

/-- The `self.sequences.update()` part of `RoboEyes.update`: advance
every sequence with the sequence clock `ticks`, firing due callbacks
into the engine. -/
def sysSeqUpdate (env : Nat → RoboState → RoboState) (ticks : Int)
    (sys : RoboSys) : RoboSys :=
  { core := applyCbs env (seqsUpdateAll ticks sys.seqs).2 sys.core
    seqs := (seqsUpdateAll ticks sys.seqs).1 }

/-- Source `RoboEyes.update` (lines 274-283): advance sequences, then redraw
and stamp `fps_timer` only if at least `frame_interval` ms have elapsed.
`nowSeq` and `nowCheck` are the two separate `int(time.time() * 1000)`
reads; `i` is the oracle input consumed by `draw_eyes` if it runs. -/
def roboUpdate (env : Nat → RoboState → RoboState) (nowSeq nowCheck : Int)
    (i : TickIn) (sys : RoboSys) : RoboSys :=
  let sys1 := sysSeqUpdate env nowSeq sys
  if nowCheck - sys1.core.fps_timer ≥ sys1.core.frame_interval then
    { core := { drawEyes i sys1.core with fps_timer := nowCheck }, seqs := sys1.seqs }
  else sys1

/-! ### Claim C4: the position setter -/

/-- The left-eye target x the spec prescribes per direction, in terms of
`constraint_x` (here `cx`): N and S take the horizontal midpoint, the
three easterly directions take `cx`, the three westerly directions take
0, and any other value centers. -/
def specPositionX (cx : Int) (direction : Int) : Int :=
  if direction = N then Int.fdiv cx 2
  else if direction = NE then cx
  else if direction = E then cx
  else if direction = SE then cx
  else if direction = S then Int.fdiv cx 2
  else if direction = SW then 0
  else if direction = W then 0
  else if direction = NW then 0
  else Int.fdiv cx 2

/-- The left-eye target y the spec prescribes per direction, in terms of
`constraint_y` (here `cy`): the northerly directions take 0, the
southerly ones `cy`, E and W the vertical midpoint, and any other value
centers. -/
def specPositionY (cy : Int) (direction : Int) : Int :=
  if direction = N then 0
  else if direction = NE then 0
  else if direction = E then Int.fdiv cy 2
  else if direction = SE then cy
  else if direction = S then cy
  else if direction = SW then cy
  else if direction = W then Int.fdiv cy 2
  else if direction = NW then 0
  else Int.fdiv cy 2

/-- Claim C4: for every direction argument, the position setter writes
the left eye's `(x_next, y_next)` exactly as the spec's compass table
prescribes, over `constraint_x = screen_width - eye_l_width_current -
spacing_current - eye_r_width_current` and `constraint_y = screen_height
- eye_l_height_default`, stores the direction, and touches nothing
else. -/
theorem position_setter_matches_spec (s : RoboState) (d : Int) :
    setPosition s d =
      { s with
        eye_l_x_next := specPositionX (getScreenConstraintX s) d
        eye_l_y_next := specPositionY (getScreenConstraintY s) d
        position := d } := rfl

/-- Witness for C4 at a concrete engine and direction (`N`). -/
theorem position_setter_matches_spec_witness :
    setPosition (initRoboEyes 240 320 60) 1 =
      { initRoboEyes 240 320 60 with
        eye_l_x_next := specPositionX (getScreenConstraintX (initRoboEyes 240 320 60)) 1
        eye_l_y_next := specPositionY (getScreenConstraintY (initRoboEyes 240 320 60)) 1
        position := 1 } :=
  position_setter_matches_spec (initRoboEyes 240 320 60) 1

/-! ### Claim C5: wink -/

/-- Counterexample to claim C5 as stated: `wink(left=False)` passes a
side argument, yet the Python truthiness test `not (left or right)`
still raises the usage error. -/
theorem wink_false_side_errors :
    wink (initRoboEyes 240 320 60) (some false) none =
      Except.error "wink requires left or right" := rfl

/-- Claim C5 (amended): `wink` fails with the usage error exactly when
neither side is truthy, returning no state (the check precedes every
mutation in the source, so the state is untouched); with a truthy side
it succeeds, and its effect is exactly: auto-blinker disabled, idle mode
disabled, then close-then-open applied to the arguments it was given
(so a side passed as `False` is still closed and reopened by `blink`,
which tests `is not None`). -/
theorem wink_behavior (s : RoboState) (l r : Option Bool) :
    ((truthy l || truthy r) = false →
      wink s l r = Except.error "wink requires left or right")
    ∧ ((truthy l || truthy r) = true →
      wink s l r = Except.ok
        (openEyes (close { s with autoblinker := false, idle := false } l r) l r)) := by
  constructor
  · intro h
    unfold wink
    rw [h]
    rfl
  · intro h
    unfold wink
    rw [h]
    simp only [Bool.not_true]
    rw [if_neg (by simp), blink_eq]

/-- Witness for C5 at a concrete input: `wink(left=True)` succeeds and
performs exactly the disable-then-blink effect. -/
theorem wink_behavior_witness :
    (truthy (some true) || truthy none) = true ∧
    wink (initRoboEyes 240 320 60) (some true) none =
      Except.ok (openEyes (close { initRoboEyes 240 320 60 with
        autoblinker := false, idle := false } (some true) none) (some true) none) :=
  ⟨rfl, (wink_behavior (initRoboEyes 240 320 60) (some true) none).2 rfl⟩

/-! ### Claim C6: radius clamp saturation -/

/-- Claim C6: on a fixed buffer with positive width and height, every
radius argument at or above `min(w, h) // 2` yields exactly the same
buffer as the capped radius itself, because the internal clamp
`r = min(r, w // 2, h // 2)` is already saturated there. -/
theorem rounded_rect_clamp_idempotent {α : Type} (Wd Ht x y w h r : Int)
    (c : α) (b : Buf α) (hw : 0 < w) (hh : 0 < h)
    (hr : Int.fdiv (min w h) 2 ≤ r) :
    drawRoundedRect Wd Ht x y w h r c b =
      drawRoundedRect Wd Ht x y w h (Int.fdiv (min w h) 2) c b := by
  unfold drawRoundedRect
  rw [clamp_saturates hr]

/-- Witness for C6 at a concrete input (`w = 4`, `h = 6`, `r = 5`). -/
theorem rounded_rect_clamp_idempotent_witness :
    (0 : Int) < 4 ∧ (0 : Int) < 6 ∧ Int.fdiv (min 4 6) 2 ≤ 5 ∧
    drawRoundedRect 10 10 0 0 4 6 5 (1 : Int) (fun _ _ => 0) =
      drawRoundedRect 10 10 0 0 4 6 (Int.fdiv (min 4 6) 2) (1 : Int) (fun _ _ => 0) :=
  ⟨by decide, by decide, by decide,
    rounded_rect_clamp_idempotent 10 10 0 0 4 6 5 1 (fun _ _ => 0)
      (by decide) (by decide) (by decide)⟩

/-! ### Claim C7: the primitives never write outside the buffer -/

/-- Claim C7: for all integer arguments — negative, zero, out-of-range
coordinates and sizes, degenerate triangles included — the rounded
rectangle and triangle primitives leave every pixel outside the
`Ht × Wd` buffer untouched: each scanline write is clamped to the
buffer, and empty extents write nothing.  (The definitions are total
functions, mirroring that the source never raises: every division in
the triangle fill carries the `+ 0.001` guard and every buffer access is
bounds-checked.) -/
theorem raster_primitives_clipped {α : Type}
    (Wd Ht x y w h r x0 y0 x1 y1 x2 y2 i j : Int) (c : α) (b : Buf α)
    (ho : i < 0 ∨ Ht ≤ i ∨ j < 0 ∨ Wd ≤ j) :
    drawRoundedRect Wd Ht x y w h r c b i j = b i j ∧
    fillTriangle Wd Ht x0 y0 x1 y1 x2 y2 c b i j = b i j :=
  ⟨drawRoundedRect_out ho, fillTriangle_out ho⟩

/-- Witness for C7 at a concrete out-of-bounds pixel (row -1). -/
theorem raster_primitives_clipped_witness :
    ((-1 : Int) < 0 ∨ (3 : Int) ≤ -1 ∨ (0 : Int) < 0 ∨ (3 : Int) ≤ 0) ∧
    (drawRoundedRect 3 3 (-2) (-2) 9 9 4 (1 : Int) (fun _ _ => 0) (-1) 0 =
        (fun _ _ => (0 : Int)) (-1) 0 ∧
      fillTriangle 3 3 0 0 5 0 2 7 (1 : Int) (fun _ _ => 0) (-1) 0 =
        (fun _ _ => (0 : Int)) (-1) 0) :=
  ⟨Or.inl (by decide),
    raster_primitives_clipped 3 3 (-2) (-2) 9 9 4 0 0 5 0 2 7 (-1) 0 1
      (fun _ _ => 0) (Or.inl (by decide))⟩

/-! ### Claim C8: the sequence scheduler -/

theorem stepsUpd_eq (t ticks : Int) (l : List StepData) :
    stepsUpd t ticks l =
      (l.map (fun st =>
          if st.done = false ∧ ticks - t ≥ st.ms_timing then { st with done := true } else st),
        (l.filter (fun st => !st.done && decide (ticks - t ≥ st.ms_timing))).map
          (fun st => st.cb)) := by
  induction l with
  | nil => rfl
  | cons st rest ih =>
    unfold stepsUpd
    rw [ih]
    unfold stepUpd
    cases hdone : st.done
    · by_cases ht : ticks - t < st.ms_timing
      · simp [hdone, ht, not_le.mpr ht]
      · simp [hdone, ht, not_lt.mp ht]
    · simp [hdone]

theorem stepsUpd_refire (t ticks : Int) (l : List StepData) :
    (stepsUpd t ticks (stepsUpd t ticks l).1).2 = [] := by
  induction l with
  | nil => rfl
  | cons st rest ih =>
    show (stepUpd t ticks (stepUpd t ticks st).1).2
        ++ (stepsUpd t ticks (stepsUpd t ticks rest).1).2 = []
    rw [ih]
    unfold stepUpd
    cases hdone : st.done
    · by_cases ht : ticks - t < st.ms_timing
      · simp [hdone, ht]
      · simp [hdone, ht]
    · simp [hdone]

/-- Claim C8: `Sequence.update(now)` is a no-op when not started, and
when started it equals the spec's description (`seqUpdateSpec`): every
step with `now - start >= offset` that has not yet fired is marked
fired, exactly those steps' callbacks are collected, in insertion
order, all in the same call.  Re-running `update` at the same instant
fires nothing (each callback runs exactly once), and `done` holds iff
the sequence is unstarted or every step has fired. -/
theorem sequence_update_spec :
    (∀ (sq : Sequence) (ticks : Int), seqUpdate sq ticks = seqUpdateSpec sq ticks)
    ∧ (∀ (sq : Sequence) (ticks : Int), (seqUpdate (seqUpdate sq ticks).1 ticks).2 = [])
    ∧ (∀ sq : Sequence,
        seqDone sq = true ↔ (sq.start = none ∨ ∀ st ∈ sq.steps, st.done = true)) := by
  refine ⟨?_, ?_, ?_⟩
  · intro sq ticks
    unfold seqUpdate seqUpdateSpec
    cases hs : sq.start with
    | none => rfl
    | some t => simp [stepsUpd_eq]
  · intro sq ticks
    cases hs : sq.start with
    | none => simp [seqUpdate, hs]
    | some t =>
      simp only [seqUpdate, hs]
      exact stepsUpd_refire t ticks sq.steps
  · intro sq
    unfold seqDone
    cases hs : sq.start with
    | none => simp [hs]
    | some t => simp [hs, List.all_eq_true]

/-- Witness for C8 at a concrete two-step sequence started at time 0 and
updated at time 150, past the first step's offset but not the second's. -/
theorem sequence_update_spec_witness :
    seqUpdate ⟨[⟨false, 100, 7⟩, ⟨false, 200, 8⟩], some 0⟩ 150 =
      seqUpdateSpec ⟨[⟨false, 100, 7⟩, ⟨false, 200, 8⟩], some 0⟩ 150
    ∧ (seqUpdate (seqUpdate ⟨[⟨false, 100, 7⟩, ⟨false, 200, 8⟩], some 0⟩ 150).1 150).2 = []
    ∧ (seqDone ⟨[⟨false, 100, 7⟩, ⟨false, 200, 8⟩], some 0⟩ = true ↔
        ((⟨[⟨false, 100, 7⟩, ⟨false, 200, 8⟩], some 0⟩ : Sequence).start = none ∨
          ∀ st ∈ (⟨[⟨false, 100, 7⟩, ⟨false, 200, 8⟩], some 0⟩ : Sequence).steps,
            st.done = true)) :=
  ⟨sequence_update_spec.1 ⟨[⟨false, 100, 7⟩, ⟨false, 200, 8⟩], some 0⟩ 150,
    sequence_update_spec.2.1 ⟨[⟨false, 100, 7⟩, ⟨false, 200, 8⟩], some 0⟩ 150,
    sequence_update_spec.2.2 ⟨[⟨false, 100, 7⟩, ⟨false, 200, 8⟩], some 0⟩⟩

/-! ### Claim C9: the rate-limited update -/

theorem seqsUpdateAll_unstarted (ticks : Int) :
    ∀ l : List Sequence, (∀ sq ∈ l, sq.start = none) → seqsUpdateAll ticks l = (l, []) := by
  intro l
  induction l with
  | nil => intro _; rfl
  | cons sq rest ih =>
    intro hnone
    unfold seqsUpdateAll
    rw [ih (fun q hq => hnone q (List.mem_cons_of_mem sq hq))]
    have hsq : seqUpdate sq ticks = (sq, []) := by
      unfold seqUpdate
      rw [hnone sq (List.mem_cons_self sq rest)]
    rw [hsq]
    rfl

/-- Claim C9: when the elapsed time since the last redraw is below the
frame interval, `update` performs no redraw: the engine equals exactly
the sequences-advanced engine (`fps_timer` is not restamped and
`draw_eyes` does not run), and if no sequence is started the whole
engine state — geometry fields and all — is bit-for-bit unchanged. -/
theorem update_skips_redraw_within_interval (env : Nat → RoboState → RoboState)
    (nowSeq nowCheck : Int) (i : TickIn) (sys : RoboSys)
    (h : nowCheck - (sysSeqUpdate env nowSeq sys).core.fps_timer
          < (sysSeqUpdate env nowSeq sys).core.frame_interval) :
    roboUpdate env nowSeq nowCheck i sys = sysSeqUpdate env nowSeq sys
    ∧ ((∀ sq ∈ sys.seqs, sq.start = none) →
        roboUpdate env nowSeq nowCheck i sys = sys) := by
  have hmain : roboUpdate env nowSeq nowCheck i sys = sysSeqUpdate env nowSeq sys := by
    simp only [roboUpdate]
    rw [if_neg (not_le.mpr h)]
  refine ⟨hmain, fun hnone => ?_⟩
  rw [hmain]
  unfold sysSeqUpdate
  rw [seqsUpdateAll_unstarted nowSeq sys.seqs hnone]
  rfl

/-- Witness for C9: a freshly constructed engine (`fps_timer = 0`,
`frame_interval = 16`) polled at `now = 5` with no sequences. -/
theorem update_skips_redraw_within_interval_witness :
    ((5 : Int) - (sysSeqUpdate (fun _ s => s) 0 ⟨initRoboEyes 240 320 60, []⟩).core.fps_timer
        < (sysSeqUpdate (fun _ s => s) 0 ⟨initRoboEyes 240 320 60, []⟩).core.frame_interval) ∧
    roboUpdate (fun _ s => s) 0 5 ⟨0, 0, 0, 0, 0⟩ ⟨initRoboEyes 240 320 60, []⟩
      = sysSeqUpdate (fun _ s => s) 0 ⟨initRoboEyes 240 320 60, []⟩ :=
  ⟨by decide,
    (update_skips_redraw_within_interval (fun _ s => s) 0 5 ⟨0, 0, 0, 0, 0⟩
      ⟨initRoboEyes 240 320 60, []⟩ (by decide)).1⟩

/-! ### Reachability

States reachable from a constructed engine through the public mutator
surface and ticks.  A successful `wink` contributes its returned state. -/

theorem wink_ok_inv {s s' : RoboState} {l r : Option Bool}
    (h : wink s l r = Except.ok s') :
    s' = blink { s with autoblinker := false, idle := false } l r := by
  unfold wink at h
  split at h
  · simp at h
  · simp at h
    exact h.symm

@[simp] theorem blink_tired (s : RoboState) (l r : Option Bool) :
    (blink s l r).tired = s.tired := by rw [blink_eq]; simp

@[simp] theorem blink_angry (s : RoboState) (l r : Option Bool) :
    (blink s l r).angry = s.angry := by rw [blink_eq]; simp

@[simp] theorem blink_happy (s : RoboState) (l r : Option Bool) :
    (blink s l r).happy = s.happy := by rw [blink_eq]; simp

inductive Reach : RoboState → Prop
  | init (w h fr : Int) : Reach (initRoboEyes w h fr)
  | tick (i : TickIn) {s : RoboState} : Reach s → Reach (drawEyes i s)
  | framerate (fps : Int) {s : RoboState} : Reach s → Reach (setFramerate s fps)
  | width (l r : Option Int) {s : RoboState} : Reach s → Reach (eyesWidth s l r)
  | height (l r : Option Int) {s : RoboState} : Reach s → Reach (eyesHeight s l r)
  | radius (l r : Option Int) {s : RoboState} : Reach s → Reach (eyesRadius s l r)
  | spacing (v : Int) {s : RoboState} : Reach s → Reach (eyesSpacing s v)
  | mood (v : Int) {s : RoboState} : Reach s → Reach (setMood s v)
  | curious (bv : Bool) {s : RoboState} : Reach s → Reach (setCurious s bv)
  | cyclops (bv : Bool) {s : RoboState} : Reach s → Reach (setCyclops s bv)
  | hflicker (e : Bool) (a : Option Int) {s : RoboState} :
      Reach s → Reach (horizFlicker s e a)
  | vflicker (e : Bool) (a : Option Int) {s : RoboState} :
      Reach s → Reach (vertFlicker s e a)
  | autoblink (a : Bool) (iv vv : Option Int) {s : RoboState} :
      Reach s → Reach (setAutoBlinker s a iv vv)
  | idlemode (a : Bool) (iv vv : Option Int) {s : RoboState} :
      Reach s → Reach (setIdleMode s a iv vv)
  | pos (d : Int) {s : RoboState} : Reach s → Reach (setPosition s d)
  | closeOp (l r : Option Bool) {s : RoboState} : Reach s → Reach (close s l r)
  | openOp (l r : Option Bool) {s : RoboState} : Reach s → Reach (openEyes s l r)
  | blinkOp (l r : Option Bool) {s : RoboState} : Reach s → Reach (blink s l r)
  | confuseOp {s : RoboState} : Reach s → Reach (confuse s)
  | laughOp {s : RoboState} : Reach s → Reach (startLaugh s)
  | winkOp (l r : Option Bool) {s s' : RoboState} :
      Reach s → wink s l r = Except.ok s' → Reach s'

/-! ### Claim C10: at most one mood flag -/

/-- Claim C10: after any sequence of public operations from a freshly
constructed engine, at most one of `tired`, `angry`, `happy` holds.  The
mood setter is their only writer and assigns each as an equality test of
the new mood value against a distinct constant; every other operation,
ticks included, leaves them unchanged. -/
theorem mood_flags_mutually_exclusive (s : RoboState) (hs : Reach s) :
    ¬(s.tired = true ∧ s.angry = true) ∧ ¬(s.tired = true ∧ s.happy = true)
      ∧ ¬(s.angry = true ∧ s.happy = true) := by
  induction hs with
  | init w h fr => refine ⟨?_, ?_, ?_⟩ <;> simp [initRoboEyes, drawEyes, mkRoboEyes]
  | tick i hr ih => simpa [drawEyes] using ih
  | framerate fps hr ih => simpa using ih
  | width l r hr ih => simpa using ih
  | height l r hr ih => simpa using ih
  | radius l r hr ih => simpa using ih
  | spacing v hr ih => simpa using ih
  | mood v hr ih => refine ⟨?_, ?_, ?_⟩ <;> simp [TIRED, ANGRY, HAPPY] <;> omega
  | curious bv hr ih => simpa using ih
  | cyclops bv hr ih => simpa using ih
  | hflicker e a hr ih => simpa using ih
  | vflicker e a hr ih => simpa using ih
  | autoblink a iv vv hr ih => simpa using ih
  | idlemode a iv vv hr ih => simpa using ih
  | pos d hr ih => simpa using ih
  | closeOp l r hr ih => simpa using ih
  | openOp l r hr ih => simpa using ih
  | blinkOp l r hr ih => simpa using ih
  | confuseOp hr ih => simpa using ih
  | laughOp hr ih => simpa using ih
  | winkOp l r hr heq ih => rw [wink_ok_inv heq]; simpa using ih

/-- Witness for C10 at the concrete freshly constructed engine. -/
theorem mood_flags_mutually_exclusive_witness :
    ¬((initRoboEyes 240 320 60).tired = true ∧ (initRoboEyes 240 320 60).angry = true)
    ∧ ¬((initRoboEyes 240 320 60).tired = true ∧ (initRoboEyes 240 320 60).happy = true)
    ∧ ¬((initRoboEyes 240 320 60).angry = true ∧ (initRoboEyes 240 320 60).happy = true) :=
  mood_flags_mutually_exclusive (initRoboEyes 240 320 60) (Reach.init 240 320 60)

/-! ### Claim C1: geometry bounds -/

/-- The all-zero oracle stream (clock pinned at 0, every `randint`
returning its lower bound 0 — an admissible outcome of each call). -/
def insZero : Nat → TickIn := fun _ => ⟨0, 0, 0, 0, 0⟩

/-- A freshly constructed 240×320 engine after `close()` and two
`draw_eyes` ticks: the height has collapsed to 5 while the border radius
is still 8 and the width 36. -/
def c1state : RoboState := tickN insZero 2 (close (initRoboEyes 240 320 60) none none)

/-- Counterexample to claim C1 as stated: in a reachable state (close
both eyes, tick twice) `border_radius_current = 8` exceeds
`min(width_current, height_current) / 2 = min(36, 5) / 2 = 2` — nothing
in the engine ever clamps the radius state field against the current
height (the NumPy `draw_rounded_rect` clamps only its own drawing
argument). -/
theorem border_radius_bound_violated :
    ¬(c1state.eye_l_border_radius_current ≤
        Int.fdiv (min c1state.eye_l_width_current c1state.eye_l_height_current) 2) := by
  decide

/-- The nonnegativity part of claim C1, as an inductive invariant:
current, next and default heights and widths of both eyes are all
nonnegative. -/
def NN (s : RoboState) : Prop :=
  0 ≤ s.eye_l_height_current ∧ 0 ≤ s.eye_l_height_next ∧ 0 ≤ s.eye_l_height_default ∧
  0 ≤ s.eye_r_height_current ∧ 0 ≤ s.eye_r_height_next ∧ 0 ≤ s.eye_r_height_default ∧
  0 ≤ s.eye_l_width_current ∧ 0 ≤ s.eye_l_width_next ∧ 0 ≤ s.eye_l_width_default ∧
  0 ≤ s.eye_r_width_current ∧ 0 ≤ s.eye_r_width_next ∧ 0 ≤ s.eye_r_width_default

/-- Reachability through the public surface where the explicit size
arguments of `eyes_width`/`eyes_height` are nonnegative pixel counts, as
the data model prescribes (the radius and spacing setters and everything
else stay unrestricted). -/
inductive ReachNN : RoboState → Prop
  | init (w h fr : Int) : ReachNN (initRoboEyes w h fr)
  | tick (i : TickIn) {s : RoboState} : ReachNN s → ReachNN (drawEyes i s)
  | framerate (fps : Int) {s : RoboState} : ReachNN s → ReachNN (setFramerate s fps)
  | width (l r : Option Int) (hl : ∀ v ∈ l, 0 ≤ v) (hr : ∀ v ∈ r, 0 ≤ v)
      {s : RoboState} : ReachNN s → ReachNN (eyesWidth s l r)
  | height (l r : Option Int) (hl : ∀ v ∈ l, 0 ≤ v) (hr : ∀ v ∈ r, 0 ≤ v)
      {s : RoboState} : ReachNN s → ReachNN (eyesHeight s l r)
  | radius (l r : Option Int) {s : RoboState} : ReachNN s → ReachNN (eyesRadius s l r)
  | spacing (v : Int) {s : RoboState} : ReachNN s → ReachNN (eyesSpacing s v)
  | mood (v : Int) {s : RoboState} : ReachNN s → ReachNN (setMood s v)
  | curious (bv : Bool) {s : RoboState} : ReachNN s → ReachNN (setCurious s bv)
  | cyclops (bv : Bool) {s : RoboState} : ReachNN s → ReachNN (setCyclops s bv)
  | hflicker (e : Bool) (a : Option Int) {s : RoboState} :
      ReachNN s → ReachNN (horizFlicker s e a)
  | vflicker (e : Bool) (a : Option Int) {s : RoboState} :
      ReachNN s → ReachNN (vertFlicker s e a)
  | autoblink (a : Bool) (iv vv : Option Int) {s : RoboState} :
      ReachNN s → ReachNN (setAutoBlinker s a iv vv)
  | idlemode (a : Bool) (iv vv : Option Int) {s : RoboState} :
      ReachNN s → ReachNN (setIdleMode s a iv vv)
  | pos (d : Int) {s : RoboState} : ReachNN s → ReachNN (setPosition s d)
  | closeOp (l r : Option Bool) {s : RoboState} : ReachNN s → ReachNN (close s l r)
  | openOp (l r : Option Bool) {s : RoboState} : ReachNN s → ReachNN (openEyes s l r)
  | blinkOp (l r : Option Bool) {s : RoboState} : ReachNN s → ReachNN (blink s l r)
  | confuseOp {s : RoboState} : ReachNN s → ReachNN (confuse s)
  | laughOp {s : RoboState} : ReachNN s → ReachNN (startLaugh s)
  | winkOp (l r : Option Bool) {s s' : RoboState} :
      ReachNN s → wink s l r = Except.ok s' → ReachNN s'

theorem optUpd_nonneg {l : Option Int} (hl : ∀ v ∈ l, 0 ≤ v) (x : Int) (hx : 0 ≤ x) :
    0 ≤ (if l.isSome then l.getD 0 else x) := by
  cases l with
  | none => simpa
  | some v => simpa using hl v rfl

theorem nn_stageCurious {s : RoboState} (h : NN s) :
    NN (stageCurious s) ∧ 0 ≤ (stageCurious s).eye_l_height_offset
      ∧ 0 ≤ (stageCurious s).eye_r_height_offset := by
  obtain ⟨h1, h2, h3, h4, h5, h6, h7, h8, h9, h10, h11, h12⟩ := h
  refine ⟨⟨?_, ?_, ?_, ?_, ?_, ?_, ?_, ?_, ?_, ?_, ?_, ?_⟩, ?_, ?_⟩ <;>
    simp <;> (try split_ifs) <;> omega

theorem nn_stageHeights {s : RoboState} (h : NN s)
    (ho1 : 0 ≤ s.eye_l_height_offset) (ho2 : 0 ≤ s.eye_r_height_offset) :
    NN (stageHeights s) := by
  obtain ⟨h1, h2, h3, h4, h5, h6, h7, h8, h9, h10, h11, h12⟩ := h
  refine ⟨?_, ?_, ?_, ?_, ?_, ?_, ?_, ?_, ?_, ?_, ?_, ?_⟩ <;>
    simp [fdiv2_eq] <;> (try split_ifs) <;> omega

theorem nn_stageReopen {s : RoboState} (h : NN s) : NN (stageReopen s) := by
  obtain ⟨h1, h2, h3, h4, h5, h6, h7, h8, h9, h10, h11, h12⟩ := h
  refine ⟨?_, ?_, ?_, ?_, ?_, ?_, ?_, ?_, ?_, ?_, ?_, ?_⟩ <;>
    simp <;> (try split_ifs) <;> omega

theorem nn_stageWidthSpace {s : RoboState} (h : NN s) : NN (stageWidthSpace s) := by
  obtain ⟨h1, h2, h3, h4, h5, h6, h7, h8, h9, h10, h11, h12⟩ := h
  refine ⟨?_, ?_, ?_, ?_, ?_, ?_, ?_, ?_, ?_, ?_, ?_, ?_⟩ <;>
    simp [fdiv2_eq] <;> (try split_ifs) <;> omega

theorem nn_stagePositions {s : RoboState} (h : NN s) : NN (stagePositions s) := by
  obtain ⟨h1, h2, h3, h4, h5, h6, h7, h8, h9, h10, h11, h12⟩ := h
  exact ⟨by simpa using h1, by simpa using h2, by simpa using h3, by simpa using h4,
    by simpa using h5, by simpa using h6, by simpa using h7, by simpa using h8,
    by simpa using h9, by simpa using h10, by simpa using h11, by simpa using h12⟩

theorem nn_stageRadius {s : RoboState} (h : NN s) : NN (stageRadius s) := by
  obtain ⟨h1, h2, h3, h4, h5, h6, h7, h8, h9, h10, h11, h12⟩ := h
  exact ⟨by simpa using h1, by simpa using h2, by simpa using h3, by simpa using h4,
    by simpa using h5, by simpa using h6, by simpa using h7, by simpa using h8,
    by simpa using h9, by simpa using h10, by simpa using h11, by simpa using h12⟩

theorem nn_stageAutoblink (now rand : Int) {s : RoboState} (h : NN s) :
    NN (stageAutoblink now rand s) := by
  obtain ⟨h1, h2, h3, h4, h5, h6, h7, h8, h9, h10, h11, h12⟩ := h
  refine ⟨?_, ?_, ?_, ?_, ?_, ?_, ?_, ?_, ?_, ?_, ?_, ?_⟩ <;>
    simp <;> (try split_ifs) <;> omega

theorem nn_stageLaugh (now : Int) {s : RoboState} (h : NN s) : NN (stageLaugh now s) := by
  obtain ⟨h1, h2, h3, h4, h5, h6, h7, h8, h9, h10, h11, h12⟩ := h
  exact ⟨by simpa using h1, by simpa using h2, by simpa using h3, by simpa using h4,
    by simpa using h5, by simpa using h6, by simpa using h7, by simpa using h8,
    by simpa using h9, by simpa using h10, by simpa using h11, by simpa using h12⟩

theorem nn_stageConfused (now : Int) {s : RoboState} (h : NN s) : NN (stageConfused now s) := by
  obtain ⟨h1, h2, h3, h4, h5, h6, h7, h8, h9, h10, h11, h12⟩ := h
  exact ⟨by simpa using h1, by simpa using h2, by simpa using h3, by simpa using h4,
    by simpa using h5, by simpa using h6, by simpa using h7, by simpa using h8,
    by simpa using h9, by simpa using h10, by simpa using h11, by simpa using h12⟩

theorem nn_stageIdle (now rx ry rt : Int) {s : RoboState} (h : NN s) :
    NN (stageIdle now rx ry rt s) := by
  obtain ⟨h1, h2, h3, h4, h5, h6, h7, h8, h9, h10, h11, h12⟩ := h
  exact ⟨by simpa using h1, by simpa using h2, by simpa using h3, by simpa using h4,
    by simpa using h5, by simpa using h6, by simpa using h7, by simpa using h8,
    by simpa using h9, by simpa using h10, by simpa using h11, by simpa using h12⟩

theorem nn_stageHFlicker {s : RoboState} (h : NN s) : NN (stageHFlicker s) := by
  obtain ⟨h1, h2, h3, h4, h5, h6, h7, h8, h9, h10, h11, h12⟩ := h
  exact ⟨by simpa using h1, by simpa using h2, by simpa using h3, by simpa using h4,
    by simpa using h5, by simpa using h6, by simpa using h7, by simpa using h8,
    by simpa using h9, by simpa using h10, by simpa using h11, by simpa using h12⟩

theorem nn_stageVFlicker {s : RoboState} (h : NN s) : NN (stageVFlicker s) := by
  obtain ⟨h1, h2, h3, h4, h5, h6, h7, h8, h9, h10, h11, h12⟩ := h
  exact ⟨by simpa using h1, by simpa using h2, by simpa using h3, by simpa using h4,
    by simpa using h5, by simpa using h6, by simpa using h7, by simpa using h8,
    by simpa using h9, by simpa using h10, by simpa using h11, by simpa using h12⟩

theorem nn_stageEyelids {s : RoboState} (h : NN s) : NN (stageEyelids s) := by
  obtain ⟨h1, h2, h3, h4, h5, h6, h7, h8, h9, h10, h11, h12⟩ := h
  exact ⟨by simpa using h1, by simpa using h2, by simpa using h3, by simpa using h4,
    by simpa using h5, by simpa using h6, by simpa using h7, by simpa using h8,
    by simpa using h9, by simpa using h10, by simpa using h11, by simpa using h12⟩

/-- One tick keeps all twelve tracked dimensions nonnegative: the
curious offsets are 0 or 8, both smoothing averages of nonnegative
quantities stay nonnegative, and the reopen and auto-blink writes
install `height_default` resp. 1. -/
theorem drawEyes_nn (i : TickIn) {s : RoboState} (h : NN s) : NN (drawEyes i s) := by
  obtain ⟨n1, o1, o2⟩ := nn_stageCurious h
  exact nn_stageEyelids (nn_stageVFlicker (nn_stageHFlicker
    (nn_stageIdle i.now i.rand_idle_x i.rand_idle_y i.rand_idle_t
      (nn_stageConfused i.now (nn_stageLaugh i.now
        (nn_stageAutoblink i.now i.rand_blink
          (nn_stageRadius (nn_stagePositions (nn_stageWidthSpace
            (nn_stageReopen (nn_stageHeights n1 o1 o2)))))))))))

theorem reachNN_nn {s : RoboState} (h : ReachNN s) : NN s := by
  induction h with
  | init w h fr =>
    refine ⟨?_, ?_, ?_, ?_, ?_, ?_, ?_, ?_, ?_, ?_, ?_, ?_⟩ <;>
      simp [initRoboEyes, drawEyes, mkRoboEyes] <;> decide
  | tick i hr ih => exact drawEyes_nn i ih
  | width l r hl hr' hs ih =>
    obtain ⟨h1, h2, h3, h4, h5, h6, h7, h8, h9, h10, h11, h12⟩ := ih
    exact ⟨by simpa using h1, by simpa using h2, by simpa using h3,
      by simpa using h4, by simpa using h5, by simpa using h6,
      by simpa using h7,
      by rw [eyesWidth_eye_l_width_next]; exact optUpd_nonneg hl _ h8,
      by rw [eyesWidth_eye_l_width_default]; exact optUpd_nonneg hl _ h9,
      by simpa using h10,
      by rw [eyesWidth_eye_r_width_next]; exact optUpd_nonneg hr' _ h11,
      by rw [eyesWidth_eye_r_width_default]; exact optUpd_nonneg hr' _ h12⟩
  | height l r hl hr' hs ih =>
    obtain ⟨h1, h2, h3, h4, h5, h6, h7, h8, h9, h10, h11, h12⟩ := ih
    exact ⟨by simpa using h1,
      by rw [eyesHeight_eye_l_height_next]; exact optUpd_nonneg hl _ h2,
      by rw [eyesHeight_eye_l_height_default]; exact optUpd_nonneg hl _ h3,
      by simpa using h4,
      by rw [eyesHeight_eye_r_height_next]; exact optUpd_nonneg hr' _ h5,
      by rw [eyesHeight_eye_r_height_default]; exact optUpd_nonneg hr' _ h6,
      by simpa using h7, by simpa using h8, by simpa using h9,
      by simpa using h10, by simpa using h11, by simpa using h12⟩
  | framerate fps hr ih =>
    obtain ⟨h1, h2, h3, h4, h5, h6, h7, h8, h9, h10, h11, h12⟩ := ih
    refine ⟨?_, ?_, ?_, ?_, ?_, ?_, ?_, ?_, ?_, ?_, ?_, ?_⟩ <;>
      simp <;> (try split_ifs) <;> omega
  | radius l r hr ih =>
    obtain ⟨h1, h2, h3, h4, h5, h6, h7, h8, h9, h10, h11, h12⟩ := ih
    refine ⟨?_, ?_, ?_, ?_, ?_, ?_, ?_, ?_, ?_, ?_, ?_, ?_⟩ <;>
      simp <;> (try split_ifs) <;> omega
  | spacing v hr ih =>
    obtain ⟨h1, h2, h3, h4, h5, h6, h7, h8, h9, h10, h11, h12⟩ := ih
    refine ⟨?_, ?_, ?_, ?_, ?_, ?_, ?_, ?_, ?_, ?_, ?_, ?_⟩ <;>
      simp <;> (try split_ifs) <;> omega
  | mood v hr ih =>
    obtain ⟨h1, h2, h3, h4, h5, h6, h7, h8, h9, h10, h11, h12⟩ := ih
    refine ⟨?_, ?_, ?_, ?_, ?_, ?_, ?_, ?_, ?_, ?_, ?_, ?_⟩ <;>
      simp <;> (try split_ifs) <;> omega
  | curious bv hr ih =>
    obtain ⟨h1, h2, h3, h4, h5, h6, h7, h8, h9, h10, h11, h12⟩ := ih
    refine ⟨?_, ?_, ?_, ?_, ?_, ?_, ?_, ?_, ?_, ?_, ?_, ?_⟩ <;>
      simp <;> (try split_ifs) <;> omega
  | cyclops bv hr ih =>
    obtain ⟨h1, h2, h3, h4, h5, h6, h7, h8, h9, h10, h11, h12⟩ := ih
    refine ⟨?_, ?_, ?_, ?_, ?_, ?_, ?_, ?_, ?_, ?_, ?_, ?_⟩ <;>
      simp <;> (try split_ifs) <;> omega
  | hflicker e a hr ih =>
    obtain ⟨h1, h2, h3, h4, h5, h6, h7, h8, h9, h10, h11, h12⟩ := ih
    refine ⟨?_, ?_, ?_, ?_, ?_, ?_, ?_, ?_, ?_, ?_, ?_, ?_⟩ <;>
      simp <;> (try split_ifs) <;> omega
  | vflicker e a hr ih =>
    obtain ⟨h1, h2, h3, h4, h5, h6, h7, h8, h9, h10, h11, h12⟩ := ih
    refine ⟨?_, ?_, ?_, ?_, ?_, ?_, ?_, ?_, ?_, ?_, ?_, ?_⟩ <;>
      simp <;> (try split_ifs) <;> omega
  | autoblink a iv vv hr ih =>
    obtain ⟨h1, h2, h3, h4, h5, h6, h7, h8, h9, h10, h11, h12⟩ := ih
    refine ⟨?_, ?_, ?_, ?_, ?_, ?_, ?_, ?_, ?_, ?_, ?_, ?_⟩ <;>
      simp <;> (try split_ifs) <;> omega
  | idlemode a iv vv hr ih =>
    obtain ⟨h1, h2, h3, h4, h5, h6, h7, h8, h9, h10, h11, h12⟩ := ih
    refine ⟨?_, ?_, ?_, ?_, ?_, ?_, ?_, ?_, ?_, ?_, ?_, ?_⟩ <;>
      simp <;> (try split_ifs) <;> omega
  | pos d hr ih =>
    obtain ⟨h1, h2, h3, h4, h5, h6, h7, h8, h9, h10, h11, h12⟩ := ih
    refine ⟨?_, ?_, ?_, ?_, ?_, ?_, ?_, ?_, ?_, ?_, ?_, ?_⟩ <;>
      simp <;> (try split_ifs) <;> omega
  | closeOp l r hr ih =>
    obtain ⟨h1, h2, h3, h4, h5, h6, h7, h8, h9, h10, h11, h12⟩ := ih
    refine ⟨?_, ?_, ?_, ?_, ?_, ?_, ?_, ?_, ?_, ?_, ?_, ?_⟩ <;>
      simp <;> (try split_ifs) <;> omega
  | openOp l r hr ih =>
    obtain ⟨h1, h2, h3, h4, h5, h6, h7, h8, h9, h10, h11, h12⟩ := ih
    refine ⟨?_, ?_, ?_, ?_, ?_, ?_, ?_, ?_, ?_, ?_, ?_, ?_⟩ <;>
      simp <;> (try split_ifs) <;> omega
  | blinkOp l r hr ih =>
    obtain ⟨h1, h2, h3, h4, h5, h6, h7, h8, h9, h10, h11, h12⟩ := ih
    refine ⟨?_, ?_, ?_, ?_, ?_, ?_, ?_, ?_, ?_, ?_, ?_, ?_⟩ <;>
      simp [blink_eq] <;> (try split_ifs) <;> omega
  | confuseOp hr ih =>
    obtain ⟨h1, h2, h3, h4, h5, h6, h7, h8, h9, h10, h11, h12⟩ := ih
    refine ⟨?_, ?_, ?_, ?_, ?_, ?_, ?_, ?_, ?_, ?_, ?_, ?_⟩ <;>
      simp <;> (try split_ifs) <;> omega
  | laughOp hr ih =>
    obtain ⟨h1, h2, h3, h4, h5, h6, h7, h8, h9, h10, h11, h12⟩ := ih
    refine ⟨?_, ?_, ?_, ?_, ?_, ?_, ?_, ?_, ?_, ?_, ?_, ?_⟩ <;>
      simp <;> (try split_ifs) <;> omega
  | winkOp l r hr heq ih =>
    obtain ⟨h1, h2, h3, h4, h5, h6, h7, h8, h9, h10, h11, h12⟩ := ih
    rw [wink_ok_inv heq]
    refine ⟨?_, ?_, ?_, ?_, ?_, ?_, ?_, ?_, ?_, ?_, ?_, ?_⟩ <;>
      simp [blink_eq] <;> (try split_ifs) <;> omega

/-- Claim C1 (amended): for every state reachable through ticks and the
public mutators (with nonnegative size arguments, per the data model),
`height_current ≥ 0` and `width_current ≥ 0` hold for both eyes.  The
claimed bound `border_radius_current ≤ min(width_current,
height_current) / 2` does not hold on the code — see
`border_radius_bound_violated` — because no clamp ties the radius state
to the shrinking height. -/
theorem eye_geometry_nonneg_reachable (s : RoboState) (hs : ReachNN s) :
    0 ≤ s.eye_l_height_current ∧ 0 ≤ s.eye_r_height_current ∧
    0 ≤ s.eye_l_width_current ∧ 0 ≤ s.eye_r_width_current := by
  obtain ⟨h1, _, _, h4, _, _, h7, _, _, h10, _, _⟩ := reachNN_nn hs
  exact ⟨h1, h4, h7, h10⟩

/-- Witness for C1 (amended) at the concrete freshly constructed engine. -/
theorem eye_geometry_nonneg_reachable_witness :
    0 ≤ (initRoboEyes 240 320 60).eye_l_height_current ∧
    0 ≤ (initRoboEyes 240 320 60).eye_r_height_current ∧
    0 ≤ (initRoboEyes 240 320 60).eye_l_width_current ∧
    0 ≤ (initRoboEyes 240 320 60).eye_r_width_current :=
  eye_geometry_nonneg_reachable (initRoboEyes 240 320 60) (ReachNN.init 240 320 60)

/-! ### Claim C3: the right eye tracks the left eye's target -/

/-- A fresh 240×320 engine with idle mode enabled, after one tick in
which the idle macro fires (`now = 0` is past the initial
`idle_animation_timer = 0`) and `random.randint(0, constraint)` returns
0 for both coordinates — an admissible outcome, the constraints being
158 and 284. -/
def c3state : RoboState :=
  drawEyes ⟨0, 0, 0, 0, 0⟩ (setIdleMode (initRoboEyes 240 320 60) true none none)

/-- Counterexample to claim C3 as stated: with idle mode on, the idle
macro rewrites `eye_l_x_next` *after* the tick has recomputed
`eye_r_x_next` from the old left target, so at the end of the call (and
hence at the start of the next tick) the claimed equality fails:
`eye_r_x_next = 125` but `eye_l_x_next + width + spacing = 46`. -/
theorem right_eye_target_desync_under_idle :
    ¬(c3state.eye_r_x_next =
        c3state.eye_l_x_next + c3state.eye_l_width_current + c3state.space_between_current) := by
  decide

/-- Claim C3 (amended): whenever idle mode is disabled, every
`draw_eyes` call ends — and hence every following tick starts — with
`eye_r_x_next = eye_l_x_next + eye_l_width_current +
space_between_current` and `eye_r_y_next = eye_l_y_next`, in every
configuration (cyclops included: the right-eye target tracking always
runs).  With idle mode enabled the idle macro's random retargeting of
the left eye breaks the equality until the next tick. -/
theorem right_eye_tracks_left_when_idle_off (i : TickIn) (s : RoboState)
    (hi : s.idle = false) :
    (drawEyes i s).eye_r_x_next =
      (drawEyes i s).eye_l_x_next + (drawEyes i s).eye_l_width_current
        + (drawEyes i s).space_between_current
    ∧ (drawEyes i s).eye_r_y_next = (drawEyes i s).eye_l_y_next := by
  constructor <;> simp [drawEyes, hi]

/-- Witness for C3 (amended) at the concrete freshly constructed engine
(idle off) with the all-zero oracle. -/
theorem right_eye_tracks_left_when_idle_off_witness :
    (initRoboEyes 240 320 60).idle = false ∧
    ((drawEyes ⟨0, 0, 0, 0, 0⟩ (initRoboEyes 240 320 60)).eye_r_x_next =
      (drawEyes ⟨0, 0, 0, 0, 0⟩ (initRoboEyes 240 320 60)).eye_l_x_next
        + (drawEyes ⟨0, 0, 0, 0, 0⟩ (initRoboEyes 240 320 60)).eye_l_width_current
        + (drawEyes ⟨0, 0, 0, 0, 0⟩ (initRoboEyes 240 320 60)).space_between_current
    ∧ (drawEyes ⟨0, 0, 0, 0, 0⟩ (initRoboEyes 240 320 60)).eye_r_y_next =
      (drawEyes ⟨0, 0, 0, 0, 0⟩ (initRoboEyes 240 320 60)).eye_l_y_next) :=
  ⟨by decide,
    right_eye_tracks_left_when_idle_off ⟨0, 0, 0, 0, 0⟩ (initRoboEyes 240 320 60) (by decide)⟩

/-! ### Claim C2: blink and reopen

With curious mode off, the auto-blinker off and an eye flagged open,
the tick acts on that eye's `(height_current, height_next)` pair as the
scalar system `hstep`: smooth, then re-target `height_default` once the
height has collapsed to `≤ 1`. -/

def hstep (d : Int) (p : Int × Int) : Int × Int :=
  (Int.fdiv (p.1 + p.2) 2,
   if Int.fdiv (p.1 + p.2) 2 ≤ 1 then d else p.2)

/-- The configuration under which the blink-reopen claim is stated: no
curious offsets, no competing auto-blinker close, both eyes flagged
open. -/
def tickInv (s : RoboState) : Prop :=
  s.curious = false ∧ s.autoblinker = false ∧
  s.eye_l_open = true ∧ s.eye_r_open = true

theorem drawEyes_hsim (i : TickIn) {s : RoboState} (h : tickInv s) :
    ((drawEyes i s).eye_l_height_current, (drawEyes i s).eye_l_height_next)
        = hstep s.eye_l_height_default (s.eye_l_height_current, s.eye_l_height_next)
    ∧ ((drawEyes i s).eye_r_height_current, (drawEyes i s).eye_r_height_next)
        = hstep s.eye_r_height_default (s.eye_r_height_current, s.eye_r_height_next)
    ∧ tickInv (drawEyes i s)
    ∧ (drawEyes i s).eye_l_height_default = s.eye_l_height_default
    ∧ (drawEyes i s).eye_r_height_default = s.eye_r_height_default := by
  obtain ⟨hc, ha, ho1, ho2⟩ := h
  refine ⟨?_, ?_, ⟨?_, ?_, ?_, ?_⟩, ?_, ?_⟩ <;>
    simp [drawEyes, hstep, hc, ha, ho1, ho2, Prod.ext_iff]

theorem tickN_hsim (ins : Nat → TickIn) {s : RoboState} (h : tickInv s) :
    ∀ n : Nat,
      ((tickN ins n s).eye_l_height_current, (tickN ins n s).eye_l_height_next)
          = (hstep s.eye_l_height_default)^[n] (s.eye_l_height_current, s.eye_l_height_next)
      ∧ ((tickN ins n s).eye_r_height_current, (tickN ins n s).eye_r_height_next)
          = (hstep s.eye_r_height_default)^[n] (s.eye_r_height_current, s.eye_r_height_next)
      ∧ tickInv (tickN ins n s)
      ∧ (tickN ins n s).eye_l_height_default = s.eye_l_height_default
      ∧ (tickN ins n s).eye_r_height_default = s.eye_r_height_default := by
  intro n
  induction n with
  | zero => exact ⟨rfl, rfl, h, rfl, rfl⟩
  | succ n ih =>
    obtain ⟨e1, e2, hin, d1, d2⟩ := ih
    obtain ⟨f1, f2, hin2, g1, g2⟩ := drawEyes_hsim (ins n) hin
    have ht : tickN ins (n + 1) s = drawEyes (ins n) (tickN ins n s) := rfl
    refine ⟨?_, ?_, by rw [ht]; exact hin2, by rw [ht, g1, d1], by rw [ht, g2, d2]⟩
    · rw [ht, f1, d1, e1, Function.iterate_succ_apply']
    · rw [ht, f2, d2, e2, Function.iterate_succ_apply']

theorem hstep_stay (d : Int) (h2 : 2 ≤ d) : hstep d (d - 1, d) = (d - 1, d) := by
  unfold hstep
  simp only [fdiv2_eq, Prod.ext_iff]
  constructor
  · show (d - 1 + d) / 2 = d - 1
    omega
  · show (if (d - 1 + d) / 2 ≤ 1 then d else d) = d
    split_ifs <;> rfl

theorem hstep_phase2 (d : Int) (h2 : 2 ≤ d) :
    ∀ (k : Nat) (hc : Int), 1 ≤ hc → hc ≤ d - 1 → (d - 1 - hc).toNat ≤ k →
      (hstep d)^[k] (hc, d) = (d - 1, d) := by
  intro k
  induction k with
  | zero =>
    intro hc hx1 hx2 hx3
    have he : hc = d - 1 := by omega
    subst he
    rfl
  | succ k ih =>
    intro hc hx1 hx2 hx3
    rcases eq_or_lt_of_le hx2 with heq | hlt
    · subst heq
      rw [Function.iterate_succ_apply, hstep_stay d h2]
      exact ih (d - 1) hx1 le_rfl (by omega)
    · have hstep_eq : hstep d (hc, d) = (Int.fdiv (hc + d) 2, d) := by
        unfold hstep
        split_ifs <;> rfl
      rw [Function.iterate_succ_apply, hstep_eq]
      refine ih _ ?_ ?_ ?_ <;> rw [fdiv2_eq] <;> omega

theorem hstep_phase1 (d : Int) (h2 : 2 ≤ d) :
    ∀ (k : Nat) (hc : Int), 1 ≤ hc → hc ≤ (k : Int) + 2 →
      ∃ j : Nat, j ≤ k + 1 ∧ (hstep d)^[j] (hc, 1) = (1, d) := by
  intro k
  induction k with
  | zero =>
    intro hc hx1 hx2
    refine ⟨1, le_rfl, ?_⟩
    have hv : Int.fdiv (hc + 1) 2 = 1 := by rw [fdiv2_eq]; omega
    rw [Function.iterate_one]
    unfold hstep
    simp [hv]
  | succ k ih =>
    intro hc hx1 hx2
    by_cases hsmall : hc ≤ 2
    · refine ⟨1, by omega, ?_⟩
      have hv : Int.fdiv (hc + 1) 2 = 1 := by rw [fdiv2_eq]; omega
      rw [Function.iterate_one]
      unfold hstep
      simp [hv]
    · push_neg at hsmall
      have hstep_eq : hstep d (hc, 1) = (Int.fdiv (hc + 1) 2, 1) := by
        unfold hstep
        have hng : ¬(Int.fdiv (hc + 1) 2 ≤ 1) := by rw [fdiv2_eq]; omega
        simp [hng]
      obtain ⟨j, hj, hiter⟩ := ih (Int.fdiv (hc + 1) 2)
        (by rw [fdiv2_eq]; omega) (by rw [fdiv2_eq]; omega)
      refine ⟨j + 1, by omega, ?_⟩
      rw [Function.iterate_succ_apply, hstep_eq, hiter]

theorem hstep_converges (d hc : Int) (h2 : 2 ≤ d) (h1 : 1 ≤ hc) :
    ∃ n0 : Nat, ∀ m : Nat, n0 ≤ m → (hstep d)^[m] (hc, 1) = (d - 1, d) := by
  obtain ⟨j, hj, hiter⟩ := hstep_phase1 d h2 hc.toNat hc h1 (by omega)
  refine ⟨j + (d - 2).toNat, fun m hm => ?_⟩
  have hsplit : m = (m - j) + j := by omega
  rw [hsplit, Function.iterate_add_apply, hiter]
  exact hstep_phase2 d h2 (m - j) 1 le_rfl (by omega) (by omega)

/-- A fresh 240×320 engine right after `blink()` on both eyes:
`height_current = 18`, `height_next = 1`, both open flags set. -/
def c2state : RoboState := blink (initRoboEyes 240 320 60) none none

/-- Counterexample to claim C2 as stated: after `blink()` the left eye's
`height_current` NEVER again equals `height_default = 36`.  The
smoothing `(current + next) // 2` has `default - 1` as its fixed point
from below — from `35` the next value is `(35 + 36) // 2 = 35` — so the
reopened eye settles at 35, one pixel short of the claimed exact
restoration. -/
theorem blink_never_restores_exact_default :
    ¬ ∃ n : Nat, (tickN insZero n c2state).eye_l_height_current
        = c2state.eye_l_height_default := by
  rintro ⟨n, hn⟩
  have hinv : tickInv c2state := ⟨by decide, by decide, by decide, by decide⟩
  obtain ⟨e1, _, _, _, _⟩ := tickN_hsim insZero hinv n
  have hc : c2state.eye_l_height_current = 18 := by decide
  have hn1 : c2state.eye_l_height_next = 1 := by decide
  have hd : c2state.eye_l_height_default = 36 := by decide
  rw [hc, hn1, hd] at e1
  have hb : ∀ m : Nat, ((hstep 36)^[m] ((18 : Int), (1 : Int))).1 ≤ 35
      ∧ ((hstep 36)^[m] ((18 : Int), (1 : Int))).2 ≤ 36 := by
    intro m
    induction m with
    | zero => exact ⟨by decide, by decide⟩
    | succ m ih =>
      obtain ⟨ih1, ih2⟩ := ih
      rw [Function.iterate_succ_apply']
      constructor
      · show Int.fdiv (((hstep 36)^[m] (18, 1)).1 + ((hstep 36)^[m] (18, 1)).2) 2 ≤ 35
        rw [fdiv2_eq]
        omega
      · show (if Int.fdiv (((hstep 36)^[m] (18, 1)).1 + ((hstep 36)^[m] (18, 1)).2) 2 ≤ 1
            then (36 : Int) else ((hstep 36)^[m] (18, 1)).2) ≤ 36
        split_ifs <;> omega
  have hfst : (tickN insZero n c2state).eye_l_height_current
      = ((hstep 36)^[n] ((18 : Int), (1 : Int))).1 := congrArg Prod.fst e1
  have hub := (hb n).1
  rw [hd] at hn
  omega

/-- Claim C2 (amended): from any state satisfying the blink postcondition
(`height_next = 1`, open flags set, `height_current ≥ 1`) with curious
mode off, the auto-blinker off (no competing close) and default heights
of at least 2, finitely many further ticks drive `height_current` of
both eyes to exactly `height_default - 1` — not `height_default` — and
it stays there.  The auto-reopen step does fire once the height has
collapsed to `≤ 1`, but the integer smoothing settles one pixel below
the default. -/
theorem blink_reopen_settles_below_default (ins : Nat → TickIn) (s : RoboState)
    (hcur : s.curious = false) (hab : s.autoblinker = false)
    (holL : s.eye_l_open = true) (holR : s.eye_r_open = true)
    (hnL : s.eye_l_height_next = 1) (hnR : s.eye_r_height_next = 1)
    (hcL : 1 ≤ s.eye_l_height_current) (hcR : 1 ≤ s.eye_r_height_current)
    (hdL : 2 ≤ s.eye_l_height_default) (hdR : 2 ≤ s.eye_r_height_default) :
    ∃ n0 : Nat, ∀ m : Nat, n0 ≤ m →
      (tickN ins m s).eye_l_height_current = s.eye_l_height_default - 1 ∧
      (tickN ins m s).eye_r_height_current = s.eye_r_height_default - 1 := by
  obtain ⟨nL, hL⟩ := hstep_converges s.eye_l_height_default s.eye_l_height_current hdL hcL
  obtain ⟨nR, hR⟩ := hstep_converges s.eye_r_height_default s.eye_r_height_current hdR hcR
  refine ⟨max nL nR, fun m hm => ?_⟩
  obtain ⟨e1, e2, _, _, _⟩ := tickN_hsim ins ⟨hcur, hab, holL, holR⟩ m
  rw [hnL] at e1
  rw [hnR] at e2
  constructor
  · have hfst : (tickN ins m s).eye_l_height_current
        = ((hstep s.eye_l_height_default)^[m] (s.eye_l_height_current, 1)).1 :=
      congrArg Prod.fst e1
    rw [hL m (le_trans (le_max_left nL nR) hm)] at hfst
    exact hfst
  · have hfst : (tickN ins m s).eye_r_height_current
        = ((hstep s.eye_r_height_default)^[m] (s.eye_r_height_current, 1)).1 :=
      congrArg Prod.fst e2
    rw [hR m (le_trans (le_max_right nL nR) hm)] at hfst
    exact hfst

/-- Witness for C2 (amended): the freshly constructed engine after
`blink()` on both eyes satisfies every hypothesis, so both heights
settle at `36 - 1 = 35`. -/
theorem blink_reopen_settles_below_default_witness :
    ∃ n0 : Nat, ∀ m : Nat, n0 ≤ m →
      (tickN insZero m c2state).eye_l_height_current = c2state.eye_l_height_default - 1 ∧
      (tickN insZero m c2state).eye_r_height_current = c2state.eye_r_height_default - 1 :=
  blink_reopen_settles_below_default insZero c2state (by decide) (by decide)
    (by decide) (by decide) (by decide) (by decide) (by decide) (by decide)
    (by decide) (by decide)

end Robo
